import Mathlib

/-!
Boiler controller (src/src/main.cpp): shallow embedding

The globals of `main.cpp` that belong to the control core are gathered in
records that are threaded through the functions.  Conventions:

* `double` values are exact rationals (`ℚ`) and the `double` arithmetic of
  `loop()` is exact rational arithmetic; a value that may be `NAN` is an
  `Option ℚ` with `none` for `NAN`.
* The `float` globals `lastTempDuringMachineOffMonitoring` and
  `previousTempForRateCheck` hold values rounded to `float` (`roundFloat`),
  and the rate check of the standby, which mixes `float` and `double`, is
  evaluated with the roundings the machine performs.
* The temperature filter in `loop_temperature` uses the weights 0.07 and
  0.93; `emaStepMachine` is the same update with the `float` weights and the
  `double` roundings of the machine, and the two differ by at most
  `(|sample| + |previous|) / 10^8` (`emaStepMachine_near_exact`).
* `unsigned long` timestamps are natural numbers below `2^32`; the sums and
  differences the code computes on them are taken modulo `2^32`
  (`uadd`, `usub`).
* The `int` counter `consecutiveFailedHeatingAttempts` is a natural number:
  it starts at 0 and is only incremented or reset.  An increment takes a
  heating cycle of at least three passes of `loop()`, with 10 s of
  observation on a clock that runs in real time; the `2^31` increments an
  overflow needs are out of reach and no overflow is modelled.
* Serial output, the OLED status text, the LEDs, WiFi/OTA/NTP, the shot timer
  and the chart history do not feed back into the control core and are left
  out.  `enteredIdleAfterEarlyCutoff` is declared in the source but never
  read or written and is left out as well.
-/

namespace Stilosa

/-! ## Machine arithmetic -/

/-- Number of values of `unsigned long` on the ESP32 (32 bits). -/
def ULONG_RANGE : Nat := 4294967296

/-- Unsigned 32-bit addition `a + b`. -/
def uadd (a b : Nat) : Nat := (a + b) % ULONG_RANGE

/-- Unsigned 32-bit subtraction `a - b`. -/
def usub (a b : Nat) : Nat := (a + (ULONG_RANGE - b % ULONG_RANGE)) % ULONG_RANGE

/-- The cast `(unsigned long)x` of a floating value: truncation.  The source
executes it only on positive operands, and on operands far below `2^32` for
every temperature the sensor can deliver; no wrap-around is modelled. -/
def toUnsignedLong (x : ℚ) : Nat := Int.toNat ⌊x⌋

/-! ## Floating-point rounding

The conversion of a real value to `float` or `double` and the result of one
arithmetic operation in one of these types, as IEEE 754 defines them: the
nearest number with a significand of 24 or 53 bits, ties to the even
significand.  The exponent range is not bounded (no overflow, no subnormal
numbers), which is exact for every value between 2^-126 and 2^127 in
magnitude. -/

/-- The power `2 ^ k` for an integer exponent. -/
def pow2 (k : ℤ) : ℚ :=
  if 0 ≤ k then ((2 ^ k.toNat : ℕ) : ℚ) else 1 / ((2 ^ (-k).toNat : ℕ) : ℚ)

/-- Binary logarithm of a natural number, rounded down, by repeated halving;
`fuel` bounds the number of halvings. -/
def log2Fuel : ℕ → ℕ → ℕ
  | 0, _ => 0
  | fuel + 1, n => if 2 ≤ n then log2Fuel fuel (n / 2) + 1 else 0

/-- Binary logarithm of a natural number, rounded down (0 for 0). -/
def natLog2 (n : ℕ) : ℕ := log2Fuel n n

/-- The exponent of the binade of a non-zero `x`: the integer `e` with
`2 ^ e ≤ |x| < 2 ^ (e + 1)`. -/
def floorLog2 (x : ℚ) : ℤ :=
  let k : ℤ := (natLog2 x.num.natAbs : ℤ) - (natLog2 x.den : ℤ)
  if pow2 k ≤ |x| then k else k - 1

/-- Rounding to the nearest integer, ties to the even one. -/
def roundNearestEven (y : ℚ) : ℤ :=
  let f := ⌊y⌋
  let r := y - f
  if r < 1 / 2 then f
  else if r > 1 / 2 then f + 1
  else if f % 2 = 0 then f else f + 1

/-- Rounding to the nearest binary floating-point number with a significand
of `p` bits, ties to even. -/
def roundBinary (p : ℕ) (x : ℚ) : ℚ :=
  if x = 0 then 0
  else
    let e := floorLog2 x - ((p : ℤ) - 1)
    (roundNearestEven (x / pow2 e) : ℚ) * pow2 e

/-- The value of type `float` nearest to `x`. -/
def roundFloat (x : ℚ) : ℚ := roundBinary 24 x

/-- The value of type `double` nearest to `x`. -/
def roundDouble (x : ℚ) : ℚ := roundBinary 53 x

/-- The rational `x` is a value of type `double`. -/
def IsDouble (x : ℚ) : Prop := roundDouble x = x

instance (x : ℚ) : Decidable (IsDouble x) := inferInstanceAs (Decidable (roundDouble x = x))

/-! ## Constants (main.cpp lines 60-185, 255-260) -/

def PRESSURE_RAW_SAMPLES_COUNT : Nat := 7
def PRESSURE_SAMPLES_TO_DISCARD_EACH_END : Nat := 1
def PRESSURE_SMOOTHING_SAMPLES : Nat := 5
def VOLTS_AT_0_BAR : ℚ := 34 / 100
def VOLTS_AT_16_BAR : ℚ := 434 / 100
def PRESSURE_MAX_BAR : ℚ := 16
def ESP32_ADC_MAX_VOLTAGE : ℚ := 33 / 10
def ESP32_ADC_MAX_VALUE : ℚ := 4095
def CALIBRATION_POINTS_COUNT : Nat := 2
def raw_temps_c : List ℚ := [99, 115]
def actual_temps_c : List ℚ := [85, 978 / 10]
/-- The smoothing factor `TEMP_EMA_ALPHA = 0.07f` as written; the `float` the
machine holds is `roundFloat TEMP_EMA_ALPHA`. -/
def TEMP_EMA_ALPHA : ℚ := 7 / 100
def tempReadInterval : Nat := 500
def HEATER_SECONDS_PER_DEGREE_C : ℚ := 2
def MAX_HEATER_ON_DURATION_MS : Nat := 70 * 1000
def SETTLED_TEMP_RISE_MAX_C : ℚ := 3 / 10
def SETTLED_OBSERVATION_PERIOD_MS : Nat := 10 * 1000
def EARLY_CUTOFF_TEMP_C : ℚ := 76
def EARLY_CUTOFF_COOLDOWN_DURATION_MS : Nat := 60 * 1000
def PRESUMED_OFF_TEMP_THRESHOLD_C : ℚ := 86
def PRESUMED_OFF_DURATION_MS : Nat := 3 * 60 * 1000
def PRESUMED_OFF_CHECK_INTERVAL_MS : Nat := 10000
def MAX_CONSECUTIVE_HEATING_FAILURES : Nat := 5
def TEMP_DIFF_THRESHOLD_FOR_HEATING_FAILURE : ℚ := 5
def RATE_CHECK_INTERVAL_MS : Nat := 5000
def PRESSURE_STABILITY_SAMPLES_FOR_MAX : Nat := 5
def PRESSURE_STABILITY_THRESHOLD_FOR_MAX : ℚ := 2 / 10
def PRESSURE_RESUME_THRESHOLD_BAR : ℚ := 2

/-! ## State -/

/-- The enum `HeaterState`. -/
inductive HeaterState where
  | IDLE
  | HEATING
  | SETTLING
deriving DecidableEq, Repr

/-- Globals of the temperature filter. -/
structure TempFilter where
  smoothedTempC_EMA : Option ℚ
  lastTempReadTime : Nat
deriving DecidableEq

/-- Globals of the pressure moving average. -/
structure PressureFilter where
  pressureAdcSmoothingBuffer : List ℚ
  currentPressureAdcSmoothingIndex : Nat
  totalPressureAdcSmoothingSum : ℚ
  numPressureAdcValuesStored : Nat
deriving DecidableEq

/-- Globals of the peak-pressure tracker, with the plot-pause flags whose
transitions clear the peak. -/
structure MaxTracker where
  maxObservedPressure : ℚ
  pressureMaxStabilityBuffer : List ℚ
  pressureMaxStabilityIndex : Nat
  pressureMaxStabilityCount : Nat
  web_isTempPlotPaused : Bool
  web_isPressurePlotPaused : Bool
  lastPressureForPauseCheck_server : ℚ
deriving DecidableEq

/-- Globals of the heater state machine and of the machine-presence
detector. -/
structure Control where
  isRelayOn : Bool
  web_isRelayOn : Bool
  heaterStopTimeMs : Nat
  currentHeaterState : HeaterState
  desiredTemperatureC : ℚ
  settlingCheckStartTimeMs : Nat
  tempAtSettlingCheckStartC : ℚ
  lastCalculatedHeatDurationMs : Nat
  inEarlyCutoffCooldown : Bool
  earlyCutoffCooldownEndTime : Nat
  web_early_cutoff_signal : Bool
  machineIsPresumedOff : Bool
  machineOffMonitorStartTime : Nat
  isMonitoringForMachineOff : Bool
  lastTempDuringMachineOffMonitoring : ℚ
  lastMachineOffCheckTimestamp : Nat
  consecutiveFailedHeatingAttempts : Nat
  previousTempForRateCheck : ℚ
  lastRateCheckTime : Nat
deriving DecidableEq

/-- All globals of the control core. -/
structure State where
  temp : TempFilter
  press : PressureFilter
  peak : MaxTracker
  ctl : Control
  web_smoothedTempC : Option ℚ
  web_pressureBar : Option ℚ
  web_desiredTempC : ℚ
deriving DecidableEq

/-- The initial values of the globals, after `setup()` (relay off). -/
def boot : State where
  temp := { smoothedTempC_EMA := none, lastTempReadTime := 0 }
  press :=
    { pressureAdcSmoothingBuffer := List.replicate PRESSURE_SMOOTHING_SAMPLES 0
      currentPressureAdcSmoothingIndex := 0
      totalPressureAdcSmoothingSum := 0
      numPressureAdcValuesStored := 0 }
  peak :=
    { maxObservedPressure := 0
      pressureMaxStabilityBuffer := List.replicate PRESSURE_STABILITY_SAMPLES_FOR_MAX 0
      pressureMaxStabilityIndex := 0
      pressureMaxStabilityCount := 0
      web_isTempPlotPaused := false
      web_isPressurePlotPaused := false
      lastPressureForPauseCheck_server := 0 }
  ctl :=
    { isRelayOn := false
      web_isRelayOn := false
      heaterStopTimeMs := 0
      currentHeaterState := HeaterState.IDLE
      desiredTemperatureC := 90
      settlingCheckStartTimeMs := 0
      tempAtSettlingCheckStartC := 0
      lastCalculatedHeatDurationMs := 0
      inEarlyCutoffCooldown := false
      earlyCutoffCooldownEndTime := 0
      web_early_cutoff_signal := false
      machineIsPresumedOff := false
      machineOffMonitorStartTime := 0
      isMonitoringForMachineOff := false
      lastTempDuringMachineOffMonitoring := 100
      lastMachineOffCheckTimestamp := 0
      consecutiveFailedHeatingAttempts := 0
      previousTempForRateCheck := 0
      lastRateCheckTime := 0 }
  web_smoothedTempC := none
  web_pressureBar := none
  web_desiredTempC := 90

/-! ## Calibration (main.cpp lines 94-120) -/

/-- The function `getCalibratedTemperature` over a table of `n` configured
points. -/
def getCalibratedTemperatureWith (n : Nat) (raws actuals : List ℚ) (rawTempC : ℚ) : ℚ :=
  if n < 2 then rawTempC
  else
    let x1 := raws.getD 0 0
    let y1 := actuals.getD 0 0
    let x2 := raws.getD 1 0
    let y2 := actuals.getD 1 0
    if x2 - x1 = 0 then rawTempC
    else y1 + (rawTempC - x1) * (y2 - y1) / (x2 - x1)

/-- The function `getCalibratedTemperature` with the configured table. -/
def getCalibratedTemperature (rawTempC : ℚ) : ℚ :=
  getCalibratedTemperatureWith CALIBRATION_POINTS_COUNT raw_temps_c actual_temps_c rawTempC

/-! ## Despiking (main.cpp lines 674-697) -/

/-- The function `getStableAdcValue` for a burst size `n` and `k` samples
discarded at each end; `analogRead i` is the result of the `i`-th call of
`analogRead` in the cycle. -/
def getStableAdcValueWith (n k : Nat) (analogRead : Nat → Nat) : Nat :=
  if n < 2 * k + 1 then analogRead 0
  else
    let readings := (List.range n).map analogRead
    let sorted := readings.insertionSort (fun a b => a ≤ b)
    let kept := (sorted.drop k).take (n - k - k)
    let sum := kept.sum
    let samplesToAverage := kept.length
    if samplesToAverage = 0 then analogRead n else sum / samplesToAverage

/-- The function `getStableAdcValue` with the configured constants. -/
def getStableAdcValue (analogRead : Nat → Nat) : Nat :=
  getStableAdcValueWith PRESSURE_RAW_SAMPLES_COUNT PRESSURE_SAMPLES_TO_DISCARD_EACH_END analogRead

/-! ## Inputs of one pass of `loop()` -/

/-- What one pass of `loop()` reads from the outside: the value of
`millis()`, the thermocouple reading (`none` for `NAN`; consulted only on a
sampling pass) and the results of the successive `analogRead` calls. -/
structure CycleInput where
  currentMillis : Nat
  rawTempC : Option ℚ
  analogRead : Nat → Nat

/-! ## Temperature reading and smoothing (main.cpp lines 1005-1040) -/

/-- Temperature section of `loop()`: the new filter globals and the local
`smoothedTempC` of this pass. -/
def loop_temperature (currentMillis : Nat) (rawTempC : Option ℚ) (t : TempFilter) :
    TempFilter × Option ℚ :=
  if usub currentMillis t.lastTempReadTime ≥ tempReadInterval then
    match rawTempC with
    | none => ({ t with lastTempReadTime := currentMillis }, none)
    | some raw =>
      let calibratedTempC := getCalibratedTemperature raw
      let ema :=
        match t.smoothedTempC_EMA with
        | none => calibratedTempC
        | some prev => TEMP_EMA_ALPHA * calibratedTempC + (1 - TEMP_EMA_ALPHA) * prev
      ({ smoothedTempC_EMA := some ema, lastTempReadTime := currentMillis }, some ema)
  else (t, t.smoothedTempC_EMA)

/-- The local `smoothedTempC` of a pass of `loop()`. -/
def smoothedTempC (inp : CycleInput) (s : State) : Option ℚ :=
  (loop_temperature inp.currentMillis inp.rawTempC s.temp).2

/-- Server-side plot pause logic for the temperature (lines 1043-1061); it
clears the recorded peak pressure when the plot resumes. -/
def loop_tempPlotPause (smoothed : Option ℚ) (p : MaxTracker) : MaxTracker :=
  match smoothed with
  | none => p
  | some t =>
    if t < PRESUMED_OFF_TEMP_THRESHOLD_C then
      if !p.web_isTempPlotPaused then { p with web_isTempPlotPaused := true } else p
    else
      if p.web_isTempPlotPaused then
        { p with web_isTempPlotPaused := false, maxObservedPressure := 0 }
      else p

/-! ## Pressure reading and smoothing (main.cpp lines 1108-1130) -/

/-- Moving average over the despiked ADC values: the new globals and the
local `smoothedAdcValue`. -/
def loop_pressureSmoothing (stableAdcValue : Nat) (f : PressureFilter) : PressureFilter × ℚ :=
  let total0 :=
    if f.numPressureAdcValuesStored = PRESSURE_SMOOTHING_SAMPLES then
      f.totalPressureAdcSmoothingSum -
        f.pressureAdcSmoothingBuffer.getD f.currentPressureAdcSmoothingIndex 0
    else f.totalPressureAdcSmoothingSum
  let buffer := f.pressureAdcSmoothingBuffer.set f.currentPressureAdcSmoothingIndex stableAdcValue
  let total := total0 + stableAdcValue
  let index := (f.currentPressureAdcSmoothingIndex + 1) % PRESSURE_SMOOTHING_SAMPLES
  let stored :=
    if f.numPressureAdcValuesStored < PRESSURE_SMOOTHING_SAMPLES then
      f.numPressureAdcValuesStored + 1
    else f.numPressureAdcValuesStored
  ({ pressureAdcSmoothingBuffer := buffer
     currentPressureAdcSmoothingIndex := index
     totalPressureAdcSmoothingSum := total
     numPressureAdcValuesStored := stored }, total / stored)

/-- Conversion of the smoothed ADC value to bar, clamped at 0 (lines
1123-1129): the local `currentPressureBar`. -/
def pressureBar (smoothedAdcValue : ℚ) : ℚ :=
  let voltage := (smoothedAdcValue / ESP32_ADC_MAX_VALUE) * ESP32_ADC_MAX_VOLTAGE
  let currentPressureBar :=
    ((voltage - VOLTS_AT_0_BAR) / (VOLTS_AT_16_BAR - VOLTS_AT_0_BAR)) * PRESSURE_MAX_BAR
  if currentPressureBar < 0 then 0 else currentPressureBar

/-- Server-side plot pause logic for the pressure (lines 1133-1173), without
the shot timer. -/
def loop_pressurePlotPause (currentPressureBar : ℚ) (p : MaxTracker) : MaxTracker :=
  let p1 :=
    if currentPressureBar < 17 / 10 ∧ p.lastPressureForPauseCheck_server ≥ 17 / 10 then
      if !p.web_isPressurePlotPaused then { p with web_isPressurePlotPaused := true } else p
    else if currentPressureBar ≥ PRESSURE_RESUME_THRESHOLD_BAR then
      if p.web_isPressurePlotPaused then
        { p with web_isPressurePlotPaused := false, maxObservedPressure := 0 }
      else p
    else p
  { p1 with lastPressureForPauseCheck_server := currentPressureBar }

/-- Max pressure stability check (lines 1176-1200). -/
def loop_maxPressure (currentPressureBar : ℚ) (p : MaxTracker) : MaxTracker :=
  let buffer := p.pressureMaxStabilityBuffer.set p.pressureMaxStabilityIndex currentPressureBar
  let index := (p.pressureMaxStabilityIndex + 1) % PRESSURE_STABILITY_SAMPLES_FOR_MAX
  let count :=
    if p.pressureMaxStabilityCount < PRESSURE_STABILITY_SAMPLES_FOR_MAX then
      p.pressureMaxStabilityCount + 1
    else p.pressureMaxStabilityCount
  let p1 : MaxTracker :=
    { p with pressureMaxStabilityBuffer := buffer
             pressureMaxStabilityIndex := index
             pressureMaxStabilityCount := count }
  if count = PRESSURE_STABILITY_SAMPLES_FOR_MAX then
    let first := buffer.getD 0 0
    let minVal := (buffer.drop 1).foldl (fun m x => if x < m then x else m) first
    let maxVal := (buffer.drop 1).foldl (fun m x => if x > m then x else m) first
    if maxVal - minVal ≤ PRESSURE_STABILITY_THRESHOLD_FOR_MAX then
      let sumStable : ℚ := buffer.foldl (fun a x => a + x) 0
      let stablePressureForMax := sumStable / PRESSURE_STABILITY_SAMPLES_FOR_MAX
      if stablePressureForMax > p1.maxObservedPressure then
        { p1 with maxObservedPressure := stablePressureForMax }
      else p1
    else p1
  else p1

/-! ## Main heater control state machine (main.cpp lines 1227-1473) -/

/-- IDLE, machine presumed off (lines 1244-1270): the relay is kept on and
the rate of rise is checked every `RATE_CHECK_INTERVAL_MS`.  The locals
`deltaTimeSeconds` and `rateOfChange` and the global
`previousTempForRateCheck` are of type `float`: the elapsed time is converted
to `float` and divided in `float`, the difference and the quotient of the
rate are computed in `double` and rounded to `float` on assignment, and the
rate is compared with the `double` literal `0.1`. -/
def loop_IDLE_presumedOff (currentMillis : Nat) (smoothedTempC : ℚ) (c : Control) : Control :=
  let c1 : Control := { c with isRelayOn := true, web_isRelayOn := true }
  if usub currentMillis c1.lastRateCheckTime ≥ RATE_CHECK_INTERVAL_MS then
    let deltaTimeSeconds : ℚ :=
      roundFloat (roundFloat (usub currentMillis c1.lastRateCheckTime : ℚ) / 1000)
    if deltaTimeSeconds > 0 then
      let rateOfChange :=
        roundFloat (roundDouble
          (roundDouble (smoothedTempC - c1.previousTempForRateCheck) / deltaTimeSeconds))
      let c2 : Control :=
        { c1 with previousTempForRateCheck := roundFloat smoothedTempC
                  lastRateCheckTime := currentMillis }
      if rateOfChange > roundDouble (1 / 10) then
        { c2 with machineIsPresumedOff := false
                  isMonitoringForMachineOff := false
                  consecutiveFailedHeatingAttempts := 0 }
      else c2
    else c1
  else c1

/-- IDLE, monitoring for a presumed-off machine (lines 1276-1333); called
with `machineIsPresumedOff = false`.  The globals
`lastTempDuringMachineOffMonitoring` and `previousTempForRateCheck` are of
type `float`: the smoothed temperature is rounded to `float` when it is
stored in them, and the comparison with the stored value is made in
`double`. -/
def loop_IDLE_monitoring (currentMillis : Nat) (smoothedTempC : ℚ) (c : Control) : Control :=
  if smoothedTempC < PRESUMED_OFF_TEMP_THRESHOLD_C ∧
      c.desiredTemperatureC ≥ PRESUMED_OFF_TEMP_THRESHOLD_C then
    if !c.isMonitoringForMachineOff then
      { c with isMonitoringForMachineOff := true
               machineOffMonitorStartTime := currentMillis
               lastTempDuringMachineOffMonitoring := roundFloat smoothedTempC
               lastMachineOffCheckTimestamp := currentMillis }
    else if usub currentMillis c.lastMachineOffCheckTimestamp ≥ PRESUMED_OFF_CHECK_INTERVAL_MS then
      let c1 : Control :=
        if smoothedTempC ≤ c.lastTempDuringMachineOffMonitoring then
          let c2 : Control := { c with lastTempDuringMachineOffMonitoring := roundFloat smoothedTempC }
          let tempLowForDuration : Bool :=
            decide (usub currentMillis c2.machineOffMonitorStartTime ≥ PRESUMED_OFF_DURATION_MS)
          let maxFailuresReached : Bool :=
            decide (c2.consecutiveFailedHeatingAttempts ≥ MAX_CONSECUTIVE_HEATING_FAILURES)
          if tempLowForDuration || maxFailuresReached then
            { c2 with machineIsPresumedOff := true
                      web_early_cutoff_signal := true
                      isMonitoringForMachineOff := false
                      previousTempForRateCheck := roundFloat smoothedTempC
                      lastRateCheckTime := currentMillis
                      isRelayOn := true
                      web_isRelayOn := true }
          else c2
        else { c with isMonitoringForMachineOff := false }
      { c1 with lastMachineOffCheckTimestamp := currentMillis }
    else c
  else
    if c.isMonitoringForMachineOff then { c with isMonitoringForMachineOff := false } else c

/-- IDLE, normal heating logic (lines 1337-1370); called with
`machineIsPresumedOff = false`. -/
def loop_IDLE_heating (currentMillis : Nat) (smoothedTempC : ℚ) (c : Control) : Control :=
  let tempDifferenceToDesired := c.desiredTemperatureC - smoothedTempC
  if tempDifferenceToDesired ≥ 1 / 2 then
    let d0 := toUnsignedLong (tempDifferenceToDesired * HEATER_SECONDS_PER_DEGREE_C * 1000)
    let d1 := if d0 > MAX_HEATER_ON_DURATION_MS then MAX_HEATER_ON_DURATION_MS else d0
    let calculatedHeatDurationMs :=
      if d1 < 2000 ∧ tempDifferenceToDesired > 1 / 10 then 2000 else d1
    if calculatedHeatDurationMs ≥ 2000 then
      { c with isRelayOn := true
               web_isRelayOn := true
               currentHeaterState := HeaterState.HEATING
               heaterStopTimeMs := uadd currentMillis calculatedHeatDurationMs
               lastCalculatedHeatDurationMs := calculatedHeatDurationMs }
    else c
  else c

/-- IDLE, early cutoff cooldown check (lines 1231-1240): `none` stands for
the `break` taken while the cooldown has not expired. -/
def loop_IDLE_cooldownCheck (currentMillis : Nat) (c : Control) : Option Control :=
  if c.inEarlyCutoffCooldown then
    if currentMillis ≥ c.earlyCutoffCooldownEndTime then
      some { c with inEarlyCutoffCooldown := false }
    else none
  else some c

/-- The `case IDLE:` branch (lines 1229-1371). -/
def loop_IDLE (currentMillis : Nat) (smoothedTempC : ℚ) (c : Control) : Control :=
  match loop_IDLE_cooldownCheck currentMillis c with
  | none => c
  | some c1 =>
    if c1.machineIsPresumedOff then loop_IDLE_presumedOff currentMillis smoothedTempC c1
    else
      let c2 := loop_IDLE_monitoring currentMillis smoothedTempC c1
      if !c2.machineIsPresumedOff then loop_IDLE_heating currentMillis smoothedTempC c2 else c2

/-- The `case HEATING:` branch (lines 1373-1430); `continued` is the extended
state when `shouldContinueHeating` is set. -/
def loop_HEATING (currentMillis : Nat) (smoothedTempC : ℚ) (c : Control) : Control :=
  if c.lastCalculatedHeatDurationMs > 30000 ∧ smoothedTempC ≥ EARLY_CUTOFF_TEMP_C then
    { c with isRelayOn := false
             web_isRelayOn := false
             inEarlyCutoffCooldown := true
             earlyCutoffCooldownEndTime := uadd currentMillis EARLY_CUTOFF_COOLDOWN_DURATION_MS
             currentHeaterState := HeaterState.SETTLING
             settlingCheckStartTimeMs := currentMillis
             tempAtSettlingCheckStartC := smoothedTempC }
  else if currentMillis ≥ c.heaterStopTimeMs then
    let continued : Option Control :=
      if smoothedTempC < EARLY_CUTOFF_TEMP_C then
        let tempDifferenceToDesired := c.desiredTemperatureC - smoothedTempC
        if tempDifferenceToDesired > 1 / 10 then
          let r0 := toUnsignedLong (tempDifferenceToDesired * HEATER_SECONDS_PER_DEGREE_C * 1000)
          let r1 := if r0 > MAX_HEATER_ON_DURATION_MS then MAX_HEATER_ON_DURATION_MS else r0
          let remainingHeatDurationMs :=
            if r1 < 1000 ∧ tempDifferenceToDesired > 1 / 10 then 1000 else r1
          if remainingHeatDurationMs ≥ 1000 then
            some { c with heaterStopTimeMs := uadd currentMillis remainingHeatDurationMs
                          lastCalculatedHeatDurationMs := remainingHeatDurationMs }
          else none
        else none
      else none
    match continued with
    | some c1 => c1
    | none =>
      { c with isRelayOn := false
               web_isRelayOn := false
               currentHeaterState := HeaterState.SETTLING
               settlingCheckStartTimeMs := currentMillis
               tempAtSettlingCheckStartC := smoothedTempC }
  else c

/-- The `case SETTLING:` branch (lines 1432-1471). -/
def loop_SETTLING (currentMillis : Nat) (smoothedTempC : ℚ) (c : Control) : Control :=
  if usub currentMillis c.settlingCheckStartTimeMs ≥ SETTLED_OBSERVATION_PERIOD_MS then
    let tempRiseDuringObservation := smoothedTempC - c.tempAtSettlingCheckStartC
    if tempRiseDuringObservation ≤ SETTLED_TEMP_RISE_MAX_C then
      let c1 : Control :=
        { c with currentHeaterState := HeaterState.IDLE, isMonitoringForMachineOff := false }
      if smoothedTempC < c1.desiredTemperatureC - TEMP_DIFF_THRESHOLD_FOR_HEATING_FAILURE then
        { c1 with consecutiveFailedHeatingAttempts := c1.consecutiveFailedHeatingAttempts + 1 }
      else { c1 with consecutiveFailedHeatingAttempts := 0 }
    else
      { c with settlingCheckStartTimeMs := currentMillis
               tempAtSettlingCheckStartC := smoothedTempC }
  else c

/-- The main heater control state machine: it runs only when the local
`smoothedTempC` is a valid number. -/
def heaterStateMachine (currentMillis : Nat) (smoothedTempC : Option ℚ) (c : Control) : Control :=
  match smoothedTempC with
  | none => c
  | some t =>
    match c.currentHeaterState with
    | HeaterState.IDLE => loop_IDLE currentMillis t c
    | HeaterState.HEATING => loop_HEATING currentMillis t c
    | HeaterState.SETTLING => loop_SETTLING currentMillis t c

/-! ## One pass of `loop()` (main.cpp lines 972-1574) -/

/-- One pass of `loop()` after the web handlers have run. -/
def loop (inp : CycleInput) (s : State) : State :=
  let currentMillis := inp.currentMillis
  let tr := loop_temperature currentMillis inp.rawTempC s.temp
  let smoothed := tr.2
  let webTemp := match smoothed with
    | none => s.web_smoothedTempC
    | some t => some t
  let webDesired :=
    if usub currentMillis s.temp.lastTempReadTime ≥ tempReadInterval ∧ inp.rawTempC.isSome then
      s.ctl.desiredTemperatureC
    else s.web_desiredTempC
  let peak1 := loop_tempPlotPause smoothed s.peak
  let stableAdcValue := getStableAdcValue inp.analogRead
  let pr := loop_pressureSmoothing stableAdcValue s.press
  let currentPressureBar := pressureBar pr.2
  let peak2 := loop_pressurePlotPause currentPressureBar peak1
  let peak3 := loop_maxPressure currentPressureBar peak2
  { temp := tr.1
    press := pr.1
    peak := peak3
    ctl := heaterStateMachine currentMillis smoothed s.ctl
    web_smoothedTempC := webTemp
    web_pressureBar := some currentPressureBar
    web_desiredTempC := webDesired }

/-! ## Web handlers (main.cpp lines 586-627, 698-734) -/

/-- The handler `handleSetTemp`; `arg` is the value of the `temp` parameter
after `toDouble()`, `none` when the parameter is missing.  The result pairs
the new globals with the HTTP status sent. -/
def handleSetTemp (arg : Option ℚ) (s : State) : State × Nat :=
  match arg with
  | none => (s, 400)
  | some newTemp =>
    if newTemp ≥ 70 ∧ newTemp ≤ 100 then
      let c0 : Control :=
        { s.ctl with desiredTemperatureC := newTemp, consecutiveFailedHeatingAttempts := 0 }
      let c1 : Control :=
        if c0.machineIsPresumedOff ∧ newTemp ≥ PRESUMED_OFF_TEMP_THRESHOLD_C then
          { c0 with machineIsPresumedOff := false, isMonitoringForMachineOff := false }
        else c0
      let c2 : Control :=
        if c1.isMonitoringForMachineOff ∧ newTemp < PRESUMED_OFF_TEMP_THRESHOLD_C then
          { c1 with isMonitoringForMachineOff := false }
        else c1
      ({ s with ctl := c2, web_desiredTempC := newTemp }, 200)
    else (s, 400)

/-- The handler `handleResetMaxPressure` (the chart history it also clears
is not modelled). -/
def handleResetMaxPressure (s : State) : State :=
  { s with peak := { s.peak with maxObservedPressure := 0
                                 pressureMaxStabilityCount := 0
                                 pressureMaxStabilityIndex := 0 } }

/-- The handler `handleData`, as far as it writes globals: the one-shot
signal is cleared once it has been sent. -/
def handleData (s : State) : State :=
  if s.ctl.web_early_cutoff_signal then
    { s with ctl := { s.ctl with web_early_cutoff_signal := false } }
  else s

/-! ## Runs of the system -/

/-- What can happen to the globals: a pass of `loop()` or one of the web
handlers (they run inside `server.handleClient()` at the start of a pass). -/
inductive Event where
  | cycle (inp : CycleInput)
  | setTemp (arg : Option ℚ)
  | resetMaxPressure
  | data

/-- Effect of one event on the globals. -/
def step (e : Event) (s : State) : State :=
  match e with
  | Event.cycle inp => loop inp s
  | Event.setTemp arg => (handleSetTemp arg s).1
  | Event.resetMaxPressure => handleResetMaxPressure s
  | Event.data => handleData s

/-- Effect of a sequence of events, first event first. -/
def run : List Event → State → State
  | [], s => s
  | e :: es, s => run es (step e s)

/-- States the system can be in: those a sequence of events leads to from
the boot state. -/
def Reachable (s : State) : Prop := ∃ es : List Event, run es boot = s

/-! ## Reference definitions and invariants -/

/-- The duration formula of the specification, written from its words:
`clamp(trunc(diff * secondsPerDegree * 1000), lo, 70000)` with
`secondsPerDegree = 2`. -/
def clampedDuration (lo : Nat) (diff : ℚ) : Nat :=
  max lo (min (toUnsignedLong (diff * 2 * 1000)) 70000)

/-- The cooldown flag cleared, as the IDLE branch leaves it once the
cooldown check has been passed. -/
def cooldownCleared (c : Control) : Control := { c with inEarlyCutoffCooldown := false }

/-- One update of the exponential moving average (main.cpp lines 1020-1025)
with the smoothing factor as a parameter: the first valid sample is taken as
it is, later ones are blended with the previous value. -/
def emaStep (alpha sample : ℚ) (ema : Option ℚ) : ℚ :=
  match ema with
  | none => sample
  | some prev => alpha * sample + (1 - alpha) * prev

/-- One update of the moving average as the machine evaluates line 1023: the
weights are the `float` constants `TEMP_EMA_ALPHA` (`0.07f`) and
`1.0f - TEMP_EMA_ALPHA`, which are converted to `double`; the two products and
the sum are computed in `double`. -/
def emaStepMachine (sample : ℚ) (ema : Option ℚ) : ℚ :=
  match ema with
  | none => sample
  | some prev =>
    roundDouble (roundDouble (roundFloat TEMP_EMA_ALPHA * sample) +
      roundDouble (roundFloat (1 - roundFloat TEMP_EMA_ALPHA) * prev))

/-- The value of the filter, as the machine computes it, after the valid
calibrated samples of a list have been fed in order. -/
def emaRunMachine : List ℚ → Option ℚ → Option ℚ
  | [], e => e
  | x :: xs, e => emaRunMachine xs (some (emaStepMachine x e))

/-- Division that reports a zero divisor: `none` when `b = 0`. -/
def checkedDiv (a b : ℚ) : Option ℚ := if b = 0 then none else some (a / b)

/-- The function `getCalibratedTemperature` (main.cpp lines 94-120) with its
division checked: `none` would mean that line 118 divides by zero. -/
def getCalibratedTemperatureChecked (n : Nat) (raws actuals : List ℚ) (rawTempC : ℚ) :
    Option ℚ :=
  if n < 2 then some rawTempC
  else
    let x1 := raws.getD 0 0
    let y1 := actuals.getD 0 0
    let x2 := raws.getD 1 0
    let y2 := actuals.getD 1 0
    if x2 - x1 = 0 then some rawTempC
    else (checkedDiv ((rawTempC - x1) * (y2 - y1)) (x2 - x1)).map (fun q => y1 + q)

/-- The burst of `n` samples that `getStableAdcValue` reads, in reading
order. -/
def burst (n : Nat) (analogRead : Nat → Nat) : List Nat := (List.range n).map analogRead

/-- The despiked value of the specification, written from its words: sort the
samples ascending, drop the `k` lowest and the `k` highest, average the
remainder (an exact rational). -/
def trimmedMean (k : Nat) (samples : List Nat) : ℚ :=
  ((((samples.insertionSort (fun a b => a ≤ b)).drop k).rdrop k).sum : ℚ) /
    (((samples.insertionSort (fun a b => a ≤ b)).drop k).rdrop k).length

/-- Invariant: while the machine is presumed off the relay is on and the
state machine rests in IDLE. -/
def StandbyInv (c : Control) : Prop :=
  c.machineIsPresumedOff = true → c.isRelayOn = true ∧ c.currentHeaterState = HeaterState.IDLE

/-- Invariant of the runs without setpoint command: the setpoint is the boot
value 90, the machine is not presumed off, and monitoring is never pending at
the start of an IDLE pass. -/
def DefaultSetpointInv (c : Control) : Prop :=
  c.desiredTemperatureC = 90 ∧ c.machineIsPresumedOff = false ∧
  (c.currentHeaterState = HeaterState.IDLE → c.isMonitoringForMachineOff = false)

/-- Invariant of the mandatory cooldown ending at `e`: relay off, cooldown
active, and the state machine not in HEATING. -/
def CooldownInv (e : Nat) (c : Control) : Prop :=
  c.isRelayOn = false ∧ c.inEarlyCutoffCooldown = true ∧ c.earlyCutoffCooldownEndTime = e ∧
  c.currentHeaterState ≠ HeaterState.HEATING

/-- Invariant: the relay is on in HEATING and off in SETTLING, and while the
machine is presumed off the state machine rests in IDLE with monitoring
cleared. -/
def HeaterAgreeInv (c : Control) : Prop :=
  (c.currentHeaterState = HeaterState.HEATING → c.isRelayOn = true) ∧
  (c.currentHeaterState = HeaterState.SETTLING → c.isRelayOn = false) ∧
  (c.machineIsPresumedOff = true →
    c.currentHeaterState = HeaterState.IDLE ∧ c.isMonitoringForMachineOff = false)

/-- All stored timestamps of a state shifted by `k` on the 32-bit clock,
after the words of the specification ("shifting now and all stored timestamps
by the same offset modulo 2^32"). -/
def shiftTimestamps (k : Nat) (s : State) : State :=
  { s with
    temp := { s.temp with lastTempReadTime := uadd s.temp.lastTempReadTime k }
    ctl := { s.ctl with
      heaterStopTimeMs := uadd s.ctl.heaterStopTimeMs k
      settlingCheckStartTimeMs := uadd s.ctl.settlingCheckStartTimeMs k
      earlyCutoffCooldownEndTime := uadd s.ctl.earlyCutoffCooldownEndTime k
      machineOffMonitorStartTime := uadd s.ctl.machineOffMonitorStartTime k
      lastMachineOffCheckTimestamp := uadd s.ctl.lastMachineOffCheckTimestamp k
      lastRateCheckTime := uadd s.ctl.lastRateCheckTime k } }

/-- The input of a pass with its clock value shifted by `k` on the 32-bit
clock. -/
def shiftInput (k : Nat) (inp : CycleInput) : CycleInput :=
  { inp with currentMillis := uadd inp.currentMillis k }

/-- The despiked values of the pressure updates of a run, oldest first: one
per pass of `loop()`. -/
def pressureUpdates : List Event → List Nat
  | [] => []
  | Event.cycle inp :: es => getStableAdcValue inp.analogRead :: pressureUpdates es
  | Event.setTemp _ :: es => pressureUpdates es
  | Event.resetMaxPressure :: es => pressureUpdates es
  | Event.data :: es => pressureUpdates es

/-- The last `min(n, m)` of the `n` values `ds`. -/
def lastValues (m : Nat) (ds : List Nat) : List Nat :=
  ds.drop (ds.length - min ds.length m)

/-- Invariant of the moving average after the despiked values `ds` (oldest
first): the write index and the number of stored values follow the number of
updates, the running sum is the sum of the five most recent values, and the
slots written by the most recent updates hold their values. -/
def PressureInv (ds : List Nat) (f : PressureFilter) : Prop :=
  f.pressureAdcSmoothingBuffer.length = 5 ∧
  f.currentPressureAdcSmoothingIndex = ds.length % 5 ∧
  f.numPressureAdcValuesStored = min ds.length 5 ∧
  f.totalPressureAdcSmoothingSum = (((ds.reverse.take 5).sum : Nat) : ℚ) ∧
  ∀ m, m < min ds.length 5 →
    f.pressureAdcSmoothingBuffer.getD ((ds.length - 1 - m) % 5) 0 =
      ((ds.reverse.getD m 0 : Nat) : ℚ)

/-- Every raw sample of the burst of a pass is a 12-bit ADC value; the web
handlers read no sample. -/
def adcInRange : Event → Prop
  | Event.cycle inp => ∀ k, k < PRESSURE_RAW_SAMPLES_COUNT → inp.analogRead k ≤ 4095
  | Event.setTemp _ => True
  | Event.resetMaxPressure => True
  | Event.data => True

/-! ## Concrete inputs and states used to exercise the theorems -/

/-- A pass of `loop()` at time `t` in which the thermocouple would read `raw`
and the pressure pin reads 0. -/
def sampleAt (t : Nat) (raw : ℚ) : CycleInput :=
  { currentMillis := t, rawTempC := some raw, analogRead := fun _ => 0 }

/-- A state resting in SETTLING since time 10000 with 80.0 degrees recorded at
the start of the observation; the filter holds `ema`, read at time 20000. -/
def settlingFrom80 (ema : ℚ) : State :=
  { boot with
    temp := { smoothedTempC_EMA := some ema, lastTempReadTime := 20000 }
    ctl := { boot.ctl with currentHeaterState := HeaterState.SETTLING
                           settlingCheckStartTimeMs := 10000
                           tempAtSettlingCheckStartC := 80 } }

/-- The state after one pass at time 1000 with a raw reading of 80 degrees
(69.8 calibrated): HEATING for 40400 ms. -/
def longHeating : State := run [Event.cycle (sampleAt 1000 80)] boot

/-- The state after the setpoint was set to 86 and one pass at time 1000 read
100 degrees raw (85.8 calibrated): IDLE, monitoring for a presumed-off
machine. -/
def monitoringAt86 : State :=
  run [Event.setTemp (some 86), Event.cycle (sampleAt 1000 100)] boot

/-- The state after the setpoint was set to 86 and two passes, at times 1000
and 181000, read 100 degrees raw (85.8 calibrated): presumed off. -/
def standbyAt86 : State :=
  run [Event.setTemp (some 86), Event.cycle (sampleAt 1000 100),
       Event.cycle (sampleAt 181000 100)] boot

/-- Twenty passes of `loop()`, ten seconds apart from time 1000 to time
191000, each reading 99 degrees raw (85.0 calibrated), with no command in
between. -/
def coldTrace : List Event :=
  (List.range 20).map (fun i => Event.cycle (sampleAt (1000 + 10000 * i) 99))

/-- The run that leaves the relay on in IDLE: setpoint 86; passes at times
1000 and 181000 reading 100 degrees raw (the machine is presumed off at the
second); passes at times 186000 and 187000 reading 200 degrees raw (the rise
ends the standby at the first). -/
def standbyExitTrace : List Event :=
  [Event.setTemp (some 86), Event.cycle (sampleAt 1000 100), Event.cycle (sampleAt 181000 100),
   Event.cycle (sampleAt 186000 200), Event.cycle (sampleAt 187000 200)]

/-- Events after the early cutoff of `longHeating` at time 2000: a pass ten
seconds later, a setpoint command, and two more passes, the last one 1 ms
before the cooldown ends at time 62000. -/
def cooldownTrace : List Event :=
  [Event.cycle (sampleAt 12000 200), Event.setTemp (some 95), Event.cycle (sampleAt 30000 60),
   Event.cycle (sampleAt 61999 60)]

/-- A pass of `loop()` at time `t` in which the thermocouple read, if it is
made, fails (`NAN`), and the pressure pin reads 0. -/
def faultAt (t : Nat) : CycleInput :=
  { currentMillis := t, rawTempC := none, analogRead := fun _ => 0 }

/-- The state after one pass at time 1000 reading 99 degrees raw (85.0
calibrated, heating until time 11000) and one pass at time 11000 whose
thermocouple read fails. -/
def heatingAfterFault : State :=
  run [Event.cycle (sampleAt 1000 99), Event.cycle (faultAt 11000)] boot

/-- A burst read as 0, 1, 1, 1, 1, 2, 9 (and 0 for any further read). -/
def unevenBurst (i : Nat) : Nat := [0, 1, 1, 1, 1, 2, 9].getD i 0

/-- A burst read as 9, 2, 1, 0, 1, 1, 1: the samples of `unevenBurst` in
another order. -/
def shuffledBurst (i : Nat) : Nat := [9, 2, 1, 0, 1, 1, 1].getD i 0

/-- The first `n` of the passes that follow `longHeating`, one second apart on
the 32-bit clock from time 2000 on, each reading 80 degrees raw (69.8
calibrated). -/
def coldHeatingTrace (n : Nat) : List Event :=
  (List.range n).map (fun i => Event.cycle (sampleAt ((2000 + 1000 * i) % ULONG_RANGE) 80))

/-- The state after one pass at clock value 2^32 - 5000 reading 99 degrees raw
(85.0 calibrated, setpoint 90): HEATING for 10000 ms, the stop time wrapped
to 5000. -/
def heatingAcrossWrap : State := run [Event.cycle (sampleAt 4294962296 99)] boot

/-- The state after one pass at clock value 2^32 - 20000 reading 99 degrees
raw: HEATING for 10000 ms, until clock value 2^32 - 10000. -/
def heatingBeforeWrap : State := run [Event.cycle (sampleAt 4294947296 99)] boot

/-- Six failing heating cycles at the default setpoint 90, with no command:
every pass reads 94 degrees raw (81.0 calibrated).  In round `i` the pass at
time `1000 + 40000 i` finds IDLE and starts heating for about 18 s, the pass
at time `21000 + 40000 i` finds the timer expired and goes to SETTLING, and
the pass at time `32000 + 40000 i` finds the temperature settled, 9 degrees
below the setpoint. -/
def failedHeatingTrace : List Event :=
  (List.range 6).flatMap (fun i =>
    [Event.cycle (sampleAt (1000 + 40000 * i) 94),
     Event.cycle (sampleAt (21000 + 40000 * i) 94),
     Event.cycle (sampleAt (32000 + 40000 * i) 94)])

/-- The local `currentPressureBar` of a pass of `loop()`. -/
def currentPressureBar (inp : CycleInput) (s : State) : ℚ :=
  pressureBar (loop_pressureSmoothing (getStableAdcValue inp.analogRead) s.press).2

/-- A tracker holding a peak of 3 bar and four readings since the last
clear, the next slot being slot 4. -/
def trackerFourReadings : MaxTracker :=
  { boot.peak with maxObservedPressure := 3
                   pressureMaxStabilityBuffer := [8, 81 / 10, 8, 81 / 10, 0]
                   pressureMaxStabilityIndex := 4
                   pressureMaxStabilityCount := 4 }

/-- A pass of `loop()` at time `t` in which the thermocouple would read `raw`
and every sample of the pressure pin reads `adc`. -/
def pressureAt (t : Nat) (raw : ℚ) (adc : Nat) : CycleInput :=
  { currentMillis := t, rawTempC := some raw, analogRead := fun _ => adc }

/-- Five passes at 99 degrees raw (85.0 calibrated) with the pressure pin
steady at 3000. -/
def steadyPressureTrace : List Event :=
  [Event.cycle (pressureAt 1000 99 3000), Event.cycle (pressureAt 2000 99 3000),
   Event.cycle (pressureAt 3000 99 3000), Event.cycle (pressureAt 4000 99 3000),
   Event.cycle (pressureAt 5000 99 3000)]

/-- The run up to a periodic check that finds the temperature lower:
setpoint 86; a pass at time 1000 reading 99.75 degrees raw (85.6 calibrated),
which starts the monitoring; a pass at time 12000 reading 99 degrees raw (85.0
calibrated), which takes the smoothed temperature to about 85.558. -/
def monitoringCheckTrace : List Event :=
  [Event.setTemp (some 86), Event.cycle (sampleAt 1000 (399 / 4)),
   Event.cycle (sampleAt 12000 99)]

/-- The run `monitoringCheckTrace` followed by a pass at time 23000 whose
thermocouple read fails and a pass at time 23100, which takes no reading and
works on the value the filter holds since time 12000. -/
def heldTemperatureTrace : List Event :=
  monitoringCheckTrace ++ [Event.cycle (faultAt 23000), Event.cycle (faultAt 23100)]

/-- The run with a steady reading: setpoint 86 and passes at times 1000 and
181000, both reading 99.75 degrees raw (85.6 calibrated). -/
def steadyReadingTrace : List Event :=
  [Event.setTemp (some 86), Event.cycle (sampleAt 1000 (399 / 4)),
   Event.cycle (sampleAt 181000 (399 / 4))]

/-- A state in standby at setpoint 86 with two failed heating attempts
counted: the rate baseline is 85.5 degrees, taken at time 181000; the filter
holds 86.0 degrees, read at time 185900, so that a pass at time 186000 takes
no reading. -/
def standbyRateBoundary : State :=
  { boot with
    temp := { smoothedTempC_EMA := some 86, lastTempReadTime := 185900 }
    ctl := { boot.ctl with desiredTemperatureC := 86
                           isRelayOn := true
                           web_isRelayOn := true
                           machineIsPresumedOff := true
                           previousTempForRateCheck := 171 / 2
                           lastRateCheckTime := 181000
                           consecutiveFailedHeatingAttempts := 2 } }

/-! ## Basic facts -/

/-! ### Floating-point rounding -/

theorem pow2_eq (k : ℤ) : pow2 k = (2 : ℚ) ^ k := by
  unfold pow2
  split_ifs with h
  · obtain ⟨n, rfl⟩ := Int.eq_ofNat_of_zero_le h
    simp
  · have h2 : 0 ≤ -k := by omega
    obtain ⟨n, hn⟩ := Int.eq_ofNat_of_zero_le h2
    have hk : k = -(n : ℤ) := by omega
    subst hk
    simp

theorem pow2_pos (k : ℤ) : 0 < pow2 k := by
  rw [pow2_eq]
  positivity

theorem pow2_add (a b : ℤ) : pow2 (a + b) = pow2 a * pow2 b := by
  rw [pow2_eq, pow2_eq, pow2_eq, zpow_add₀ (by norm_num)]

theorem pow2_le (a b : ℤ) (h : a ≤ b) : pow2 a ≤ pow2 b := by
  rw [pow2_eq, pow2_eq]
  exact zpow_le_zpow_right₀ (by norm_num) h

theorem natLog2_eq (n : ℕ) : natLog2 n = Nat.log2 n := by
  have h : ∀ fuel n, n ≤ fuel → log2Fuel fuel n = Nat.log2 n := by
    intro fuel
    induction fuel with
    | zero =>
      intro n hn
      have : n = 0 := by omega
      subst this
      simp [log2Fuel, Nat.log2]
    | succ fuel ih =>
      intro n hn
      rw [log2Fuel, Nat.log2]
      split_ifs with h2
      · rw [ih (n / 2) (by omega)]
      · rfl
  exact h n n (le_refl _)

theorem natLog2_spec (n : ℕ) (hn : n ≠ 0) :
    2 ^ natLog2 n ≤ n ∧ n < 2 ^ (natLog2 n + 1) := by
  rw [natLog2_eq]
  exact ⟨Nat.log2_self_le hn, Nat.lt_log2_self⟩

theorem floorLog2_spec (x : ℚ) (hx : x ≠ 0) :
    pow2 (floorLog2 x) ≤ |x| ∧ |x| < pow2 (floorLog2 x + 1) := by
  have hnum : x.num.natAbs ≠ 0 := by
    intro h
    exact hx (Rat.zero_of_num_zero (Int.natAbs_eq_zero.mp h))
  obtain ⟨a1, a2⟩ := natLog2_spec x.num.natAbs hnum
  obtain ⟨b1, b2⟩ := natLog2_spec x.den x.den_nz
  have habs : |x| = (x.num.natAbs : ℚ) / (x.den : ℚ) := by
    conv_lhs => rw [← Rat.num_div_den x]
    rw [abs_div, Nat.abs_cast, Nat.cast_natAbs, Int.cast_abs]
  have hden : (0 : ℚ) < (x.den : ℚ) := by exact_mod_cast x.den_pos
  have a1q : (2 : ℚ) ^ (natLog2 x.num.natAbs) ≤ (x.num.natAbs : ℚ) := by exact_mod_cast a1
  have a2q : (x.num.natAbs : ℚ) < (2 : ℚ) ^ (natLog2 x.num.natAbs + 1) := by exact_mod_cast a2
  have b1q : (2 : ℚ) ^ (natLog2 x.den) ≤ (x.den : ℚ) := by exact_mod_cast b1
  have b2q : (x.den : ℚ) < (2 : ℚ) ^ (natLog2 x.den + 1) := by exact_mod_cast b2
  -- |x| < 2 ^ (a - b + 1) and 2 ^ (a - b - 1) < |x|
  have hup : |x| < pow2 ((natLog2 x.num.natAbs : ℤ) - (natLog2 x.den : ℤ) + 1) := by
    rw [habs, div_lt_iff₀ hden, pow2_eq]
    calc (x.num.natAbs : ℚ) < (2 : ℚ) ^ (natLog2 x.num.natAbs + 1) := a2q
      _ = (2 : ℚ) ^ ((natLog2 x.num.natAbs : ℤ) - (natLog2 x.den : ℤ) + 1) *
            (2 : ℚ) ^ (natLog2 x.den) := by
          rw [← zpow_natCast, ← zpow_natCast, ← zpow_add₀ (by norm_num)]
          congr 1
          push_cast
          ring
      _ ≤ _ := by
          apply mul_le_mul_of_nonneg_left b1q
          positivity
  have hlo : pow2 ((natLog2 x.num.natAbs : ℤ) - (natLog2 x.den : ℤ) - 1) ≤ |x| := by
    rw [habs, le_div_iff₀ hden, pow2_eq]
    calc (2 : ℚ) ^ ((natLog2 x.num.natAbs : ℤ) - (natLog2 x.den : ℤ) - 1) * (x.den : ℚ)
        ≤ (2 : ℚ) ^ ((natLog2 x.num.natAbs : ℤ) - (natLog2 x.den : ℤ) - 1) *
            (2 : ℚ) ^ (natLog2 x.den + 1) := by
          apply mul_le_mul_of_nonneg_left b2q.le
          positivity
      _ = (2 : ℚ) ^ (natLog2 x.num.natAbs) := by
          rw [← zpow_natCast, ← zpow_natCast, ← zpow_add₀ (by norm_num)]
          congr 1
          push_cast
          ring
      _ ≤ _ := a1q
  unfold floorLog2
  dsimp only
  split_ifs with h
  · exact ⟨h, hup⟩
  · refine ⟨hlo, ?_⟩
    rw [sub_add_cancel]
    exact not_le.mp h

theorem roundNearestEven_err (y : ℚ) : |(roundNearestEven y : ℚ) - y| ≤ 1 / 2 := by
  have h1 := Int.floor_le y
  have h2 := Int.lt_floor_add_one y
  unfold roundNearestEven
  dsimp only
  split_ifs with a b c
  · rw [abs_le]
    constructor <;> linarith
  · rw [abs_le]
    push_cast
    constructor <;> linarith
  · rw [abs_le]
    constructor <;> linarith
  · rw [abs_le]
    push_cast
    constructor <;> linarith

theorem roundBinary_err (p : ℕ) (x : ℚ) :
    |roundBinary p x - x| ≤ |x| / 2 ^ p := by
  unfold roundBinary
  split_ifs with hx
  · rw [hx]
    simp
  · dsimp only
    have hs := pow2_pos (floorLog2 x - ((p : ℤ) - 1))
    have herr := roundNearestEven_err (x / pow2 (floorLog2 x - ((p : ℤ) - 1)))
    have hlo := (floorLog2_spec x hx).1
    have e1 : (roundNearestEven (x / pow2 (floorLog2 x - ((p : ℤ) - 1))) : ℚ) *
        pow2 (floorLog2 x - ((p : ℤ) - 1)) - x =
        ((roundNearestEven (x / pow2 (floorLog2 x - ((p : ℤ) - 1))) : ℚ) -
          x / pow2 (floorLog2 x - ((p : ℤ) - 1))) * pow2 (floorLog2 x - ((p : ℤ) - 1)) := by
      field_simp
    rw [e1, abs_mul, abs_of_pos hs]
    have e2 : pow2 (floorLog2 x) = pow2 (floorLog2 x - ((p : ℤ) - 1)) * (2 ^ p / 2) := by
      have : floorLog2 x = (floorLog2 x - ((p : ℤ) - 1)) + ((p : ℤ) - 1) := by ring
      conv_lhs => rw [this]
      rw [pow2_add]
      congr 1
      rw [pow2_eq, zpow_sub₀ (by norm_num), zpow_natCast, zpow_one]
    have hp : (0 : ℚ) < 2 ^ p := by positivity
    rw [le_div_iff₀ hp]
    calc |(roundNearestEven (x / pow2 (floorLog2 x - ((p : ℤ) - 1))) : ℚ) -
          x / pow2 (floorLog2 x - ((p : ℤ) - 1))| * pow2 (floorLog2 x - ((p : ℤ) - 1)) * 2 ^ p
        ≤ 1 / 2 * pow2 (floorLog2 x - ((p : ℤ) - 1)) * 2 ^ p := by
          apply mul_le_mul_of_nonneg_right _ hp.le
          exact mul_le_mul_of_nonneg_right herr hs.le
      _ = pow2 (floorLog2 x) := by rw [e2]; ring
      _ ≤ |x| := hlo

theorem roundDouble_err (x : ℚ) :
    x - |x| / 9007199254740992 ≤ roundDouble x ∧ roundDouble x ≤ x + |x| / 9007199254740992 := by
  have h := roundBinary_err 53 x
  rw [show roundBinary 53 x = roundDouble x from rfl, abs_le] at h
  have : (2 : ℚ) ^ 53 = 9007199254740992 := by norm_num
  rw [this] at h
  constructor <;> linarith [h.1, h.2]

/-! ### The control functions -/

theorem loop_ctl (inp : CycleInput) (s : State) :
    (loop inp s).ctl = heaterStateMachine inp.currentMillis (smoothedTempC inp s) s.ctl := rfl

theorem cooldownCheck_active (now : Nat) (c : Control)
    (h1 : c.inEarlyCutoffCooldown = true) (h2 : now < c.earlyCutoffCooldownEndTime) :
    loop_IDLE_cooldownCheck now c = none := by
  simp [loop_IDLE_cooldownCheck, h1, h2]

theorem cooldownCheck_passed (now : Nat) (c : Control)
    (h : c.inEarlyCutoffCooldown = true → now ≥ c.earlyCutoffCooldownEndTime) :
    loop_IDLE_cooldownCheck now c = some (cooldownCleared c) := by
  unfold loop_IDLE_cooldownCheck cooldownCleared
  by_cases hc : c.inEarlyCutoffCooldown = true
  · simp [hc, h hc]
  · cases c
    simp_all

theorem heating_trigger (now : Nat) (T : ℚ) (c : Control)
    (h : c.desiredTemperatureC - T ≥ 1 / 2) :
    loop_IDLE_heating now T c =
      { c with isRelayOn := true
               web_isRelayOn := true
               currentHeaterState := HeaterState.HEATING
               heaterStopTimeMs := uadd now (clampedDuration 2000 (c.desiredTemperatureC - T))
               lastCalculatedHeatDurationMs := clampedDuration 2000 (c.desiredTemperatureC - T) } := by
  have h10 : c.desiredTemperatureC - T > 1 / 10 := by linarith
  have hd : (if (if toUnsignedLong ((c.desiredTemperatureC - T) * HEATER_SECONDS_PER_DEGREE_C * 1000)
                > MAX_HEATER_ON_DURATION_MS then MAX_HEATER_ON_DURATION_MS
              else toUnsignedLong ((c.desiredTemperatureC - T) * HEATER_SECONDS_PER_DEGREE_C * 1000)) < 2000
              ∧ c.desiredTemperatureC - T > 1 / 10 then 2000
            else (if toUnsignedLong ((c.desiredTemperatureC - T) * HEATER_SECONDS_PER_DEGREE_C * 1000)
                > MAX_HEATER_ON_DURATION_MS then MAX_HEATER_ON_DURATION_MS
              else toUnsignedLong ((c.desiredTemperatureC - T) * HEATER_SECONDS_PER_DEGREE_C * 1000)))
        = clampedDuration 2000 (c.desiredTemperatureC - T) := by
    unfold clampedDuration MAX_HEATER_ON_DURATION_MS HEATER_SECONDS_PER_DEGREE_C
    generalize toUnsignedLong ((c.desiredTemperatureC - T) * 2 * 1000) = d
    simp only [Nat.max_def, Nat.min_def, h10, and_true]
    split_ifs <;> omega
  have hge : clampedDuration 2000 (c.desiredTemperatureC - T) ≥ 2000 := by
    unfold clampedDuration; exact le_max_left _ _
  simp only [loop_IDLE_heating, hd, if_pos h, if_pos hge]

theorem heating_no_trigger (now : Nat) (T : ℚ) (c : Control)
    (h : c.desiredTemperatureC - T < 1 / 2) : loop_IDLE_heating now T c = c := by
  have h2 : ¬ c.desiredTemperatureC - T ≥ 1 / 2 := by linarith
  simp only [loop_IDLE_heating, if_neg h2]

theorem heating_presence_frame (now : Nat) (T : ℚ) (c : Control) :
    (loop_IDLE_heating now T c).machineIsPresumedOff = c.machineIsPresumedOff ∧
    (loop_IDLE_heating now T c).isMonitoringForMachineOff = c.isMonitoringForMachineOff ∧
    (loop_IDLE_heating now T c).machineOffMonitorStartTime = c.machineOffMonitorStartTime ∧
    (loop_IDLE_heating now T c).lastTempDuringMachineOffMonitoring =
      c.lastTempDuringMachineOffMonitoring ∧
    (loop_IDLE_heating now T c).lastMachineOffCheckTimestamp = c.lastMachineOffCheckTimestamp ∧
    (loop_IDLE_heating now T c).consecutiveFailedHeatingAttempts =
      c.consecutiveFailedHeatingAttempts ∧
    (loop_IDLE_heating now T c).previousTempForRateCheck = c.previousTempForRateCheck ∧
    (loop_IDLE_heating now T c).lastRateCheckTime = c.lastRateCheckTime ∧
    (loop_IDLE_heating now T c).web_early_cutoff_signal = c.web_early_cutoff_signal ∧
    (loop_IDLE_heating now T c).inEarlyCutoffCooldown = c.inEarlyCutoffCooldown ∧
    (loop_IDLE_heating now T c).earlyCutoffCooldownEndTime = c.earlyCutoffCooldownEndTime ∧
    (loop_IDLE_heating now T c).desiredTemperatureC = c.desiredTemperatureC := by
  simp only [loop_IDLE_heating]
  split_ifs <;> simp

theorem monitoring_frame (now : Nat) (T : ℚ) (c : Control) :
    (loop_IDLE_monitoring now T c).currentHeaterState = c.currentHeaterState ∧
    (loop_IDLE_monitoring now T c).desiredTemperatureC = c.desiredTemperatureC ∧
    (loop_IDLE_monitoring now T c).inEarlyCutoffCooldown = c.inEarlyCutoffCooldown ∧
    (loop_IDLE_monitoring now T c).earlyCutoffCooldownEndTime = c.earlyCutoffCooldownEndTime ∧
    (loop_IDLE_monitoring now T c).heaterStopTimeMs = c.heaterStopTimeMs ∧
    (loop_IDLE_monitoring now T c).lastCalculatedHeatDurationMs =
      c.lastCalculatedHeatDurationMs ∧
    (loop_IDLE_monitoring now T c).consecutiveFailedHeatingAttempts =
      c.consecutiveFailedHeatingAttempts ∧
    ((loop_IDLE_monitoring now T c).machineIsPresumedOff = true →
      (loop_IDLE_monitoring now T c).isRelayOn = true ∨ c.machineIsPresumedOff = true) ∧
    ((loop_IDLE_monitoring now T c).machineIsPresumedOff = false →
      (loop_IDLE_monitoring now T c).isRelayOn = c.isRelayOn) := by
  simp only [loop_IDLE_monitoring]
  split_ifs <;> simp_all

theorem monitoring_cleared_frame (now : Nat) (T : ℚ) (c : Control) :
    (loop_IDLE_monitoring now T (cooldownCleared c)).currentHeaterState = c.currentHeaterState ∧
    (loop_IDLE_monitoring now T (cooldownCleared c)).desiredTemperatureC =
      c.desiredTemperatureC ∧
    (loop_IDLE_monitoring now T (cooldownCleared c)).inEarlyCutoffCooldown = false ∧
    (loop_IDLE_monitoring now T (cooldownCleared c)).earlyCutoffCooldownEndTime =
      c.earlyCutoffCooldownEndTime ∧
    (loop_IDLE_monitoring now T (cooldownCleared c)).heaterStopTimeMs = c.heaterStopTimeMs ∧
    (loop_IDLE_monitoring now T (cooldownCleared c)).lastCalculatedHeatDurationMs =
      c.lastCalculatedHeatDurationMs ∧
    (loop_IDLE_monitoring now T (cooldownCleared c)).consecutiveFailedHeatingAttempts =
      c.consecutiveFailedHeatingAttempts ∧
    ((loop_IDLE_monitoring now T (cooldownCleared c)).machineIsPresumedOff = true →
      (loop_IDLE_monitoring now T (cooldownCleared c)).isRelayOn = true ∨
        c.machineIsPresumedOff = true) ∧
    ((loop_IDLE_monitoring now T (cooldownCleared c)).machineIsPresumedOff = false →
      (loop_IDLE_monitoring now T (cooldownCleared c)).isRelayOn = c.isRelayOn) :=
  monitoring_frame now T (cooldownCleared c)

theorem loop_IDLE_cooling (now : Nat) (T : ℚ) (c : Control)
    (h1 : c.inEarlyCutoffCooldown = true) (h2 : now < c.earlyCutoffCooldownEndTime) :
    loop_IDLE now T c = c := by
  simp only [loop_IDLE, cooldownCheck_active now c h1 h2]

theorem loop_IDLE_standby (now : Nat) (T : ℚ) (c : Control)
    (h : c.inEarlyCutoffCooldown = true → now ≥ c.earlyCutoffCooldownEndTime)
    (hoff : c.machineIsPresumedOff = true) :
    loop_IDLE now T c = loop_IDLE_presumedOff now T (cooldownCleared c) := by
  have hc : (cooldownCleared c).machineIsPresumedOff = true := hoff
  simp only [loop_IDLE, cooldownCheck_passed now c h, hc, if_true]

theorem loop_IDLE_normal (now : Nat) (T : ℚ) (c : Control)
    (h : c.inEarlyCutoffCooldown = true → now ≥ c.earlyCutoffCooldownEndTime)
    (hoff : c.machineIsPresumedOff = false) :
    loop_IDLE now T c =
      if (loop_IDLE_monitoring now T (cooldownCleared c)).machineIsPresumedOff = true then
        loop_IDLE_monitoring now T (cooldownCleared c)
      else loop_IDLE_heating now T (loop_IDLE_monitoring now T (cooldownCleared c)) := by
  have hc : (cooldownCleared c).machineIsPresumedOff = false := hoff
  simp only [loop_IDLE, cooldownCheck_passed now c h, hc]
  by_cases hp : (loop_IDLE_monitoring now T (cooldownCleared c)).machineIsPresumedOff = true
  · simp [hp]
  · simp [hp]

theorem loop_ctl_HEATING (inp : CycleInput) (s : State) (T : ℚ)
    (hst : s.ctl.currentHeaterState = HeaterState.HEATING) (hT : smoothedTempC inp s = some T) :
    (loop inp s).ctl = loop_HEATING inp.currentMillis T s.ctl := by
  rw [loop_ctl, hT]
  simp only [heaterStateMachine, hst]

theorem loop_ctl_SETTLING (inp : CycleInput) (s : State) (T : ℚ)
    (hst : s.ctl.currentHeaterState = HeaterState.SETTLING) (hT : smoothedTempC inp s = some T) :
    (loop inp s).ctl = loop_SETTLING inp.currentMillis T s.ctl := by
  rw [loop_ctl, hT]
  simp only [heaterStateMachine, hst]

theorem loop_ctl_noData (inp : CycleInput) (s : State) (hT : smoothedTempC inp s = none) :
    (loop inp s).ctl = s.ctl := by
  rw [loop_ctl, hT]
  rfl

/-! ## The branches of HEATING and SETTLING, one equation each -/

theorem heating_early (now : Nat) (T : ℚ) (c : Control)
    (h1 : c.lastCalculatedHeatDurationMs > 30000) (h2 : T ≥ EARLY_CUTOFF_TEMP_C) :
    loop_HEATING now T c =
      { c with isRelayOn := false
               web_isRelayOn := false
               inEarlyCutoffCooldown := true
               earlyCutoffCooldownEndTime := uadd now EARLY_CUTOFF_COOLDOWN_DURATION_MS
               currentHeaterState := HeaterState.SETTLING
               settlingCheckStartTimeMs := now
               tempAtSettlingCheckStartC := T } := by
  simp only [loop_HEATING, if_pos (And.intro h1 h2)]

theorem heating_wait (now : Nat) (T : ℚ) (c : Control)
    (h1 : ¬ (c.lastCalculatedHeatDurationMs > 30000 ∧ T ≥ EARLY_CUTOFF_TEMP_C))
    (h2 : now < c.heaterStopTimeMs) : loop_HEATING now T c = c := by
  have h3 : ¬ now ≥ c.heaterStopTimeMs := by omega
  simp only [loop_HEATING, if_neg h1, if_neg h3]

theorem heating_extend (now : Nat) (T : ℚ) (c : Control)
    (h1 : ¬ (c.lastCalculatedHeatDurationMs > 30000 ∧ T ≥ EARLY_CUTOFF_TEMP_C))
    (h2 : now ≥ c.heaterStopTimeMs) (h3 : T < EARLY_CUTOFF_TEMP_C)
    (h4 : c.desiredTemperatureC - T > 1 / 10) :
    loop_HEATING now T c =
      { c with heaterStopTimeMs := uadd now (clampedDuration 1000 (c.desiredTemperatureC - T))
               lastCalculatedHeatDurationMs :=
                 clampedDuration 1000 (c.desiredTemperatureC - T) } := by
  have hd : (if (if toUnsignedLong ((c.desiredTemperatureC - T) * HEATER_SECONDS_PER_DEGREE_C * 1000)
                > MAX_HEATER_ON_DURATION_MS then MAX_HEATER_ON_DURATION_MS
              else toUnsignedLong ((c.desiredTemperatureC - T) * HEATER_SECONDS_PER_DEGREE_C * 1000)) < 1000
              ∧ c.desiredTemperatureC - T > 1 / 10 then 1000
            else (if toUnsignedLong ((c.desiredTemperatureC - T) * HEATER_SECONDS_PER_DEGREE_C * 1000)
                > MAX_HEATER_ON_DURATION_MS then MAX_HEATER_ON_DURATION_MS
              else toUnsignedLong ((c.desiredTemperatureC - T) * HEATER_SECONDS_PER_DEGREE_C * 1000)))
        = clampedDuration 1000 (c.desiredTemperatureC - T) := by
    unfold clampedDuration MAX_HEATER_ON_DURATION_MS HEATER_SECONDS_PER_DEGREE_C
    generalize toUnsignedLong ((c.desiredTemperatureC - T) * 2 * 1000) = d
    simp only [Nat.max_def, Nat.min_def, h4, and_true]
    split_ifs <;> omega
  have hge : clampedDuration 1000 (c.desiredTemperatureC - T) ≥ 1000 := by
    unfold clampedDuration; exact le_max_left _ _
  simp only [loop_HEATING, if_neg h1, if_pos h2, if_pos h3, if_pos h4, hd, if_pos hge]

theorem heating_stop (now : Nat) (T : ℚ) (c : Control)
    (h1 : ¬ (c.lastCalculatedHeatDurationMs > 30000 ∧ T ≥ EARLY_CUTOFF_TEMP_C))
    (h2 : now ≥ c.heaterStopTimeMs)
    (h3 : ¬ (T < EARLY_CUTOFF_TEMP_C ∧ c.desiredTemperatureC - T > 1 / 10)) :
    loop_HEATING now T c =
      { c with isRelayOn := false
               web_isRelayOn := false
               currentHeaterState := HeaterState.SETTLING
               settlingCheckStartTimeMs := now
               tempAtSettlingCheckStartC := T } := by
  simp only [loop_HEATING, if_neg h1, if_pos h2]
  by_cases h5 : T < EARLY_CUTOFF_TEMP_C
  · have h6 : ¬ c.desiredTemperatureC - T > 1 / 10 := fun h => h3 ⟨h5, h⟩
    simp only [if_pos h5, if_neg h6]
  · simp only [if_neg h5]

theorem settling_wait (now : Nat) (T : ℚ) (c : Control)
    (h : usub now c.settlingCheckStartTimeMs < SETTLED_OBSERVATION_PERIOD_MS) :
    loop_SETTLING now T c = c := by
  have h2 : ¬ usub now c.settlingCheckStartTimeMs ≥ SETTLED_OBSERVATION_PERIOD_MS := by omega
  simp only [loop_SETTLING, if_neg h2]

theorem settling_settled (now : Nat) (T : ℚ) (c : Control)
    (h1 : usub now c.settlingCheckStartTimeMs ≥ SETTLED_OBSERVATION_PERIOD_MS)
    (h2 : T - c.tempAtSettlingCheckStartC ≤ SETTLED_TEMP_RISE_MAX_C) :
    loop_SETTLING now T c =
      { c with currentHeaterState := HeaterState.IDLE
               isMonitoringForMachineOff := false
               consecutiveFailedHeatingAttempts :=
                 if T < c.desiredTemperatureC - TEMP_DIFF_THRESHOLD_FOR_HEATING_FAILURE then
                   c.consecutiveFailedHeatingAttempts + 1
                 else 0 } := by
  simp only [loop_SETTLING, if_pos h1, if_pos h2]
  split_ifs <;> rfl

theorem settling_restart (now : Nat) (T : ℚ) (c : Control)
    (h1 : usub now c.settlingCheckStartTimeMs ≥ SETTLED_OBSERVATION_PERIOD_MS)
    (h2 : T - c.tempAtSettlingCheckStartC > SETTLED_TEMP_RISE_MAX_C) :
    loop_SETTLING now T c =
      { c with settlingCheckStartTimeMs := now, tempAtSettlingCheckStartC := T } := by
  have h3 : ¬ T - c.tempAtSettlingCheckStartC ≤ SETTLED_TEMP_RISE_MAX_C := not_le.mpr h2
  simp only [loop_SETTLING, if_pos h1, if_neg h3]

/-! ## The branches of the presumed-off monitoring, one equation each -/

theorem monitoring_start (now : Nat) (T : ℚ) (c : Control)
    (h1 : T < PRESUMED_OFF_TEMP_THRESHOLD_C)
    (h2 : c.desiredTemperatureC ≥ PRESUMED_OFF_TEMP_THRESHOLD_C)
    (h3 : c.isMonitoringForMachineOff = false) :
    loop_IDLE_monitoring now T c =
      { c with isMonitoringForMachineOff := true
               machineOffMonitorStartTime := now
               lastTempDuringMachineOffMonitoring := roundFloat T
               lastMachineOffCheckTimestamp := now } := by
  simp [loop_IDLE_monitoring, h1, h2, h3]

theorem monitoring_wait (now : Nat) (T : ℚ) (c : Control)
    (h1 : T < PRESUMED_OFF_TEMP_THRESHOLD_C)
    (h2 : c.desiredTemperatureC ≥ PRESUMED_OFF_TEMP_THRESHOLD_C)
    (h3 : c.isMonitoringForMachineOff = true)
    (h4 : usub now c.lastMachineOffCheckTimestamp < PRESUMED_OFF_CHECK_INTERVAL_MS) :
    loop_IDLE_monitoring now T c = c := by
  have h5 : ¬ usub now c.lastMachineOffCheckTimestamp ≥ PRESUMED_OFF_CHECK_INTERVAL_MS := by
    omega
  simp [loop_IDLE_monitoring, h1, h2, h3, h5]

theorem monitoring_presumed (now : Nat) (T : ℚ) (c : Control)
    (h1 : T < PRESUMED_OFF_TEMP_THRESHOLD_C)
    (h2 : c.desiredTemperatureC ≥ PRESUMED_OFF_TEMP_THRESHOLD_C)
    (h3 : c.isMonitoringForMachineOff = true)
    (h4 : usub now c.lastMachineOffCheckTimestamp ≥ PRESUMED_OFF_CHECK_INTERVAL_MS)
    (h5 : T ≤ c.lastTempDuringMachineOffMonitoring)
    (h6 : usub now c.machineOffMonitorStartTime ≥ PRESUMED_OFF_DURATION_MS ∨
      c.consecutiveFailedHeatingAttempts ≥ MAX_CONSECUTIVE_HEATING_FAILURES) :
    loop_IDLE_monitoring now T c =
      { c with lastTempDuringMachineOffMonitoring := roundFloat T
               machineIsPresumedOff := true
               web_early_cutoff_signal := true
               isMonitoringForMachineOff := false
               previousTempForRateCheck := roundFloat T
               lastRateCheckTime := now
               isRelayOn := true
               web_isRelayOn := true
               lastMachineOffCheckTimestamp := now } := by
  have h7 : (decide (usub now c.machineOffMonitorStartTime ≥ PRESUMED_OFF_DURATION_MS) ||
      decide (c.consecutiveFailedHeatingAttempts ≥ MAX_CONSECUTIVE_HEATING_FAILURES)) = true := by
    simpa using h6
  simp only [loop_IDLE_monitoring, if_pos (And.intro h1 h2), h3, Bool.not_true, if_pos h4,
    if_pos h5, h7, if_true]
  simp

theorem monitoring_continue (now : Nat) (T : ℚ) (c : Control)
    (h1 : T < PRESUMED_OFF_TEMP_THRESHOLD_C)
    (h2 : c.desiredTemperatureC ≥ PRESUMED_OFF_TEMP_THRESHOLD_C)
    (h3 : c.isMonitoringForMachineOff = true)
    (h4 : usub now c.lastMachineOffCheckTimestamp ≥ PRESUMED_OFF_CHECK_INTERVAL_MS)
    (h5 : T ≤ c.lastTempDuringMachineOffMonitoring)
    (h6 : ¬ (usub now c.machineOffMonitorStartTime ≥ PRESUMED_OFF_DURATION_MS ∨
      c.consecutiveFailedHeatingAttempts ≥ MAX_CONSECUTIVE_HEATING_FAILURES)) :
    loop_IDLE_monitoring now T c =
      { c with lastTempDuringMachineOffMonitoring := roundFloat T
               lastMachineOffCheckTimestamp := now } := by
  have h7 : (decide (usub now c.machineOffMonitorStartTime ≥ PRESUMED_OFF_DURATION_MS) ||
      decide (c.consecutiveFailedHeatingAttempts ≥ MAX_CONSECUTIVE_HEATING_FAILURES)) = false := by
    simpa using h6
  simp only [loop_IDLE_monitoring, if_pos (And.intro h1 h2), h3, Bool.not_true, if_pos h4,
    if_pos h5, h7]
  simp

theorem monitoring_halt (now : Nat) (T : ℚ) (c : Control)
    (h1 : T < PRESUMED_OFF_TEMP_THRESHOLD_C)
    (h2 : c.desiredTemperatureC ≥ PRESUMED_OFF_TEMP_THRESHOLD_C)
    (h3 : c.isMonitoringForMachineOff = true)
    (h4 : usub now c.lastMachineOffCheckTimestamp ≥ PRESUMED_OFF_CHECK_INTERVAL_MS)
    (h5 : T > c.lastTempDuringMachineOffMonitoring) :
    loop_IDLE_monitoring now T c =
      { c with isMonitoringForMachineOff := false
               lastMachineOffCheckTimestamp := now } := by
  have h6 : ¬ T ≤ c.lastTempDuringMachineOffMonitoring := not_le.mpr h5
  simp only [loop_IDLE_monitoring, if_pos (And.intro h1 h2), h3, Bool.not_true, if_pos h4,
    if_neg h6]
  simp

theorem monitoring_stop (now : Nat) (T : ℚ) (c : Control)
    (h1 : ¬ (T < PRESUMED_OFF_TEMP_THRESHOLD_C ∧
      c.desiredTemperatureC ≥ PRESUMED_OFF_TEMP_THRESHOLD_C)) :
    loop_IDLE_monitoring now T c = { c with isMonitoringForMachineOff := false } := by
  simp only [loop_IDLE_monitoring, if_neg h1]
  by_cases h3 : c.isMonitoringForMachineOff = true
  · simp [h3]
  · cases c
    simp_all

/-! ## Frames of the handlers and of HEATING and SETTLING -/

theorem handleSetTemp_frame (arg : Option ℚ) (s : State) :
    (handleSetTemp arg s).1.ctl.isRelayOn = s.ctl.isRelayOn ∧
    (handleSetTemp arg s).1.ctl.currentHeaterState = s.ctl.currentHeaterState ∧
    (handleSetTemp arg s).1.ctl.inEarlyCutoffCooldown = s.ctl.inEarlyCutoffCooldown ∧
    (handleSetTemp arg s).1.ctl.earlyCutoffCooldownEndTime = s.ctl.earlyCutoffCooldownEndTime ∧
    ((handleSetTemp arg s).1.ctl.machineIsPresumedOff = true →
      s.ctl.machineIsPresumedOff = true) := by
  cases arg with
  | none => exact ⟨rfl, rfl, rfl, rfl, fun h => h⟩
  | some t =>
    simp only [handleSetTemp]
    split_ifs <;> simp_all

theorem loop_HEATING_frame (now : Nat) (T : ℚ) (c : Control) :
    (loop_HEATING now T c).machineIsPresumedOff = c.machineIsPresumedOff ∧
    (loop_HEATING now T c).desiredTemperatureC = c.desiredTemperatureC ∧
    (loop_HEATING now T c).isMonitoringForMachineOff = c.isMonitoringForMachineOff ∧
    (loop_HEATING now T c).consecutiveFailedHeatingAttempts =
      c.consecutiveFailedHeatingAttempts ∧
    ((loop_HEATING now T c).currentHeaterState = c.currentHeaterState ∨
      (loop_HEATING now T c).currentHeaterState = HeaterState.SETTLING) := by
  by_cases h1 : c.lastCalculatedHeatDurationMs > 30000 ∧ T ≥ EARLY_CUTOFF_TEMP_C
  · rw [heating_early now T c h1.1 h1.2]
    exact ⟨rfl, rfl, rfl, rfl, Or.inr rfl⟩
  · by_cases h2 : now ≥ c.heaterStopTimeMs
    · by_cases h3 : T < EARLY_CUTOFF_TEMP_C ∧ c.desiredTemperatureC - T > 1 / 10
      · rw [heating_extend now T c h1 h2 h3.1 h3.2]
        exact ⟨rfl, rfl, rfl, rfl, Or.inl rfl⟩
      · rw [heating_stop now T c h1 h2 h3]
        exact ⟨rfl, rfl, rfl, rfl, Or.inr rfl⟩
    · rw [heating_wait now T c h1 (by omega)]
      exact ⟨rfl, rfl, rfl, rfl, Or.inl rfl⟩

theorem loop_SETTLING_frame (now : Nat) (T : ℚ) (c : Control) :
    (loop_SETTLING now T c).machineIsPresumedOff = c.machineIsPresumedOff ∧
    (loop_SETTLING now T c).desiredTemperatureC = c.desiredTemperatureC ∧
    (loop_SETTLING now T c).isRelayOn = c.isRelayOn ∧
    (loop_SETTLING now T c).inEarlyCutoffCooldown = c.inEarlyCutoffCooldown ∧
    (loop_SETTLING now T c).earlyCutoffCooldownEndTime = c.earlyCutoffCooldownEndTime ∧
    ((loop_SETTLING now T c).currentHeaterState = c.currentHeaterState ∨
      ((loop_SETTLING now T c).currentHeaterState = HeaterState.IDLE ∧
        (loop_SETTLING now T c).isMonitoringForMachineOff = false)) := by
  by_cases h1 : usub now c.settlingCheckStartTimeMs ≥ SETTLED_OBSERVATION_PERIOD_MS
  · by_cases h2 : T - c.tempAtSettlingCheckStartC ≤ SETTLED_TEMP_RISE_MAX_C
    · rw [settling_settled now T c h1 h2]
      exact ⟨rfl, rfl, rfl, rfl, rfl, Or.inr ⟨rfl, rfl⟩⟩
    · rw [settling_restart now T c h1 (not_le.mp h2)]
      exact ⟨rfl, rfl, rfl, rfl, rfl, Or.inl rfl⟩
  · rw [settling_wait now T c (by omega)]
    exact ⟨rfl, rfl, rfl, rfl, rfl, Or.inl rfl⟩

theorem presumedOff_relay (now : Nat) (T : ℚ) (c : Control) :
    (loop_IDLE_presumedOff now T c).isRelayOn = true ∧
    (loop_IDLE_presumedOff now T c).currentHeaterState = c.currentHeaterState := by
  simp only [loop_IDLE_presumedOff]
  split_ifs <;> simp

/-! ## The standby invariant -/

theorem standbyInv_heaterStateMachine (now : Nat) (t : Option ℚ) (c : Control)
    (h : StandbyInv c) : StandbyInv (heaterStateMachine now t c) := by
  cases t with
  | none => exact h
  | some T =>
    cases hs : c.currentHeaterState with
    | IDLE =>
      simp only [heaterStateMachine, hs]
      by_cases hc : c.inEarlyCutoffCooldown = true ∧ now < c.earlyCutoffCooldownEndTime
      · rw [loop_IDLE_cooling now T c hc.1 hc.2]
        exact h
      · have hc2 : c.inEarlyCutoffCooldown = true → now ≥ c.earlyCutoffCooldownEndTime := by
          intro h1
          by_contra h2
          exact hc ⟨h1, by omega⟩
        cases hoff : c.machineIsPresumedOff with
        | true =>
          rw [loop_IDLE_standby now T c hc2 hoff]
          obtain ⟨r1, r2⟩ := presumedOff_relay now T (cooldownCleared c)
          intro _
          exact ⟨r1, r2.trans hs⟩
        | false =>
          rw [loop_IDLE_normal now T c hc2 hoff]
          obtain ⟨f1, -, -, -, -, -, -, f8, -⟩ := monitoring_cleared_frame now T c
          by_cases hp : (loop_IDLE_monitoring now T (cooldownCleared c)).machineIsPresumedOff
              = true
          · rw [if_pos hp]
            intro _
            rcases f8 hp with h3 | h3
            · exact ⟨h3, f1.trans hs⟩
            · rw [hoff] at h3
              exact absurd h3 (by decide)
          · rw [if_neg hp]
            intro h4
            rw [(heating_presence_frame now T _).1] at h4
            exact absurd h4 hp
    | HEATING =>
      simp only [heaterStateMachine, hs]
      intro h4
      rw [(loop_HEATING_frame now T c).1] at h4
      have := (h h4).2
      rw [hs] at this
      exact absurd this (by decide)
    | SETTLING =>
      simp only [heaterStateMachine, hs]
      intro h4
      rw [(loop_SETTLING_frame now T c).1] at h4
      have := (h h4).2
      rw [hs] at this
      exact absurd this (by decide)

theorem standbyInv_step (e : Event) (s : State) (h : StandbyInv s.ctl) :
    StandbyInv (step e s).ctl := by
  cases e with
  | cycle inp => exact standbyInv_heaterStateMachine _ _ _ h
  | setTemp arg =>
    obtain ⟨f1, f2, -, -, f5⟩ := handleSetTemp_frame arg s
    intro h4
    have h5 := h (f5 h4)
    exact ⟨f1.trans h5.1, f2.trans h5.2⟩
  | resetMaxPressure => exact h
  | data =>
    simp only [step, handleData]
    split_ifs
    · exact h
    · exact h

theorem standbyInv_run (es : List Event) (s : State) (h : StandbyInv s.ctl) :
    StandbyInv (run es s).ctl := by
  induction es generalizing s with
  | nil => exact h
  | cons e es ih => exact ih (step e s) (standbyInv_step e s h)

theorem standbyInv_reachable (s : State) (h : Reachable s) : StandbyInv s.ctl := by
  obtain ⟨es, rfl⟩ := h
  exact standbyInv_run es boot (fun h0 => absurd h0 (by decide))

/-! ## C1: the relay after the standby has ended -/

/-- C1 does not hold of the code.  `standbyExitTrace` leads from the boot state
to a state that is IDLE and not presumed off with the relay on: the pass at
time 186000 ends the standby on the rate of rise and leaves the relay as the
standby had set it, and the next pass, with the smoothed temperature above the
setpoint, does not touch it either. -/
theorem relay_left_on_after_standby_exit :
    Reachable (run standbyExitTrace boot) ∧
    (run (standbyExitTrace.take 3) boot).ctl.machineIsPresumedOff = true ∧
    (run (standbyExitTrace.take 4) boot).ctl.machineIsPresumedOff = false ∧
    (run (standbyExitTrace.take 4) boot).ctl.currentHeaterState = HeaterState.IDLE ∧
    (run (standbyExitTrace.take 4) boot).ctl.isRelayOn = true ∧
    (run standbyExitTrace boot).ctl.machineIsPresumedOff = false ∧
    (run standbyExitTrace boot).ctl.currentHeaterState = HeaterState.IDLE ∧
    (run standbyExitTrace boot).ctl.isRelayOn = true ∧
    (run standbyExitTrace boot).temp.smoothedTempC_EMA = some (96608 / 1000) ∧
    (run standbyExitTrace boot).ctl.desiredTemperatureC = 86 :=
  ⟨⟨standbyExitTrace, rfl⟩, by decide!⟩

/-! ## C2: presumed off keeps the heater on -/

/-- C2. PresumedOff always keeps the heater on: in every state reachable from
the boot state by passes of `loop()`, setpoint commands, reset commands and
data requests, `machineIsPresumedOff = true` implies `isRelayOn = true`. -/
theorem presumedOff_keeps_heater_on (s : State) (hr : Reachable s)
    (hoff : s.ctl.machineIsPresumedOff = true) : s.ctl.isRelayOn = true :=
  (standbyInv_reachable s hr hoff).1

/-- The standby state reached at setpoint 86 is presumed off with the relay on. -/
theorem presumedOff_keeps_heater_on_witness :
    standbyAt86.ctl.machineIsPresumedOff = true ∧ standbyAt86.ctl.isRelayOn = true :=
  ⟨by decide!, presumedOff_keeps_heater_on standbyAt86 ⟨_, rfl⟩ (by decide!)⟩

/-! ## C3: setpoint validation -/

/-- C3. Setpoint validation: `handleSetTemp` answers 200 (accepts) exactly when
`70 ≤ t ≤ 100`; when it accepts, `desiredTemperatureC` becomes `t`; when it
rejects, and when the `temp` parameter is missing, it answers 400 and every
global is left unchanged. -/
theorem handleSetTemp_validation (t : ℚ) (s : State) :
    ((handleSetTemp (some t) s).2 = 200 ↔ (70 ≤ t ∧ t ≤ 100)) ∧
    ((70 ≤ t ∧ t ≤ 100) → (handleSetTemp (some t) s).1.ctl.desiredTemperatureC = t) ∧
    (¬ (70 ≤ t ∧ t ≤ 100) → handleSetTemp (some t) s = (s, 400)) ∧
    handleSetTemp none s = (s, 400) := by
  refine ⟨?_, ?_, ?_, rfl⟩
  · by_cases h : t ≥ 70 ∧ t ≤ 100
    · simp only [handleSetTemp, if_pos h]
      exact ⟨fun _ => h, fun _ => trivial⟩
    · simp only [handleSetTemp, if_neg h]
      exact ⟨fun h2 => absurd h2 (by decide), fun h2 => absurd h2 h⟩
  · intro h
    have h2 : t ≥ 70 ∧ t ≤ 100 := h
    simp only [handleSetTemp, if_pos h2]
    split_ifs <;> rfl
  · intro h
    have h2 : ¬ (t ≥ 70 ∧ t ≤ 100) := h
    simp only [handleSetTemp, if_neg h2]

/-- At boot, 95 is accepted and stored, 120 is rejected without any change. -/
theorem handleSetTemp_validation_witness :
    (handleSetTemp (some 95) boot).1.ctl.desiredTemperatureC = 95 ∧
    handleSetTemp (some 120) boot = (boot, 400) :=
  ⟨(handleSetTemp_validation 95 boot).2.1 (by norm_num),
   (handleSetTemp_validation 120 boot).2.2.1 (by norm_num)⟩

/-! ## C4: the heat trigger in IDLE -/

/-- C5. HEATING early cutoff: in a pass of `loop()` that starts in HEATING with
a valid smoothed temperature `T`, if `lastCalculatedHeatDurationMs > 30000`
and `T ≥ 76.0` then, whether or not `heaterStopTimeMs` has been reached, the
relay is switched off, the cooldown becomes active with end
`now + 60000` (an `unsigned long` sum, so modulo `2^32`; the plain sum when it
does not wrap), and the state becomes SETTLING with
`settlingCheckStartTimeMs = now` and `tempAtSettlingCheckStartC = T`; if
`lastCalculatedHeatDurationMs ≤ 30000` the pass leaves the cooldown flag and
the cooldown end as they were. -/
theorem heating_early_cutoff (inp : CycleInput) (s : State) (T : ℚ)
    (hheat : s.ctl.currentHeaterState = HeaterState.HEATING)
    (hT : smoothedTempC inp s = some T) :
    (s.ctl.lastCalculatedHeatDurationMs > 30000 → T ≥ 76 →
      (loop inp s).ctl.isRelayOn = false ∧
      (loop inp s).ctl.inEarlyCutoffCooldown = true ∧
      (loop inp s).ctl.earlyCutoffCooldownEndTime = (inp.currentMillis + 60000) % ULONG_RANGE ∧
      (inp.currentMillis + 60000 < ULONG_RANGE →
        (loop inp s).ctl.earlyCutoffCooldownEndTime = inp.currentMillis + 60000) ∧
      (loop inp s).ctl.currentHeaterState = HeaterState.SETTLING ∧
      (loop inp s).ctl.settlingCheckStartTimeMs = inp.currentMillis ∧
      (loop inp s).ctl.tempAtSettlingCheckStartC = T) ∧
    (s.ctl.lastCalculatedHeatDurationMs ≤ 30000 →
      (loop inp s).ctl.inEarlyCutoffCooldown = s.ctl.inEarlyCutoffCooldown ∧
      (loop inp s).ctl.earlyCutoffCooldownEndTime = s.ctl.earlyCutoffCooldownEndTime) := by
  rw [loop_ctl_HEATING inp s T hheat hT]
  refine ⟨fun h1 h2 => ?_, fun h1 => ?_⟩
  · rw [heating_early _ _ _ h1 h2]
    exact ⟨rfl, rfl, rfl, fun h => Nat.mod_eq_of_lt h, rfl, rfl, rfl⟩
  · have hno : ¬ (s.ctl.lastCalculatedHeatDurationMs > 30000 ∧ T ≥ EARLY_CUTOFF_TEMP_C) :=
      fun h => absurd h.1 (by omega)
    by_cases h2 : inp.currentMillis ≥ s.ctl.heaterStopTimeMs
    · by_cases h3 : T < EARLY_CUTOFF_TEMP_C ∧ s.ctl.desiredTemperatureC - T > 1 / 10
      · rw [heating_extend _ _ _ hno h2 h3.1 h3.2]
        exact ⟨rfl, rfl⟩
      · rw [heating_stop _ _ _ hno h2 h3]
        exact ⟨rfl, rfl⟩
    · rw [heating_wait _ _ _ hno (by omega)]
      exact ⟨rfl, rfl⟩

/-- A 40400 ms heating window is cut off at time 2000 when the smoothed
temperature reaches 76.52; the cooldown runs until time 62000. -/
theorem heating_early_cutoff_witness :
    (loop (sampleAt 2000 200) longHeating).ctl.isRelayOn = false ∧
    (loop (sampleAt 2000 200) longHeating).ctl.inEarlyCutoffCooldown = true ∧
    (loop (sampleAt 2000 200) longHeating).ctl.earlyCutoffCooldownEndTime = 62000 ∧
    (loop (sampleAt 2000 200) longHeating).ctl.currentHeaterState = HeaterState.SETTLING ∧
    (loop (sampleAt 2000 200) longHeating).ctl.settlingCheckStartTimeMs = 2000 ∧
    (loop (sampleAt 2000 200) longHeating).ctl.tempAtSettlingCheckStartC = 7652 / 100 := by
  have h := (heating_early_cutoff (sampleAt 2000 200) longHeating (7652 / 100) (by decide!)
    (by decide!)).1 (by decide!) (by norm_num)
  exact ⟨h.1, h.2.1, h.2.2.2.1 (by decide), h.2.2.2.2⟩

/-! ## C6: timer expiry -/

/-- C7. SETTLING observation: in a pass of `loop()` that starts in SETTLING with
a valid smoothed temperature `T`, if `now - settlingCheckStartTimeMs < 10000`
(an `unsigned long` difference) the heater and presence globals are unchanged;
otherwise, if `T - tempAtSettlingCheckStartC ≤ 0.3` the state becomes IDLE, and
if it is `> 0.3` the state stays SETTLING with
`settlingCheckStartTimeMs = now` and `tempAtSettlingCheckStartC = T`. -/
theorem settling_observation (inp : CycleInput) (s : State) (T : ℚ)
    (hset : s.ctl.currentHeaterState = HeaterState.SETTLING)
    (hT : smoothedTempC inp s = some T) :
    (usub inp.currentMillis s.ctl.settlingCheckStartTimeMs < 10000 →
      (loop inp s).ctl = s.ctl) ∧
    (usub inp.currentMillis s.ctl.settlingCheckStartTimeMs ≥ 10000 →
      T - s.ctl.tempAtSettlingCheckStartC ≤ 3 / 10 →
      (loop inp s).ctl.currentHeaterState = HeaterState.IDLE) ∧
    (usub inp.currentMillis s.ctl.settlingCheckStartTimeMs ≥ 10000 →
      T - s.ctl.tempAtSettlingCheckStartC > 3 / 10 →
      (loop inp s).ctl.currentHeaterState = HeaterState.SETTLING ∧
      (loop inp s).ctl.settlingCheckStartTimeMs = inp.currentMillis ∧
      (loop inp s).ctl.tempAtSettlingCheckStartC = T) := by
  rw [loop_ctl_SETTLING inp s T hset hT]
  refine ⟨fun h => settling_wait _ _ _ h, fun h1 h2 => ?_, fun h1 h2 => ?_⟩
  · rw [settling_settled _ _ _ h1 h2]
  · rw [settling_restart _ _ _ h1 h2]
    exact ⟨hset, rfl, rfl⟩

/-- Entering SETTLING at 80.0: after 10000 ms a reading of 80.2 gives IDLE, a
reading of 80.5 restarts the observation. -/
theorem settling_observation_witness :
    (loop { currentMillis := 20000, rawTempC := none, analogRead := fun _ => 0 }
      (settlingFrom80 (802 / 10))).ctl.currentHeaterState = HeaterState.IDLE ∧
    ((loop { currentMillis := 20000, rawTempC := none, analogRead := fun _ => 0 }
      (settlingFrom80 (805 / 10))).ctl.currentHeaterState = HeaterState.SETTLING ∧
     (loop { currentMillis := 20000, rawTempC := none, analogRead := fun _ => 0 }
      (settlingFrom80 (805 / 10))).ctl.settlingCheckStartTimeMs = 20000 ∧
     (loop { currentMillis := 20000, rawTempC := none, analogRead := fun _ => 0 }
      (settlingFrom80 (805 / 10))).ctl.tempAtSettlingCheckStartC = 805 / 10) :=
  ⟨(settling_observation _ (settlingFrom80 (802 / 10)) (802 / 10) (by decide!)
      (by decide!)).2.1 (by decide!) (by decide!),
   (settling_observation _ (settlingFrom80 (805 / 10)) (805 / 10) (by decide!)
      (by decide!)).2.2 (by decide!) (by decide!)⟩

/-! ## C8: the mandatory cooldown -/

theorem cooldownInv_heaterStateMachine (e now : Nat) (t : Option ℚ) (c : Control)
    (h : CooldownInv e c) (hnow : now < e) : CooldownInv e (heaterStateMachine now t c) := by
  obtain ⟨hr, hc, he, hs⟩ := h
  cases t with
  | none => exact ⟨hr, hc, he, hs⟩
  | some T =>
    cases hst : c.currentHeaterState with
    | IDLE =>
      simp only [heaterStateMachine, hst]
      rw [loop_IDLE_cooling now T c hc (by omega)]
      exact ⟨hr, hc, he, hs⟩
    | HEATING => exact absurd hst hs
    | SETTLING =>
      simp only [heaterStateMachine, hst]
      obtain ⟨-, -, f3, f4, f5, f6⟩ := loop_SETTLING_frame now T c
      refine ⟨f3.trans hr, f4.trans hc, f5.trans he, fun h => ?_⟩
      rcases f6 with h6 | h6
      · rw [h6, hst] at h
        exact absurd h (by decide)
      · rw [h6.1] at h
        exact absurd h (by decide)

theorem cooldownInv_step (e : Nat) (ev : Event) (s : State) (h : CooldownInv e s.ctl)
    (hev : ∀ inp, ev = Event.cycle inp → inp.currentMillis < e) :
    CooldownInv e (step ev s).ctl := by
  cases ev with
  | cycle inp => exact cooldownInv_heaterStateMachine e _ _ _ h (hev inp rfl)
  | setTemp arg =>
    obtain ⟨f1, f2, f3, f4, -⟩ := handleSetTemp_frame arg s
    obtain ⟨hr, hc, he, hs⟩ := h
    exact ⟨f1.trans hr, f3.trans hc, f4.trans he, fun h2 => hs (f2.symm.trans h2)⟩
  | resetMaxPressure => exact h
  | data =>
    simp only [step, handleData]
    split_ifs
    · exact h
    · exact h

theorem cooldownInv_run (e : Nat) (es : List Event) (s : State) (h : CooldownInv e s.ctl)
    (hes : ∀ inp, Event.cycle inp ∈ es → inp.currentMillis < e) :
    CooldownInv e (run es s).ctl := by
  induction es generalizing s with
  | nil => exact h
  | cons ev es ih =>
    refine ih (step ev s) (cooldownInv_step e ev s h ?_) ?_
    · intro inp hinp
      exact hes inp (by rw [hinp]; exact List.mem_cons_self _ _)
    · intro inp hinp
      exact hes inp (List.mem_cons_of_mem _ hinp)

/-- C8. Mandatory cooldown.  First part: let a pass of `loop()` at time `t0`
take the early cutoff (it starts in HEATING with a valid smoothed temperature
`T ≥ 76.0` and `lastCalculatedHeatDurationMs > 30000`), with `t0 + 60000`
not wrapping.  Then after every sequence of later events (passes with any
readings, setpoint commands, reset commands, data requests) whose passes all
have a time `< t0 + 60000`, the relay is off.  Second part: a pass that starts
in IDLE with the cooldown active and `now` before the cooldown end leaves all
heater and presence globals unchanged. -/
theorem mandatory_cooldown :
    (∀ (inp0 : CycleInput) (s : State) (T : ℚ) (es : List Event),
      s.ctl.currentHeaterState = HeaterState.HEATING →
      smoothedTempC inp0 s = some T →
      s.ctl.lastCalculatedHeatDurationMs > 30000 → T ≥ 76 →
      inp0.currentMillis + 60000 < ULONG_RANGE →
      (∀ inp, Event.cycle inp ∈ es → inp.currentMillis < inp0.currentMillis + 60000) →
      (run es (loop inp0 s)).ctl.isRelayOn = false) ∧
    (∀ (inp : CycleInput) (s : State),
      s.ctl.currentHeaterState = HeaterState.IDLE →
      s.ctl.inEarlyCutoffCooldown = true →
      inp.currentMillis < s.ctl.earlyCutoffCooldownEndTime →
      (loop inp s).ctl = s.ctl) := by
  refine ⟨fun inp0 s T es hheat hT hlong h76 hwrap hes => ?_, fun inp s hidle hc hnow => ?_⟩
  · have h0 : CooldownInv (inp0.currentMillis + 60000) (loop inp0 s).ctl := by
      rw [loop_ctl_HEATING inp0 s T hheat hT, heating_early _ _ _ hlong h76]
      refine ⟨rfl, rfl, ?_, fun h => HeaterState.noConfusion h⟩
      show uadd inp0.currentMillis EARLY_CUTOFF_COOLDOWN_DURATION_MS = inp0.currentMillis + 60000
      exact Nat.mod_eq_of_lt hwrap
    exact (cooldownInv_run _ es _ h0 hes).1
  · rw [loop_ctl]
    cases hT : smoothedTempC inp s with
    | none => rfl
    | some T =>
      simp only [heaterStateMachine, hidle]
      exact loop_IDLE_cooling _ T s.ctl hc hnow

/-- After the early cutoff at time 2000 the relay is off at the end of
`cooldownTrace`, and its last pass, in IDLE at time 61999, changes nothing. -/
theorem mandatory_cooldown_witness :
    (run cooldownTrace (loop (sampleAt 2000 200) longHeating)).ctl.isRelayOn = false ∧
    (loop (sampleAt 61999 60) (run (cooldownTrace.take 3)
      (loop (sampleAt 2000 200) longHeating))).ctl =
      (run (cooldownTrace.take 3) (loop (sampleAt 2000 200) longHeating)).ctl :=
  ⟨mandatory_cooldown.1 (sampleAt 2000 200) longHeating (7652 / 100) cooldownTrace
      (by decide!) (by decide!) (by decide!) (by norm_num) (by decide!)
      (by
        intro inp h
        simp only [cooldownTrace, List.mem_cons, List.mem_singleton, Event.cycle.injEq,
          reduceCtorEq, false_or, List.not_mem_nil, or_false] at h
        rcases h with rfl | rfl | rfl <;> decide!),
   mandatory_cooldown.2 (sampleAt 61999 60)
      (run (cooldownTrace.take 3) (loop (sampleAt 2000 200) longHeating))
      (by decide!) (by decide!) (by decide!)⟩

/-! ## C9: the presence detector at the default setpoint -/

theorem defaultSetpointInv_heaterStateMachine (now : Nat) (t : Option ℚ) (c : Control)
    (h : DefaultSetpointInv c) : DefaultSetpointInv (heaterStateMachine now t c) := by
  obtain ⟨hd, hoff, hmon⟩ := h
  cases t with
  | none => exact ⟨hd, hoff, hmon⟩
  | some T =>
    cases hs : c.currentHeaterState with
    | IDLE =>
      simp only [heaterStateMachine, hs]
      by_cases hc : c.inEarlyCutoffCooldown = true ∧ now < c.earlyCutoffCooldownEndTime
      · rw [loop_IDLE_cooling now T c hc.1 hc.2]
        exact ⟨hd, hoff, hmon⟩
      · have hc2 : c.inEarlyCutoffCooldown = true → now ≥ c.earlyCutoffCooldownEndTime := by
          intro h1
          by_contra h2
          exact hc ⟨h1, by omega⟩
        rw [loop_IDLE_normal now T c hc2 hoff]
        have hm0 : (cooldownCleared c).isMonitoringForMachineOff = false := hmon hs
        have hd0 : (cooldownCleared c).desiredTemperatureC = 90 := hd
        by_cases hlow : T < PRESUMED_OFF_TEMP_THRESHOLD_C
        · have hdes : (cooldownCleared c).desiredTemperatureC ≥ PRESUMED_OFF_TEMP_THRESHOLD_C := by
            rw [hd0]; norm_num [PRESUMED_OFF_TEMP_THRESHOLD_C]
          rw [monitoring_start now T _ hlow hdes hm0]
          have hp : ¬ ({ cooldownCleared c with
              isMonitoringForMachineOff := true
              machineOffMonitorStartTime := now
              lastTempDuringMachineOffMonitoring := roundFloat T
              lastMachineOffCheckTimestamp := now } : Control).machineIsPresumedOff = true := by
            show ¬ c.machineIsPresumedOff = true
            rw [hoff]; decide
          rw [if_neg hp]
          have hdiff : ({ cooldownCleared c with
              isMonitoringForMachineOff := true
              machineOffMonitorStartTime := now
              lastTempDuringMachineOffMonitoring := roundFloat T
              lastMachineOffCheckTimestamp := now } : Control).desiredTemperatureC - T
                ≥ 1 / 2 := by
            show c.desiredTemperatureC - T ≥ 1 / 2
            rw [hd]
            have : T < 86 := hlow
            linarith
          rw [heating_trigger now T _ hdiff]
          exact ⟨hd, hoff, fun h => HeaterState.noConfusion h⟩
        · have hno : ¬ (T < PRESUMED_OFF_TEMP_THRESHOLD_C ∧
              (cooldownCleared c).desiredTemperatureC ≥ PRESUMED_OFF_TEMP_THRESHOLD_C) :=
            fun h => hlow h.1
          rw [monitoring_stop now T _ hno]
          have hp : ¬ ({ cooldownCleared c with
              isMonitoringForMachineOff := false } : Control).machineIsPresumedOff = true := by
            show ¬ c.machineIsPresumedOff = true
            rw [hoff]; decide
          rw [if_neg hp]
          obtain ⟨g1, g2, -, -, -, -, -, -, -, -, -, g12⟩ := heating_presence_frame now T
            ({ cooldownCleared c with isMonitoringForMachineOff := false } : Control)
          exact ⟨g12.trans hd, g1.trans hoff, fun _ => g2⟩
    | HEATING =>
      simp only [heaterStateMachine, hs]
      obtain ⟨f1, f2, -, -, f5⟩ := loop_HEATING_frame now T c
      refine ⟨f2.trans hd, f1.trans hoff, fun h => ?_⟩
      rcases f5 with h5 | h5
      · rw [h5, hs] at h
        exact absurd h (by decide)
      · rw [h5] at h
        exact absurd h (by decide)
    | SETTLING =>
      simp only [heaterStateMachine, hs]
      obtain ⟨f1, f2, -, -, -, f6⟩ := loop_SETTLING_frame now T c
      refine ⟨f2.trans hd, f1.trans hoff, fun h => ?_⟩
      rcases f6 with h6 | h6
      · rw [h6, hs] at h
        exact absurd h (by decide)
      · exact h6.2

theorem defaultSetpointInv_cycles (inps : List CycleInput) (s : State)
    (h : DefaultSetpointInv s.ctl) :
    DefaultSetpointInv (run (inps.map Event.cycle) s).ctl := by
  induction inps generalizing s with
  | nil => exact h
  | cons inp inps ih =>
    exact ih (loop inp s) (defaultSetpointInv_heaterStateMachine _ _ _ h)

/-- C9 does not hold of the code.  From the boot state (setpoint 90) no
sequence of passes of `loop()` without a setpoint command ever makes the
machine presumed off, whatever the readings and the times are; in particular
along `coldTrace` (190 s of passes ten seconds apart, smoothed temperature
valid and constant at 85.0, below 86) the machine is not presumed off and the
one-shot flag is not set after any of the passes. -/
theorem presumedOff_never_entered_at_default_setpoint :
    (∀ inps : List CycleInput,
      (run (inps.map Event.cycle) boot).ctl.machineIsPresumedOff = false) ∧
    (∀ n, n ≤ 20 →
      (run (coldTrace.take n) boot).ctl.machineIsPresumedOff = false ∧
      (run (coldTrace.take n) boot).ctl.web_early_cutoff_signal = false ∧
      (1 ≤ n → (run (coldTrace.take n) boot).temp.smoothedTempC_EMA = some 85)) := by
  refine ⟨fun inps => ?_, ?_⟩
  · exact (defaultSetpointInv_cycles inps boot ⟨rfl, rfl, fun _ => rfl⟩).2.1
  · decide!

/-! ## C10: the periodic check while monitoring -/

theorem loop_IDLE_normal_presence (now : Nat) (T : ℚ) (c : Control)
    (h : c.inEarlyCutoffCooldown = true → now ≥ c.earlyCutoffCooldownEndTime)
    (hoff : c.machineIsPresumedOff = false) :
    (loop_IDLE now T c).machineIsPresumedOff =
      (loop_IDLE_monitoring now T (cooldownCleared c)).machineIsPresumedOff ∧
    (loop_IDLE now T c).isMonitoringForMachineOff =
      (loop_IDLE_monitoring now T (cooldownCleared c)).isMonitoringForMachineOff ∧
    (loop_IDLE now T c).machineOffMonitorStartTime =
      (loop_IDLE_monitoring now T (cooldownCleared c)).machineOffMonitorStartTime ∧
    (loop_IDLE now T c).lastTempDuringMachineOffMonitoring =
      (loop_IDLE_monitoring now T (cooldownCleared c)).lastTempDuringMachineOffMonitoring ∧
    (loop_IDLE now T c).lastMachineOffCheckTimestamp =
      (loop_IDLE_monitoring now T (cooldownCleared c)).lastMachineOffCheckTimestamp ∧
    (loop_IDLE now T c).consecutiveFailedHeatingAttempts =
      (loop_IDLE_monitoring now T (cooldownCleared c)).consecutiveFailedHeatingAttempts ∧
    (loop_IDLE now T c).previousTempForRateCheck =
      (loop_IDLE_monitoring now T (cooldownCleared c)).previousTempForRateCheck ∧
    (loop_IDLE now T c).lastRateCheckTime =
      (loop_IDLE_monitoring now T (cooldownCleared c)).lastRateCheckTime ∧
    (loop_IDLE now T c).web_early_cutoff_signal =
      (loop_IDLE_monitoring now T (cooldownCleared c)).web_early_cutoff_signal ∧
    ((loop_IDLE_monitoring now T (cooldownCleared c)).machineIsPresumedOff = true →
      loop_IDLE now T c = loop_IDLE_monitoring now T (cooldownCleared c)) := by
  rw [loop_IDLE_normal now T c h hoff]
  by_cases hp : (loop_IDLE_monitoring now T (cooldownCleared c)).machineIsPresumedOff = true
  · rw [if_pos hp]
    exact ⟨rfl, rfl, rfl, rfl, rfl, rfl, rfl, rfl, rfl, fun _ => rfl⟩
  · rw [if_neg hp]
    obtain ⟨g1, g2, g3, g4, g5, g6, g7, g8, g9, -, -, -⟩ :=
      heating_presence_frame now T (loop_IDLE_monitoring now T (cooldownCleared c))
    exact ⟨g1, g2, g3, g4, g5, g6, g7, g8, g9, fun h2 => absurd h2 hp⟩

/-- C10 does not hold of the code: `lastTempDuringMachineOffMonitoring` is a
`float`, so a periodic check that lets the monitoring continue stores the
smoothed temperature rounded to `float`, not the smoothed temperature, and the
next check compares against the rounded value.  Along `monitoringCheckTrace`
the pass at time 12000 is such a check (monitoring active since time 1000,
`T < 86 ≤ desired`, 11000 ms since the last check, `T` not above the stored
value, neither 180000 ms elapsed nor 5 failures): monitoring continues and the
value stored is `roundFloat T`, which is below `T`.  Along
`heldTemperatureTrace` the pass at time 23100 works on the same `T`, held by
the filter; the temperature has not increased, yet the check finds `T` above
the stored value and clears the monitoring.  Along `steadyReadingTrace`, with
the same reading at times 1000 and 181000, the value stored at the start of
the monitoring is 85.5999985, below the smoothed temperature, and the check
at time 181000 clears the monitoring instead of presuming the machine off. -/
theorem monitoring_baseline_rounded :
    ∃ T : ℚ,
      smoothedTempC (sampleAt 12000 99) (run (monitoringCheckTrace.take 2) boot) = some T ∧
      (run (monitoringCheckTrace.take 2) boot).ctl.currentHeaterState = HeaterState.IDLE ∧
      (run (monitoringCheckTrace.take 2) boot).ctl.inEarlyCutoffCooldown = false ∧
      (run (monitoringCheckTrace.take 2) boot).ctl.machineIsPresumedOff = false ∧
      (run (monitoringCheckTrace.take 2) boot).ctl.isMonitoringForMachineOff = true ∧
      T < 86 ∧ 86 ≤ (run (monitoringCheckTrace.take 2) boot).ctl.desiredTemperatureC ∧
      usub 12000 (run (monitoringCheckTrace.take 2) boot).ctl.lastMachineOffCheckTimestamp
        ≥ 10000 ∧
      T ≤ (run (monitoringCheckTrace.take 2) boot).ctl.lastTempDuringMachineOffMonitoring ∧
      ¬ (usub 12000 (run (monitoringCheckTrace.take 2) boot).ctl.machineOffMonitorStartTime
          ≥ 180000 ∨
        (run (monitoringCheckTrace.take 2) boot).ctl.consecutiveFailedHeatingAttempts ≥ 5) ∧
      (run monitoringCheckTrace boot).ctl.isMonitoringForMachineOff = true ∧
      (run monitoringCheckTrace boot).ctl.lastTempDuringMachineOffMonitoring = roundFloat T ∧
      (run monitoringCheckTrace boot).ctl.lastTempDuringMachineOffMonitoring
        = 5607129 / 65536 ∧
      (run monitoringCheckTrace boot).ctl.lastTempDuringMachineOffMonitoring < T ∧
      smoothedTempC (faultAt 23100)
        (run (monitoringCheckTrace ++ [Event.cycle (faultAt 23000)]) boot) = some T ∧
      (run (monitoringCheckTrace ++ [Event.cycle (faultAt 23000)]) boot).ctl
        = (run monitoringCheckTrace boot).ctl ∧
      usub 23100 (run monitoringCheckTrace boot).ctl.lastMachineOffCheckTimestamp ≥ 10000 ∧
      (run heldTemperatureTrace boot).ctl.isMonitoringForMachineOff = false ∧
      (run heldTemperatureTrace boot).ctl.machineIsPresumedOff = false ∧
      (run (steadyReadingTrace.take 2) boot).ctl.isMonitoringForMachineOff = true ∧
      (run (steadyReadingTrace.take 2) boot).ctl.lastTempDuringMachineOffMonitoring
        = 11219763 / 131072 ∧
      usub 181000 (run (steadyReadingTrace.take 2) boot).ctl.machineOffMonitorStartTime
        ≥ 180000 ∧
      (run steadyReadingTrace boot).ctl.isMonitoringForMachineOff = false ∧
      (run steadyReadingTrace boot).ctl.machineIsPresumedOff = false :=
  ⟨42779 / 500, by decide!⟩

/-! ## C11: power-restore detection -/

theorem standby_wait (now : Nat) (T : ℚ) (c : Control)
    (h : usub now c.lastRateCheckTime < RATE_CHECK_INTERVAL_MS) :
    loop_IDLE_presumedOff now T c = { c with isRelayOn := true, web_isRelayOn := true } := by
  have h2 : ¬ usub now c.lastRateCheckTime ≥ RATE_CHECK_INTERVAL_MS := by omega
  simp only [loop_IDLE_presumedOff, if_neg h2]

/-- C11 does not hold of the code: `rateOfChange` is a `float` and is compared
with the `double` literal `0.1`.  In `standbyRateBoundary` the pass at time
186000 finds 86.0 degrees, 5000 ms after the baseline 85.5 was taken: the rate
is exactly 0.1 degrees per second, which is not more than 0.1; its quotient
computed in `double` is the `double` nearest 0.1, rounded to `float` it is
0.100000001490116, which is above the `double` literal `0.1`, and the pass
ends the standby and resets the failure counter from 2 to 0. -/
theorem rate_of_one_tenth_ends_standby :
    standbyRateBoundary.ctl.currentHeaterState = HeaterState.IDLE ∧
    standbyRateBoundary.ctl.inEarlyCutoffCooldown = false ∧
    standbyRateBoundary.ctl.machineIsPresumedOff = true ∧
    standbyRateBoundary.ctl.consecutiveFailedHeatingAttempts = 2 ∧
    smoothedTempC (faultAt 186000) standbyRateBoundary = some 86 ∧
    IsDouble 86 ∧
    roundFloat standbyRateBoundary.ctl.previousTempForRateCheck
      = standbyRateBoundary.ctl.previousTempForRateCheck ∧
    usub 186000 standbyRateBoundary.ctl.lastRateCheckTime = 5000 ∧
    (86 - standbyRateBoundary.ctl.previousTempForRateCheck) /
      ((usub 186000 standbyRateBoundary.ctl.lastRateCheckTime : ℚ) / 1000) = 1 / 10 ∧
    ¬ ((86 - standbyRateBoundary.ctl.previousTempForRateCheck) /
      ((usub 186000 standbyRateBoundary.ctl.lastRateCheckTime : ℚ) / 1000) > 1 / 10) ∧
    roundDouble (1 / 10) = 3602879701896397 / 36028797018963968 ∧
    roundFloat (roundDouble (1 / 10)) = 13421773 / 134217728 ∧
    roundFloat (roundDouble (1 / 10)) > roundDouble (1 / 10) ∧
    (loop (faultAt 186000) standbyRateBoundary).ctl.machineIsPresumedOff = false ∧
    (loop (faultAt 186000) standbyRateBoundary).ctl.isMonitoringForMachineOff = false ∧
    (loop (faultAt 186000) standbyRateBoundary).ctl.consecutiveFailedHeatingAttempts = 0 ∧
    (loop (faultAt 186000) standbyRateBoundary).ctl.previousTempForRateCheck = 86 ∧
    (loop (faultAt 186000) standbyRateBoundary).ctl.lastRateCheckTime = 186000 := by
  decide!

/-! ## C12: operator override -/

/-- C12, as stated, fails at the threshold itself: in the standby state
`standbyAt86` the accepted setpoint 86 is not above 86, nor is monitoring
active, yet the command ends the standby. -/
theorem setpoint_at_threshold_ends_standby :
    (handleSetTemp (some 86) standbyAt86).2 = 200 ∧
    standbyAt86.ctl.machineIsPresumedOff = true ∧
    standbyAt86.ctl.isMonitoringForMachineOff = false ∧
    ¬ ((86 : ℚ) > PRESUMED_OFF_TEMP_THRESHOLD_C) ∧
    ¬ ((86 : ℚ) < PRESUMED_OFF_TEMP_THRESHOLD_C) ∧
    (handleSetTemp (some 86) standbyAt86).1.ctl.machineIsPresumedOff = false := by
  decide!

/-- C12, amended. Operator override: for every accepted setpoint `t`
(`70 ≤ t ≤ 100`), if the machine is presumed off and `t ≥ 86` (at or above
the presence threshold) then after the command the machine is not presumed
off and not monitoring; if monitoring is active and `t < 86` then after the
command monitoring is cancelled and the presumed-off flag is as before; in all
other cases the presumed-off and monitoring flags are unchanged. -/
theorem operator_override (t : ℚ) (s : State) (hacc : 70 ≤ t ∧ t ≤ 100) :
    (s.ctl.machineIsPresumedOff = true → t ≥ 86 →
      (handleSetTemp (some t) s).1.ctl.machineIsPresumedOff = false ∧
      (handleSetTemp (some t) s).1.ctl.isMonitoringForMachineOff = false) ∧
    (s.ctl.isMonitoringForMachineOff = true → t < 86 →
      (handleSetTemp (some t) s).1.ctl.isMonitoringForMachineOff = false ∧
      (handleSetTemp (some t) s).1.ctl.machineIsPresumedOff = s.ctl.machineIsPresumedOff) ∧
    (¬ (s.ctl.machineIsPresumedOff = true ∧ t ≥ 86) →
      ¬ (s.ctl.isMonitoringForMachineOff = true ∧ t < 86) →
      (handleSetTemp (some t) s).1.ctl.machineIsPresumedOff = s.ctl.machineIsPresumedOff ∧
      (handleSetTemp (some t) s).1.ctl.isMonitoringForMachineOff =
        s.ctl.isMonitoringForMachineOff) := by
  have h2 : t ≥ 70 ∧ t ≤ 100 := hacc
  refine ⟨fun h1 h3 => ?_, fun h1 h3 => ?_, fun h1 h3 => ?_⟩
  · have h4 : ¬ t < PRESUMED_OFF_TEMP_THRESHOLD_C := not_lt.mpr h3
    have h5 : t ≥ PRESUMED_OFF_TEMP_THRESHOLD_C := h3
    simp [handleSetTemp, h2, h1, h4, h5]
  · have h4 : ¬ t ≥ PRESUMED_OFF_TEMP_THRESHOLD_C := not_le.mpr h3
    have h5 : t < PRESUMED_OFF_TEMP_THRESHOLD_C := h3
    simp only [handleSetTemp, if_pos h2]
    simp [h4, h5, h1]
  · have h4 : ¬ (s.ctl.machineIsPresumedOff = true ∧ t ≥ PRESUMED_OFF_TEMP_THRESHOLD_C) := h1
    have h5 : ¬ (s.ctl.isMonitoringForMachineOff = true ∧ t < PRESUMED_OFF_TEMP_THRESHOLD_C) :=
      h3
    simp only [handleSetTemp, if_pos h2, if_neg h4, if_neg h5]
    exact ⟨trivial, trivial⟩

/-- In standby, the setpoint 90 ends the standby; while monitoring at setpoint
86, the setpoint 80 cancels the monitoring. -/
theorem operator_override_witness :
    ((handleSetTemp (some 90) standbyAt86).1.ctl.machineIsPresumedOff = false ∧
     (handleSetTemp (some 90) standbyAt86).1.ctl.isMonitoringForMachineOff = false) ∧
    ((handleSetTemp (some 80) monitoringAt86).1.ctl.isMonitoringForMachineOff = false ∧
     (handleSetTemp (some 80) monitoringAt86).1.ctl.machineIsPresumedOff =
       monitoringAt86.ctl.machineIsPresumedOff) :=
  ⟨(operator_override 90 standbyAt86 (by norm_num)).1 (by decide!) (by norm_num),
   (operator_override 80 monitoringAt86 (by norm_num)).2.1 (by decide!) (by norm_num)⟩

/-! ## C13: sensor fault -/

theorem loop_temperature_fault (now : Nat) (t : TempFilter)
    (h : usub now t.lastTempReadTime ≥ tempReadInterval) :
    loop_temperature now none t = ({ t with lastTempReadTime := now }, none) := by
  simp only [loop_temperature, if_pos h]

theorem loop_temperature_hold (now : Nat) (raw : Option ℚ) (t : TempFilter)
    (h : usub now t.lastTempReadTime < tempReadInterval) :
    loop_temperature now raw t = (t, t.smoothedTempC_EMA) := by
  have h2 : ¬ usub now t.lastTempReadTime ≥ tempReadInterval := by omega
  simp only [loop_temperature, if_neg h2]

theorem loop_temperature_valid (now : Nat) (raw : ℚ) (t : TempFilter)
    (h : usub now t.lastTempReadTime ≥ tempReadInterval) :
    loop_temperature now (some raw) t =
      ({ smoothedTempC_EMA :=
           some (emaStep TEMP_EMA_ALPHA (getCalibratedTemperature raw) t.smoothedTempC_EMA)
         lastTempReadTime := now },
       some (emaStep TEMP_EMA_ALPHA (getCalibratedTemperature raw) t.smoothedTempC_EMA)) := by
  simp only [loop_temperature, if_pos h, emaStep]

theorem smoothedTempC_noData (inp : CycleInput) (s : State)
    (he : s.temp.smoothedTempC_EMA = none) (hr : inp.rawTempC = none) :
    smoothedTempC inp s = none ∧ (loop inp s).temp.smoothedTempC_EMA = none := by
  have h1 : (loop inp s).temp = (loop_temperature inp.currentMillis inp.rawTempC s.temp).1 := rfl
  rw [h1]
  unfold smoothedTempC
  rw [hr]
  by_cases h : usub inp.currentMillis s.temp.lastTempReadTime ≥ tempReadInterval
  · rw [loop_temperature_fault _ _ h]
    exact ⟨rfl, he⟩
  · rw [loop_temperature_hold _ _ _ (by omega)]
    exact ⟨he, he⟩

theorem noData_run (ts : List Nat) (s : State) (he : s.temp.smoothedTempC_EMA = none) :
    (run (ts.map (fun t => Event.cycle (faultAt t))) s).ctl = s.ctl ∧
    (run (ts.map (fun t => Event.cycle (faultAt t))) s).temp.smoothedTempC_EMA = none := by
  induction ts generalizing s with
  | nil => exact ⟨rfl, he⟩
  | cons t ts ih =>
    obtain ⟨h1, h2⟩ := smoothedTempC_noData (faultAt t) s he rfl
    obtain ⟨h3, h4⟩ := ih (loop (faultAt t) s) h2
    refine ⟨?_, h4⟩
    show (run (ts.map (fun t => Event.cycle (faultAt t))) (loop (faultAt t) s)).ctl = s.ctl
    rw [h3]
    exact loop_ctl_noData (faultAt t) s h1

/-- C13, as stated, fails: after the failed read at time 11000
(`heatingAfterFault`, HEATING until time 11000, filter holding 85.0) the pass
at time 11100 takes no reading, keeps the filter as it is, and runs the state
machine on the held value: the relay is switched off and the state becomes
SETTLING although no valid reading has been taken since the fault. -/
theorem control_resumes_between_reads_after_fault :
    (run [Event.cycle (sampleAt 1000 99)] boot).ctl.currentHeaterState = HeaterState.HEATING ∧
    (run [Event.cycle (sampleAt 1000 99)] boot).ctl.isRelayOn = true ∧
    heatingAfterFault.ctl = (run [Event.cycle (sampleAt 1000 99)] boot).ctl ∧
    heatingAfterFault.temp.smoothedTempC_EMA = some 85 ∧
    usub (faultAt 11100).currentMillis heatingAfterFault.temp.lastTempReadTime < 500 ∧
    (loop (faultAt 11100) heatingAfterFault).temp = heatingAfterFault.temp ∧
    (loop (faultAt 11100) heatingAfterFault).ctl.currentHeaterState = HeaterState.SETTLING ∧
    (loop (faultAt 11100) heatingAfterFault).ctl.isRelayOn = false := by
  decide!

/-- C13, amended. Sensor fault: a pass of `loop()` in which the thermocouple is
read (500 ms or more since the last read) and the read is invalid leaves the
heater and presence globals and the filter value unchanged; so does every
pass with an invalid read while the filter has no data, and then any sequence
of such passes; a pass that takes no reading (less than 500 ms since the last
read, valid or not) runs the state machine on the value held by the
filter. -/
theorem sensor_fault_pauses_sampling_pass (inp : CycleInput) (s : State) :
    (usub inp.currentMillis s.temp.lastTempReadTime ≥ 500 → inp.rawTempC = none →
      (loop inp s).ctl = s.ctl ∧
      (loop inp s).temp.smoothedTempC_EMA = s.temp.smoothedTempC_EMA) ∧
    (s.temp.smoothedTempC_EMA = none → inp.rawTempC = none →
      (loop inp s).ctl = s.ctl ∧ (loop inp s).temp.smoothedTempC_EMA = none) ∧
    (s.temp.smoothedTempC_EMA = none →
      ∀ ts : List Nat,
        (run (ts.map (fun t => Event.cycle (faultAt t))) s).ctl = s.ctl ∧
        (run (ts.map (fun t => Event.cycle (faultAt t))) s).temp.smoothedTempC_EMA = none) ∧
    (usub inp.currentMillis s.temp.lastTempReadTime < 500 →
      (loop inp s).ctl = heaterStateMachine inp.currentMillis s.temp.smoothedTempC_EMA s.ctl ∧
      (loop inp s).temp = s.temp) := by
  have h1 : (loop inp s).temp = (loop_temperature inp.currentMillis inp.rawTempC s.temp).1 := rfl
  refine ⟨fun h hr => ?_, fun he hr => ?_, fun he ts => noData_run ts s he, fun h => ?_⟩
  · have h2 : smoothedTempC inp s = none := by
      unfold smoothedTempC
      rw [hr, loop_temperature_fault _ _ h]
    refine ⟨loop_ctl_noData inp s h2, ?_⟩
    rw [h1, hr, loop_temperature_fault _ _ h]
  · obtain ⟨h2, h3⟩ := smoothedTempC_noData inp s he hr
    exact ⟨loop_ctl_noData inp s h2, h3⟩
  · have h2 : smoothedTempC inp s = s.temp.smoothedTempC_EMA := by
      unfold smoothedTempC
      rw [loop_temperature_hold _ _ _ h]
    refine ⟨by rw [loop_ctl, h2], ?_⟩
    rw [h1, loop_temperature_hold _ _ _ h]

/-- The failed read at time 11000 changes nothing in `heatingAfterFault`'s
predecessor, and failed reads from boot leave the controller at its boot
values. -/
theorem sensor_fault_pauses_sampling_pass_witness :
    ((loop (faultAt 11000) (run [Event.cycle (sampleAt 1000 99)] boot)).ctl =
       (run [Event.cycle (sampleAt 1000 99)] boot).ctl ∧
     (loop (faultAt 11000) (run [Event.cycle (sampleAt 1000 99)] boot)).temp.smoothedTempC_EMA =
       (run [Event.cycle (sampleAt 1000 99)] boot).temp.smoothedTempC_EMA) ∧
    ((loop (faultAt 100) boot).ctl = boot.ctl ∧
     (loop (faultAt 100) boot).temp.smoothedTempC_EMA = none) ∧
    ((run ([1000, 1100, 2000].map (fun t => Event.cycle (faultAt t))) boot).ctl = boot.ctl ∧
     (run ([1000, 1100, 2000].map (fun t => Event.cycle (faultAt t))) boot).temp.smoothedTempC_EMA
       = none) ∧
    ((loop (faultAt 11100) heatingAfterFault).ctl =
       heaterStateMachine (faultAt 11100).currentMillis heatingAfterFault.temp.smoothedTempC_EMA
         heatingAfterFault.ctl ∧
     (loop (faultAt 11100) heatingAfterFault).temp = heatingAfterFault.temp) :=
  ⟨(sensor_fault_pauses_sampling_pass (faultAt 11000)
      (run [Event.cycle (sampleAt 1000 99)] boot)).1 (by decide!) rfl,
   (sensor_fault_pauses_sampling_pass (faultAt 100) boot).2.1 rfl rfl,
   (sensor_fault_pauses_sampling_pass (faultAt 100) boot).2.2.1 rfl [1000, 1100, 2000],
   (sensor_fault_pauses_sampling_pass (faultAt 11100) heatingAfterFault).2.2.2 (by decide!)⟩

/-! ## C14: the temperature filter step -/

theorem machine_weights :
    roundFloat TEMP_EMA_ALPHA = 9395241 / 134217728 ∧
    roundFloat (1 - roundFloat TEMP_EMA_ALPHA) = 15602811 / 16777216 := by
  decide!

theorem emaStepMachine_contracts (c e : ℚ) :
    |emaStepMachine c (some e) - c| ≤
      93000001 / 100000000 * |e - c| + 1 / 134000000 * |c| := by
  obtain ⟨wa, wb⟩ := machine_weights
  show |roundDouble (roundDouble (roundFloat TEMP_EMA_ALPHA * c) +
      roundDouble (roundFloat (1 - roundFloat TEMP_EMA_ALPHA) * e)) - c| ≤ _
  rw [wb, wa]
  obtain ⟨a1, a2⟩ := roundDouble_err (9395241 / 134217728 * c)
  obtain ⟨b1, b2⟩ := roundDouble_err (15602811 / 16777216 * e)
  obtain ⟨s1, s2⟩ := roundDouble_err (roundDouble (9395241 / 134217728 * c) +
    roundDouble (15602811 / 16777216 * e))
  have hac : |9395241 / 134217728 * c| = 9395241 / 134217728 * |c| := by
    rw [abs_mul, abs_of_pos (by norm_num : (0 : ℚ) < 9395241 / 134217728)]
  have hbe : |15602811 / 16777216 * e| = 15602811 / 16777216 * |e| := by
    rw [abs_mul, abs_of_pos (by norm_num : (0 : ℚ) < 15602811 / 16777216)]
  rw [hac] at a1 a2
  rw [hbe] at b1 b2
  have hC := abs_nonneg c
  have hE := abs_nonneg e
  have hD := abs_nonneg (e - c)
  have hE2 : |e| ≤ |c| + |e - c| := by
    have := abs_add c (e - c)
    rw [add_sub_cancel] at this
    exact this
  have c1 := le_abs_self c
  have c2 := neg_abs_le c
  have e1 := le_abs_self e
  have e2 := neg_abs_le e
  have d1 := le_abs_self (e - c)
  have d2 := neg_abs_le (e - c)
  have hsum : |roundDouble (9395241 / 134217728 * c) + roundDouble (15602811 / 16777216 * e)| ≤
      (9395241 / 134217728 * |c| + 15602811 / 16777216 * |e|) * (1 + 1 / 9007199254740992) := by
    rw [abs_le]
    constructor <;> nlinarith
  rw [abs_le]
  constructor <;> nlinarith

theorem emaStepMachine_near_exact (s v : ℚ) :
    |emaStepMachine s (some v) - emaStep TEMP_EMA_ALPHA s (some v)| ≤
      (|s| + |v|) / 100000000 := by
  obtain ⟨wa, wb⟩ := machine_weights
  show |roundDouble (roundDouble (roundFloat TEMP_EMA_ALPHA * s) +
      roundDouble (roundFloat (1 - roundFloat TEMP_EMA_ALPHA) * v)) -
      (TEMP_EMA_ALPHA * s + (1 - TEMP_EMA_ALPHA) * v)| ≤ _
  rw [wb, wa]
  unfold TEMP_EMA_ALPHA
  obtain ⟨a1, a2⟩ := roundDouble_err (9395241 / 134217728 * s)
  obtain ⟨b1, b2⟩ := roundDouble_err (15602811 / 16777216 * v)
  obtain ⟨s1, s2⟩ := roundDouble_err (roundDouble (9395241 / 134217728 * s) +
    roundDouble (15602811 / 16777216 * v))
  have hac : |9395241 / 134217728 * s| = 9395241 / 134217728 * |s| := by
    rw [abs_mul, abs_of_pos (by norm_num : (0 : ℚ) < 9395241 / 134217728)]
  have hbe : |15602811 / 16777216 * v| = 15602811 / 16777216 * |v| := by
    rw [abs_mul, abs_of_pos (by norm_num : (0 : ℚ) < 15602811 / 16777216)]
  rw [hac] at a1 a2
  rw [hbe] at b1 b2
  have hC := abs_nonneg s
  have hE := abs_nonneg v
  have c1 := le_abs_self s
  have c2 := neg_abs_le s
  have e1 := le_abs_self v
  have e2 := neg_abs_le v
  have hsum : |roundDouble (9395241 / 134217728 * s) + roundDouble (15602811 / 16777216 * v)| ≤
      (9395241 / 134217728 * |s| + 15602811 / 16777216 * |v|) * (1 + 1 / 9007199254740992) := by
    rw [abs_le]
    constructor <;> nlinarith
  rw [abs_le]
  constructor <;> nlinarith

theorem emaRunMachine_constant (c : ℚ) (n : Nat) (v : ℚ) :
    ∃ e, emaRunMachine (List.replicate n c) (some v) = some e ∧
      |e - c| ≤ (93000001 / 100000000) ^ n * |v - c| +
        (1 - (93000001 / 100000000) ^ n) * (50 / 468999933) * |c| := by
  induction n generalizing v with
  | zero => exact ⟨v, rfl, by simp⟩
  | succ n ih =>
    obtain ⟨e, he, hb⟩ := ih (emaStepMachine c (some v))
    refine ⟨e, he, ?_⟩
    have hstep := emaStepMachine_contracts c v
    have hq : (0 : ℚ) ≤ (93000001 / 100000000) ^ n := by positivity
    have h1 := mul_le_mul_of_nonneg_left hstep hq
    have key : (93000001 / 100000000 : ℚ) ^ n *
          (93000001 / 100000000 * |v - c| + 1 / 134000000 * |c|) +
        (1 - (93000001 / 100000000) ^ n) * (50 / 468999933) * |c| =
        (93000001 / 100000000) ^ (n + 1) * |v - c| +
          (1 - (93000001 / 100000000) ^ (n + 1)) * (50 / 468999933) * |c| := by
      rw [pow_succ]
      ring
    linarith

theorem emaRunMachine_bound (c : ℚ) (n : Nat) (v : ℚ) :
    ∃ e, emaRunMachine (List.replicate n c) (some v) = some e ∧
      |e - c| ≤ (93000001 / 100000000) ^ n * |v - c| + |c| / 8388608 := by
  obtain ⟨e, he, hb⟩ := emaRunMachine_constant c n v
  refine ⟨e, he, ?_⟩
  have hq0 : (0 : ℚ) ≤ (93000001 / 100000000) ^ n := by positivity
  have hq1 : (93000001 / 100000000 : ℚ) ^ n ≤ 1 := pow_le_one₀ (by norm_num) (by norm_num)
  have hC := abs_nonneg c
  have h2 : (1 - (93000001 / 100000000 : ℚ) ^ n) * (50 / 468999933) * |c| ≤ |c| / 8388608 := by
    have h3 : (1 - (93000001 / 100000000 : ℚ) ^ n) * (50 / 468999933) ≤ 1 / 8388608 := by
      nlinarith
    calc (1 - (93000001 / 100000000 : ℚ) ^ n) * (50 / 468999933) * |c|
        ≤ 1 / 8388608 * |c| := mul_le_mul_of_nonneg_right h3 hC
      _ = |c| / 8388608 := by ring
  linarith

/-- C15, as stated, fails for the filter of the code: its weights are the
`float` constants `0.07f` and `1.0f - 0.07f`, whose sum is `1 + 2^-27`, so a
constant input is not a fixed point.  Fed the constant 93 from no data the
filter holds 93, then 93.00000069, then 93.00000134, not 93 at every cycle;
the value it is stationary at is 93.0000099. -/
theorem ema_constant_input_not_held :
    roundFloat TEMP_EMA_ALPHA + roundFloat (1 - roundFloat TEMP_EMA_ALPHA)
      = 1 + 1 / 134217728 ∧
    IsDouble 93 ∧
    emaRunMachine [93] none = some 93 ∧
    emaRunMachine [93, 93] none = some (12482248797 / 134217728) ∧
    emaRunMachine [93, 93, 93] none = some (6544293302627205 / 70368744177664) ∧
    emaRunMachine (List.replicate 2 93) none ≠ some 93 ∧
    emaRunMachine (List.replicate 3 93) none ≠ some 93 ∧
    emaStepMachine 93 (some (3272146952538437 / 35184372088832))
      = 3272146952538437 / 35184372088832 ∧
    (93 + 98 / 10000000 : ℚ) < 3272146952538437 / 35184372088832 := by
  decide!

/-- C15, amended. EMA convergence up to rounding, for the filter as the code
evaluates it (weights `0.07f` and `1.0f - 0.07f`, products and sum in
`double`): the first valid sample is taken as it is; after `n` valid samples
all equal to `c`, starting from the value `v`, the value `e_n` satisfies
`|e_n - c| ≤ 0.93000001^n * |v - c| + |c| / 2^23`; hence for every bound `d`
and every `eps > 0` there is an `N` (depending on `d` and `eps` only) such that
`|e_n - c| < eps + |c| / 2^23` for all `n ≥ N` whenever `|v - c| ≤ d`; and one
update differs from the exact value `0.07 * s + 0.93 * v` by at most
`(|s| + |v|) / 10^8`. -/
theorem ema_convergence_up_to_rounding :
    (∀ c : ℚ, emaRunMachine [c] none = some c) ∧
    (∀ (c v : ℚ) (n : Nat),
      ∃ e, emaRunMachine (List.replicate n c) (some v) = some e ∧
        |e - c| ≤ (93000001 / 100000000) ^ n * |v - c| + |c| / 8388608) ∧
    (∀ (d eps : ℚ), 0 ≤ d → 0 < eps →
      ∃ N : Nat, ∀ (v c : ℚ) (n : Nat), |v - c| ≤ d → N ≤ n →
        ∀ e, emaRunMachine (List.replicate n c) (some v) = some e →
          |e - c| < eps + |c| / 8388608) ∧
    (∀ s v : ℚ,
      |emaStepMachine s (some v) - emaStep TEMP_EMA_ALPHA s (some v)| ≤
        (|s| + |v|) / 100000000) := by
  refine ⟨fun c => rfl, fun c v n => emaRunMachine_bound c n v, ?_,
    emaStepMachine_near_exact⟩
  intro d eps hd heps
  have hd1 : 0 < d + 1 := by linarith
  obtain ⟨N, hN⟩ := exists_pow_lt_of_lt_one (div_pos heps hd1)
    (by norm_num : (93000001 / 100000000 : ℚ) < 1)
  refine ⟨N, fun v c n hv hn e he => ?_⟩
  obtain ⟨e2, he2, hb⟩ := emaRunMachine_bound c n v
  rw [he] at he2
  rw [← Option.some.inj he2] at hb
  have hpow : (93000001 / 100000000 : ℚ) ^ n ≤ (93000001 / 100000000) ^ N :=
    pow_le_pow_of_le_one (by norm_num) (by norm_num) hn
  have h1 : (93000001 / 100000000 : ℚ) ^ n * |v - c| ≤ (93000001 / 100000000) ^ N * (d + 1) := by
    apply mul_le_mul hpow (by linarith) (abs_nonneg _) (by positivity)
  have h2 : (93000001 / 100000000 : ℚ) ^ N * (d + 1) < eps := (lt_div_iff₀ hd1).mp hN
  linarith

/-- A bound for every start within 10 degrees of the input and tolerance 0.01;
a filter at 20 degrees fed 93 once holds a value within 73 + 93 / 2^23 of 93;
one update of a filter at 85.6 with the sample 85 is within 2 millionths of
the exact value 85.558. -/
theorem ema_convergence_up_to_rounding_witness :
    (∃ N : Nat, ∀ (v c : ℚ) (n : Nat), |v - c| ≤ 10 → N ≤ n →
      ∀ e, emaRunMachine (List.replicate n c) (some v) = some e →
        |e - c| < 1 / 100 + |c| / 8388608) ∧
    (∃ e, emaRunMachine (List.replicate 1 93) (some 20) = some e ∧
      |e - 93| ≤ (93000001 / 100000000) ^ 1 * |(20 : ℚ) - 93| + |(93 : ℚ)| / 8388608) ∧
    |emaStepMachine 85 (some (856 / 10)) - emaStep TEMP_EMA_ALPHA 85 (some (856 / 10))| ≤
      (|(85 : ℚ)| + |(856 / 10 : ℚ)|) / 100000000 :=
  ⟨ema_convergence_up_to_rounding.2.2.1 10 (1 / 100) (by norm_num) (by norm_num),
   ema_convergence_up_to_rounding.2.1 93 20 1,
   ema_convergence_up_to_rounding.2.2.2 85 (856 / 10)⟩

/-! ## C16 and C17: calibration -/

theorem calibration_formula (n : Nat) (x1 y1 x2 y2 : ℚ) (rs ys : List ℚ) (raw : ℚ)
    (hn : 2 ≤ n) (hx : x2 ≠ x1) :
    getCalibratedTemperatureWith n (x1 :: x2 :: rs) (y1 :: y2 :: ys) raw =
      y1 + (raw - x1) * (y2 - y1) / (x2 - x1) := by
  have h1 : ¬ n < 2 := by omega
  have h2 : ¬ x2 - x1 = 0 := fun h => hx (sub_eq_zero.mp h)
  simp [getCalibratedTemperatureWith, h1, h2]

/-- C16. Calibration hits its calibration points: for a table of at least two
configured points whose first two points are `(x1, y1)` and `(x2, y2)` with
`x1 ≠ x2`, `getCalibratedTemperature` maps `x1` to `y1` and `x2` to `y2`
exactly; with the configured table it maps 99.0 to 85.0 and 115.0 to 97.8. -/
theorem calibration_hits_points (n : Nat) (x1 y1 x2 y2 : ℚ) (rs ys : List ℚ)
    (hn : 2 ≤ n) (hx : x1 ≠ x2) :
    getCalibratedTemperatureWith n (x1 :: x2 :: rs) (y1 :: y2 :: ys) x1 = y1 ∧
    getCalibratedTemperatureWith n (x1 :: x2 :: rs) (y1 :: y2 :: ys) x2 = y2 ∧
    getCalibratedTemperature 99 = 85 ∧
    getCalibratedTemperature 115 = 978 / 10 := by
  have h2 : x2 - x1 ≠ 0 := fun h => hx (sub_eq_zero.mp h).symm
  refine ⟨?_, ?_, by decide!, by decide!⟩
  · rw [calibration_formula n x1 y1 x2 y2 rs ys x1 hn (Ne.symm hx)]
    simp
  · rw [calibration_formula n x1 y1 x2 y2 rs ys x2 hn (Ne.symm hx)]
    field_simp

/-- A table through (20, 18) and (120, 130). -/
theorem calibration_hits_points_witness :
    getCalibratedTemperatureWith 2 [20, 120] [18, 130] 20 = 18 ∧
    getCalibratedTemperatureWith 2 [20, 120] [18, 130] 120 = 130 :=
  ⟨(calibration_hits_points 2 20 18 120 130 [] [] (by decide) (by norm_num)).1,
   (calibration_hits_points 2 20 18 120 130 [] [] (by decide) (by norm_num)).2.1⟩

/-- C17. Calibration equals its reference and fails closed: with at least two
points configured, the first two being `(x1, y1)` and `(x2, y2)` with
`x2 ≠ x1`, `getCalibratedTemperature raw = y1 + (raw - x1) * (y2 - y1) / (x2 - x1)`;
with fewer than two points configured, or with `x2 = x1`, the result is `raw`;
and for every count, table and raw value the function with its division
checked returns a value (line 118 never divides by zero), the same as the
function itself.  The result is a function of the count, the table and `raw`
alone. -/
theorem calibration_reference (n : Nat) (x1 y1 x2 y2 : ℚ) (rs ys : List ℚ) (raw : ℚ) :
    (2 ≤ n → x2 ≠ x1 →
      getCalibratedTemperatureWith n (x1 :: x2 :: rs) (y1 :: y2 :: ys) raw =
        y1 + (raw - x1) * (y2 - y1) / (x2 - x1)) ∧
    (x2 = x1 → getCalibratedTemperatureWith n (x1 :: x2 :: rs) (y1 :: y2 :: ys) raw = raw) ∧
    (∀ raws actuals : List ℚ, n < 2 → getCalibratedTemperatureWith n raws actuals raw = raw) ∧
    (∀ raws actuals : List ℚ,
      getCalibratedTemperatureChecked n raws actuals raw =
        some (getCalibratedTemperatureWith n raws actuals raw)) := by
  refine ⟨fun hn hx => calibration_formula n x1 y1 x2 y2 rs ys raw hn hx, fun hx => ?_,
    fun raws actuals hn => ?_, fun raws actuals => ?_⟩
  · simp [getCalibratedTemperatureWith, hx]
  · simp [getCalibratedTemperatureWith, hn]
  · unfold getCalibratedTemperatureChecked getCalibratedTemperatureWith checkedDiv
    dsimp only
    split_ifs <;> rfl

/-- With the configured table a raw reading of 107 gives 91.4; a table whose
two raw points coincide, and a table with one configured point, return the
raw value. -/
theorem calibration_reference_witness :
    getCalibratedTemperatureWith 2 (99 :: 115 :: []) (85 :: 978 / 10 :: []) 107 =
      85 + (107 - 99) * (978 / 10 - 85) / (115 - 99) ∧
    getCalibratedTemperatureWith 2 (99 :: 99 :: []) (85 :: 978 / 10 :: []) 107 = 107 ∧
    getCalibratedTemperatureWith 1 [99] [85] 107 = 107 :=
  ⟨(calibration_reference 2 99 85 115 (978 / 10) [] [] 107).1 (by decide) (by norm_num),
   (calibration_reference 2 99 85 99 (978 / 10) [] [] 107).2.1 rfl,
   (calibration_reference 1 99 85 115 (978 / 10) [] [] 107).2.2.1 [99] [85] (by decide)⟩

/-! ## C18 and C19: despiking -/

theorem insertionSort_eq_of_sorted_perm (l srt : List Nat)
    (hs : srt.Sorted (fun a b => a ≤ b)) (hp : srt.Perm l) :
    l.insertionSort (fun a b => a ≤ b) = srt :=
  List.eq_of_perm_of_sorted ((List.perm_insertionSort _ l).trans hp.symm)
    (List.sorted_insertionSort _ l) hs

theorem getStableAdcValue_eq (f : Nat → Nat) (srt : List Nat)
    (hs : srt.Sorted (fun a b => a ≤ b)) (hp : srt.Perm (burst 7 f)) :
    getStableAdcValue f = ((srt.drop 1).take 5).sum / 5 := by
  have hsort : ((List.range 7).map f).insertionSort (fun a b => a ≤ b) = srt :=
    insertionSort_eq_of_sorted_perm _ srt hs hp
  have hlen : srt.length = 7 := by
    rw [hp.length_eq]
    simp [burst]
  have hk : ((srt.drop 1).take 5).length = 5 := by
    rw [List.length_take, List.length_drop, hlen]
    rfl
  simp only [getStableAdcValue, getStableAdcValueWith, PRESSURE_RAW_SAMPLES_COUNT,
    PRESSURE_SAMPLES_TO_DISCARD_EACH_END, hsort]
  rw [if_neg (by decide)]
  show (if ((srt.drop 1).take 5).length = 0 then f 7
    else ((srt.drop 1).take 5).sum / ((srt.drop 1).take 5).length) = _
  rw [hk, if_neg (by decide)]

theorem getStableAdcValue_sort (f : Nat → Nat) :
    getStableAdcValue f =
      ((((burst 7 f).insertionSort (fun a b => a ≤ b)).drop 1).take 5).sum / 5 :=
  getStableAdcValue_eq f _ (List.sorted_insertionSort _ _) (List.perm_insertionSort _ _)

theorem burst_update_perm (f : Nat → Nat) (i x : Nat) (hi : i < 7) :
    (burst 7 (Function.update f i x)).Perm (x :: ((List.range 7).erase i).map f) ∧
    (burst 7 f).Perm (f i :: ((List.range 7).erase i).map f) := by
  have hmem : i ∈ List.range 7 := List.mem_range.mpr hi
  have hperm := List.perm_cons_erase hmem
  have hnot : ∀ j ∈ (List.range 7).erase i, j ≠ i := fun j hj =>
    ((List.nodup_range 7).mem_erase_iff.mp hj).1
  constructor
  · have h1 := hperm.map (Function.update f i x)
    have h2 : ((List.range 7).erase i).map (Function.update f i x) =
        ((List.range 7).erase i).map f :=
      List.map_congr_left (fun j hj => Function.update_noteq (hnot j hj) x f)
    rw [List.map_cons, Function.update_same, h2] at h1
    exact h1
  · exact hperm.map f

theorem mem_rest_of_burst (f : Nat → Nat) (i b : Nat)
    (hb : b ∈ (((List.range 7).erase i).map f).insertionSort (fun a b => a ≤ b)) :
    ∃ j, j < 7 ∧ j ≠ i ∧ f j = b := by
  have h1 : b ∈ ((List.range 7).erase i).map f :=
    (List.perm_insertionSort _ _).mem_iff.mp hb
  obtain ⟨j, hj, rfl⟩ := List.mem_map.mp h1
  have h2 := (List.nodup_range 7).mem_erase_iff.mp hj
  exact ⟨j, List.mem_range.mp h2.2, h2.1, rfl⟩

theorem despike_low (f : Nat → Nat) (i a : Nat) (l : List Nat)
    (hp : l.Perm (a :: ((List.range 7).erase i).map f))
    (ha : ∀ j, j < 7 → j ≠ i → a ≤ f j) :
    ((l.insertionSort (fun a b => a ≤ b)).drop 1).take 5 =
      ((((List.range 7).erase i).map f).insertionSort (fun a b => a ≤ b)).take 5 := by
  have hs : (a :: (((List.range 7).erase i).map f).insertionSort (fun a b => a ≤ b)).Sorted
      (fun a b => a ≤ b) := by
    refine List.sorted_cons.mpr ⟨fun b hb => ?_, List.sorted_insertionSort _ _⟩
    obtain ⟨j, hj, hji, rfl⟩ := mem_rest_of_burst f i b hb
    exact ha j hj hji
  have hperm : (a :: (((List.range 7).erase i).map f).insertionSort (fun a b => a ≤ b)).Perm l :=
    ((List.perm_insertionSort _ _).cons a).trans hp.symm
  rw [insertionSort_eq_of_sorted_perm l _ hs hperm]
  rfl

theorem despike_high (f : Nat → Nat) (i a : Nat) (l : List Nat) (hi : i < 7)
    (hp : l.Perm (a :: ((List.range 7).erase i).map f))
    (ha : ∀ j, j < 7 → j ≠ i → f j ≤ a) :
    ((l.insertionSort (fun a b => a ≤ b)).drop 1).take 5 =
      ((((List.range 7).erase i).map f).insertionSort (fun a b => a ≤ b)).drop 1 := by
  have hlen : ((((List.range 7).erase i).map f).insertionSort (fun a b => a ≤ b)).length = 6 := by
    rw [List.length_insertionSort, List.length_map,
      List.length_erase_of_mem (List.mem_range.mpr hi), List.length_range]
  have hs : ((((List.range 7).erase i).map f).insertionSort (fun a b => a ≤ b) ++ [a]).Sorted
      (fun a b => a ≤ b) := by
    refine List.pairwise_append.mpr ⟨List.sorted_insertionSort _ _, List.sorted_singleton a, ?_⟩
    intro b hb c hc
    obtain ⟨j, hj, hji, rfl⟩ := mem_rest_of_burst f i b hb
    rw [List.mem_singleton.mp hc]
    exact ha j hj hji
  have hperm : ((((List.range 7).erase i).map f).insertionSort (fun a b => a ≤ b) ++ [a]).Perm
      l := by
    refine (List.perm_append_singleton a _).trans ?_
    exact ((List.perm_insertionSort _ _).cons a).trans hp.symm
  rw [insertionSort_eq_of_sorted_perm l _ hs hperm]
  rw [List.drop_append_of_le_length (by rw [hlen]; decide)]
  exact List.take_left' (by rw [List.length_drop, hlen])

/-- C18. Despiking is insensitive to one extreme outlier: for every burst of 7
samples read by `getStableAdcValue` (1 sample discarded at each end), the
returned value does not depend on the order in which the samples were read;
it is unchanged when a smallest sample is replaced by any value not greater
than every other sample (that is, than the second-smallest), and when a
largest sample is replaced by any value not smaller than every other sample
(the second-largest).  The samples need not be bounded by 4095 for this. -/
theorem despiking_insensitive_to_outlier :
    (∀ f g : Nat → Nat, (burst 7 f).Perm (burst 7 g) →
      getStableAdcValue f = getStableAdcValue g) ∧
    (∀ (f : Nat → Nat) (i x : Nat), i < 7 →
      (∀ j, j < 7 → f i ≤ f j) → (∀ j, j < 7 → j ≠ i → x ≤ f j) →
      getStableAdcValue (Function.update f i x) = getStableAdcValue f) ∧
    (∀ (f : Nat → Nat) (i x : Nat), i < 7 →
      (∀ j, j < 7 → f j ≤ f i) → (∀ j, j < 7 → j ≠ i → f j ≤ x) →
      getStableAdcValue (Function.update f i x) = getStableAdcValue f) := by
  refine ⟨fun f g hp => ?_, fun f i x hi hmin hx => ?_, fun f i x hi hmax hx => ?_⟩
  · rw [getStableAdcValue_sort f, getStableAdcValue_sort g,
      insertionSort_eq_of_sorted_perm (burst 7 f) _ (List.sorted_insertionSort _ (burst 7 g))
        ((List.perm_insertionSort _ _).trans hp.symm)]
  · obtain ⟨p1, p2⟩ := burst_update_perm f i x hi
    rw [getStableAdcValue_sort, getStableAdcValue_sort,
      despike_low f i x _ p1 hx, despike_low f i (f i) _ p2 (fun j hj _ => hmin j hj)]
  · obtain ⟨p1, p2⟩ := burst_update_perm f i x hi
    rw [getStableAdcValue_sort, getStableAdcValue_sort,
      despike_high f i x _ hi p1 hx, despike_high f i (f i) _ hi p2 (fun j hj _ => hmax j hj)]

/-- The burst 0, 1, 1, 1, 1, 2, 9: reading it in another order, replacing the
lowest sample 0 by 1, or the highest sample 9 by 4095, gives the same
value. -/
theorem despiking_insensitive_to_outlier_witness :
    getStableAdcValue unevenBurst = getStableAdcValue shuffledBurst ∧
    getStableAdcValue (Function.update unevenBurst 0 1) = getStableAdcValue unevenBurst ∧
    getStableAdcValue (Function.update unevenBurst 6 4095) = getStableAdcValue unevenBurst :=
  ⟨despiking_insensitive_to_outlier.1 unevenBurst shuffledBurst (by decide),
   despiking_insensitive_to_outlier.2.1 unevenBurst 0 1 (by decide) (by decide) (by decide),
   despiking_insensitive_to_outlier.2.2 unevenBurst 6 4095 (by decide) (by decide)
     (by decide)⟩

theorem middle_five (l : List Nat) (h : l.length = 7) :
    ((l.drop 1).take 5).sum =
      l.getD 1 0 + l.getD 2 0 + l.getD 3 0 + l.getD 4 0 + l.getD 5 0 := by
  rcases l with _ | ⟨a0, l⟩
  · simp at h
  rcases l with _ | ⟨a1, l⟩
  · simp at h
  rcases l with _ | ⟨a2, l⟩
  · simp at h
  rcases l with _ | ⟨a3, l⟩
  · simp at h
  rcases l with _ | ⟨a4, l⟩
  · simp at h
  rcases l with _ | ⟨a5, l⟩
  · simp at h
  rcases l with _ | ⟨a6, l⟩
  · simp at h
  simp only [List.drop_succ_cons, List.drop_zero, List.take_succ_cons, List.take_zero,
    List.sum_cons, List.sum_nil, List.getD_cons_succ, List.getD_cons_zero]
  omega

theorem trimmedMean_burst (f : Nat → Nat) :
    trimmedMean 1 (burst 7 f) =
      (((((burst 7 f).insertionSort (fun a b => a ≤ b)).drop 1).take 5).sum : ℚ) / (5 : Nat) := by
  have hlen : (((burst 7 f).insertionSort (fun a b => a ≤ b)).drop 1).length = 6 := by
    rw [List.length_drop, List.length_insertionSort]
    simp [burst]
  have hr : (((burst 7 f).insertionSort (fun a b => a ≤ b)).drop 1).rdrop 1 =
      (((burst 7 f).insertionSort (fun a b => a ≤ b)).drop 1).take 5 := by
    rw [List.rdrop, hlen]
  have hk : ((((burst 7 f).insertionSort (fun a b => a ≤ b)).drop 1).take 5).length = 5 := by
    rw [List.length_take, hlen]
    rfl
  unfold trimmedMean
  rw [hr, hk]

/-- C19, as stated, fails: for the burst 0, 1, 1, 1, 1, 2, 9 the five samples
that remain are 1, 1, 1, 1, 2, whose average is 6/5, and `getStableAdcValue`
returns 1. -/
theorem despiked_value_is_not_the_exact_average :
    burst 7 unevenBurst = [0, 1, 1, 1, 1, 2, 9] ∧
    trimmedMean 1 (burst 7 unevenBurst) = 6 / 5 ∧
    getStableAdcValue unevenBurst = 1 ∧
    (getStableAdcValue unevenBurst : ℚ) ≠ trimmedMean 1 (burst 7 unevenBurst) := by
  decide!

/-- C19, amended. Despiked value: for every burst of 7 samples with 1 sample
discarded at each end, `getStableAdcValue` returns the integer quotient of the
sum of the sorted samples at positions 1..5 by 5, whatever ascending sort of
the burst is taken; that is the average of the 5 samples that remain after
dropping the lowest and the highest, truncated to an integer (so it is at most
the average and more than the average minus 1); for a burst size
`N < 2k + 1` it returns a single raw sample, the first one read. -/
theorem despiked_value_truncated_trimmed_mean :
    (∀ (f : Nat → Nat) (srt : List Nat),
      srt.Sorted (fun a b => a ≤ b) → srt.Perm (burst 7 f) →
      getStableAdcValue f =
        (srt.getD 1 0 + srt.getD 2 0 + srt.getD 3 0 + srt.getD 4 0 + srt.getD 5 0) / 5) ∧
    (∀ f : Nat → Nat, getStableAdcValue f = ⌊trimmedMean 1 (burst 7 f)⌋₊) ∧
    (∀ f : Nat → Nat,
      (getStableAdcValue f : ℚ) ≤ trimmedMean 1 (burst 7 f) ∧
      trimmedMean 1 (burst 7 f) - 1 < (getStableAdcValue f : ℚ)) ∧
    (∀ (n k : Nat) (f : Nat → Nat), n < 2 * k + 1 → getStableAdcValueWith n k f = f 0) := by
  have hfloor : ∀ f : Nat → Nat, getStableAdcValue f = ⌊trimmedMean 1 (burst 7 f)⌋₊ := by
    intro f
    rw [trimmedMean_burst, Nat.floor_div_eq_div, getStableAdcValue_sort]
  have hnn : ∀ f : Nat → Nat, 0 ≤ trimmedMean 1 (burst 7 f) := by
    intro f
    rw [trimmedMean_burst]
    positivity
  refine ⟨fun f srt hs hp => ?_, hfloor, fun f => ?_, fun n k f h => ?_⟩
  · rw [getStableAdcValue_eq f srt hs hp, middle_five srt (by rw [hp.length_eq]; simp [burst])]
  · rw [hfloor f]
    exact ⟨Nat.floor_le (hnn f), Nat.sub_one_lt_floor _⟩
  · simp only [getStableAdcValueWith, if_pos h]

/-- The burst 0, 1, 1, 1, 1, 2, 9 gives (1 + 1 + 1 + 1 + 2) / 5 = 1; a burst
size of 2 with 1 sample discarded at each end returns the first sample. -/
theorem despiked_value_truncated_trimmed_mean_witness :
    getStableAdcValue unevenBurst = (1 + 1 + 1 + 1 + 2) / 5 ∧
    getStableAdcValueWith 2 1 unevenBurst = unevenBurst 0 :=
  ⟨despiked_value_truncated_trimmed_mean.1 unevenBurst [0, 1, 1, 1, 1, 2, 9]
      (by decide) (by decide),
   despiked_value_truncated_trimmed_mean.2.2.2 2 1 unevenBurst (by decide)⟩

/-! ## C20: pressure conversion -/

/-- C20. Pressure conversion and clamp: for every smoothed ADC value `a` the
pressure computed from it is
`max(0, ((a / 4095 * 3.3) - 0.34) / (4.34 - 0.34) * 16)`; it is never negative
and is exactly 0 whenever `a / 4095 * 3.3 < 0.34`; and the pressure a pass of
`loop()` reports (`web_pressureBar`) is this function of the moving average of
the pass. -/
theorem pressure_conversion (a : ℚ) :
    pressureBar a =
      max 0 (((a / 4095 * (33 / 10)) - 34 / 100) / (434 / 100 - 34 / 100) * 16) ∧
    0 ≤ pressureBar a ∧
    (a / 4095 * (33 / 10) < 34 / 100 → pressureBar a = 0) ∧
    (∀ (inp : CycleInput) (s : State),
      (loop inp s).web_pressureBar =
        some (pressureBar
          (loop_pressureSmoothing (getStableAdcValue inp.analogRead) s.press).2)) := by
  have hdef : pressureBar a =
      max 0 (((a / 4095 * (33 / 10)) - 34 / 100) / (434 / 100 - 34 / 100) * 16) := by
    simp only [pressureBar, ESP32_ADC_MAX_VALUE, ESP32_ADC_MAX_VOLTAGE, VOLTS_AT_0_BAR,
      VOLTS_AT_16_BAR, PRESSURE_MAX_BAR]
    split_ifs with h
    · exact (max_eq_left h.le).symm
    · exact (max_eq_right (not_lt.mp h)).symm
  refine ⟨hdef, ?_, fun h => ?_, fun inp s => rfl⟩
  · rw [hdef]
    exact le_max_left _ _
  · rw [hdef]
    apply max_eq_left
    have h1 : a / 4095 * (33 / 10) - 34 / 100 < 0 := by linarith
    have h2 : (a / 4095 * (33 / 10) - 34 / 100) / (434 / 100 - 34 / 100) < 0 :=
      div_neg_of_neg_of_pos h1 (by norm_num)
    nlinarith

/-- An ADC value of 400 (0.322 V) is reported as 0 bar. -/
theorem pressure_conversion_witness : pressureBar 400 = 0 :=
  (pressure_conversion 400).2.2.1 (by norm_num)

/-! ## C24: classification of a heating cycle -/

/-- C24. Heating-cycle classification: in a pass of `loop()` that starts in
SETTLING with a valid smoothed temperature `T`, the observation window elapsed
and `T - tempAtSettlingCheckStartC ≤ 0.3` (the pass goes to IDLE), the counter
`consecutiveFailedHeatingAttempts` is incremented by exactly 1 if
`T < desired - 5.0` and is reset to 0 otherwise; a pass that starts in
SETTLING and does not end in IDLE (with or without a valid temperature)
leaves the counter unchanged. -/
theorem heating_cycle_classification (inp : CycleInput) (s : State)
    (hset : s.ctl.currentHeaterState = HeaterState.SETTLING) :
    (∀ T, smoothedTempC inp s = some T →
      usub inp.currentMillis s.ctl.settlingCheckStartTimeMs ≥ 10000 →
      T - s.ctl.tempAtSettlingCheckStartC ≤ 3 / 10 →
      (loop inp s).ctl.currentHeaterState = HeaterState.IDLE ∧
      (T < s.ctl.desiredTemperatureC - 5 →
        (loop inp s).ctl.consecutiveFailedHeatingAttempts =
          s.ctl.consecutiveFailedHeatingAttempts + 1) ∧
      (¬ T < s.ctl.desiredTemperatureC - 5 →
        (loop inp s).ctl.consecutiveFailedHeatingAttempts = 0)) ∧
    ((loop inp s).ctl.currentHeaterState ≠ HeaterState.IDLE →
      (loop inp s).ctl.consecutiveFailedHeatingAttempts =
        s.ctl.consecutiveFailedHeatingAttempts) := by
  refine ⟨fun T hT h1 h2 => ?_, fun hne => ?_⟩
  · rw [loop_ctl_SETTLING inp s T hset hT, settling_settled _ _ _ h1 h2]
    refine ⟨rfl, fun h3 => ?_, fun h3 => ?_⟩
    · have h4 : T < s.ctl.desiredTemperatureC - TEMP_DIFF_THRESHOLD_FOR_HEATING_FAILURE := h3
      simp only [if_pos h4]
    · have h4 : ¬ T < s.ctl.desiredTemperatureC - TEMP_DIFF_THRESHOLD_FOR_HEATING_FAILURE := h3
      simp only [if_neg h4]
  · cases hT : smoothedTempC inp s with
    | none => rw [loop_ctl_noData inp s hT]
    | some T =>
      rw [loop_ctl_SETTLING inp s T hset hT] at hne ⊢
      by_cases h1 : usub inp.currentMillis s.ctl.settlingCheckStartTimeMs
          ≥ SETTLED_OBSERVATION_PERIOD_MS
      · by_cases h2 : T - s.ctl.tempAtSettlingCheckStartC ≤ SETTLED_TEMP_RISE_MAX_C
        · rw [settling_settled _ _ _ h1 h2] at hne
          exact absurd rfl hne
        · rw [settling_restart _ _ _ h1 (not_le.mp h2)]
      · rw [settling_wait _ _ _ (by omega)]

/-- Settling from 80.0 at setpoint 90 with a reading of 80.2 after 10000 ms:
IDLE and one more failed attempt; with a reading of 80.5 the state is not IDLE
and the counter is as before. -/
theorem heating_cycle_classification_witness :
    ((loop (faultAt 20000) (settlingFrom80 (802 / 10))).ctl.currentHeaterState
        = HeaterState.IDLE ∧
     (loop (faultAt 20000) (settlingFrom80 (802 / 10))).ctl.consecutiveFailedHeatingAttempts =
        (settlingFrom80 (802 / 10)).ctl.consecutiveFailedHeatingAttempts + 1) ∧
    (loop (faultAt 20000) (settlingFrom80 (805 / 10))).ctl.consecutiveFailedHeatingAttempts =
      (settlingFrom80 (805 / 10)).ctl.consecutiveFailedHeatingAttempts := by
  have h := (heating_cycle_classification (faultAt 20000) (settlingFrom80 (802 / 10))
    (by decide!)).1 (802 / 10) (by decide!) (by decide!) (by decide!)
  exact ⟨⟨h.1, h.2.1 (by decide!)⟩,
    (heating_cycle_classification (faultAt 20000) (settlingFrom80 (805 / 10))
      (by decide!)).2 (by decide!)⟩

/-! ## C28: relay and heater state -/

theorem monitoring_presumed_flags (now : Nat) (T : ℚ) (c : Control)
    (hoff : c.machineIsPresumedOff = false) :
    (loop_IDLE_monitoring now T c).machineIsPresumedOff = true →
      (loop_IDLE_monitoring now T c).isMonitoringForMachineOff = false := by
  simp only [loop_IDLE_monitoring]
  split_ifs <;> simp_all

theorem standby_flags (now : Nat) (T : ℚ) (c : Control) :
    (loop_IDLE_presumedOff now T c).currentHeaterState = c.currentHeaterState ∧
    ((loop_IDLE_presumedOff now T c).isMonitoringForMachineOff = true →
      c.isMonitoringForMachineOff = true) := by
  simp only [loop_IDLE_presumedOff]
  split_ifs <;> simp

theorem heating_outcome (now : Nat) (T : ℚ) (c : Control) :
    loop_IDLE_heating now T c = c ∨
    ((loop_IDLE_heating now T c).currentHeaterState = HeaterState.HEATING ∧
      (loop_IDLE_heating now T c).isRelayOn = true) := by
  by_cases h : c.desiredTemperatureC - T ≥ 1 / 2
  · rw [heating_trigger now T c h]
    exact Or.inr ⟨rfl, rfl⟩
  · exact Or.inl (heating_no_trigger now T c (not_le.mp h))

theorem loop_HEATING_relay (now : Nat) (T : ℚ) (c : Control)
    (hs : c.currentHeaterState = HeaterState.HEATING) :
    ((loop_HEATING now T c).currentHeaterState = HeaterState.HEATING ∧
      (loop_HEATING now T c).isRelayOn = c.isRelayOn) ∨
    ((loop_HEATING now T c).currentHeaterState = HeaterState.SETTLING ∧
      (loop_HEATING now T c).isRelayOn = false) ∨
    loop_HEATING now T c = c := by
  by_cases h1 : c.lastCalculatedHeatDurationMs > 30000 ∧ T ≥ EARLY_CUTOFF_TEMP_C
  · rw [heating_early now T c h1.1 h1.2]
    exact Or.inr (Or.inl ⟨rfl, rfl⟩)
  · by_cases h2 : now ≥ c.heaterStopTimeMs
    · by_cases h3 : T < EARLY_CUTOFF_TEMP_C ∧ c.desiredTemperatureC - T > 1 / 10
      · rw [heating_extend now T c h1 h2 h3.1 h3.2]
        exact Or.inl ⟨hs, rfl⟩
      · rw [heating_stop now T c h1 h2 h3]
        exact Or.inr (Or.inl ⟨rfl, rfl⟩)
    · exact Or.inr (Or.inr (heating_wait now T c h1 (by omega)))

theorem handleSetTemp_monitoring (arg : Option ℚ) (s : State) :
    (handleSetTemp arg s).1.ctl.isMonitoringForMachineOff = true →
      s.ctl.isMonitoringForMachineOff = true := by
  cases arg with
  | none => exact fun h => h
  | some t =>
    simp only [handleSetTemp]
    split_ifs <;> simp_all

theorem heaterAgreeInv_heaterStateMachine (now : Nat) (t : Option ℚ) (c : Control)
    (h : HeaterAgreeInv c) : HeaterAgreeInv (heaterStateMachine now t c) := by
  obtain ⟨hH, hS, hP⟩ := h
  cases t with
  | none => exact ⟨hH, hS, hP⟩
  | some T =>
    cases hs : c.currentHeaterState with
    | IDLE =>
      simp only [heaterStateMachine, hs]
      by_cases hc : c.inEarlyCutoffCooldown = true ∧ now < c.earlyCutoffCooldownEndTime
      · rw [loop_IDLE_cooling now T c hc.1 hc.2]
        exact ⟨hH, hS, hP⟩
      · have hc2 : c.inEarlyCutoffCooldown = true → now ≥ c.earlyCutoffCooldownEndTime := by
          intro h1
          by_contra h2
          exact hc ⟨h1, by omega⟩
        cases hoff : c.machineIsPresumedOff with
        | true =>
          rw [loop_IDLE_standby now T c hc2 hoff]
          obtain ⟨r1, r2⟩ := standby_flags now T (cooldownCleared c)
          have r1' : (loop_IDLE_presumedOff now T (cooldownCleared c)).currentHeaterState
              = HeaterState.IDLE := r1.trans hs
          refine ⟨fun h1 => ?_, fun h1 => ?_, fun _ => ⟨r1', ?_⟩⟩
          · rw [r1'] at h1
            exact HeaterState.noConfusion h1
          · rw [r1'] at h1
            exact HeaterState.noConfusion h1
          · by_contra h3
            have h4 : (loop_IDLE_presumedOff now T
                (cooldownCleared c)).isMonitoringForMachineOff = true := by simpa using h3
            have h5 : c.isMonitoringForMachineOff = true := r2 h4
            rw [(hP hoff).2] at h5
            exact absurd h5 (by decide)
        | false =>
          rw [loop_IDLE_normal now T c hc2 hoff]
          obtain ⟨f1, -, -, -, -, -, -, -, -⟩ := monitoring_cleared_frame now T c
          have f1' : (loop_IDLE_monitoring now T (cooldownCleared c)).currentHeaterState
              = HeaterState.IDLE := f1.trans hs
          by_cases hp : (loop_IDLE_monitoring now T (cooldownCleared c)).machineIsPresumedOff
              = true
          · rw [if_pos hp]
            refine ⟨fun h1 => ?_, fun h1 => ?_, fun _ => ⟨f1', ?_⟩⟩
            · rw [f1'] at h1
              exact HeaterState.noConfusion h1
            · rw [f1'] at h1
              exact HeaterState.noConfusion h1
            · exact monitoring_presumed_flags now T (cooldownCleared c) hoff hp
          · rw [if_neg hp]
            have hp2 : (loop_IDLE_heating now T
                (loop_IDLE_monitoring now T (cooldownCleared c))).machineIsPresumedOff ≠ true := by
              rw [(heating_presence_frame now T _).1]
              exact hp
            rcases heating_outcome now T (loop_IDLE_monitoring now T (cooldownCleared c))
              with h6 | h6
            · rw [h6]
              refine ⟨fun h1 => ?_, fun h1 => ?_, fun h1 => absurd h1 hp⟩
              · rw [f1'] at h1
                exact HeaterState.noConfusion h1
              · rw [f1'] at h1
                exact HeaterState.noConfusion h1
            · refine ⟨fun _ => h6.2, fun h1 => ?_, fun h1 => absurd h1 hp2⟩
              rw [h6.1] at h1
              exact HeaterState.noConfusion h1
    | HEATING =>
      simp only [heaterStateMachine, hs]
      have hoff : c.machineIsPresumedOff ≠ true := by
        intro h1
        have := (hP h1).1
        rw [hs] at this
        exact HeaterState.noConfusion this
      have hoff2 : (loop_HEATING now T c).machineIsPresumedOff ≠ true := by
        rw [(loop_HEATING_frame now T c).1]
        exact hoff
      rcases loop_HEATING_relay now T c hs with h6 | h6 | h6
      · refine ⟨fun _ => h6.2.trans (hH hs), fun h1 => ?_, fun h1 => absurd h1 hoff2⟩
        rw [h6.1] at h1
        exact HeaterState.noConfusion h1
      · refine ⟨fun h1 => ?_, fun _ => h6.2, fun h1 => absurd h1 hoff2⟩
        rw [h6.1] at h1
        exact HeaterState.noConfusion h1
      · rw [h6]
        exact ⟨hH, hS, hP⟩
    | SETTLING =>
      simp only [heaterStateMachine, hs]
      have hoff : c.machineIsPresumedOff ≠ true := by
        intro h1
        have := (hP h1).1
        rw [hs] at this
        exact HeaterState.noConfusion this
      obtain ⟨f1, -, f3, -, -, f6⟩ := loop_SETTLING_frame now T c
      have hoff2 : (loop_SETTLING now T c).machineIsPresumedOff ≠ true := by
        rw [f1]
        exact hoff
      refine ⟨fun h1 => ?_, fun _ => f3.trans (hS hs), fun h1 => absurd h1 hoff2⟩
      rcases f6 with h6 | h6
      · rw [h6, hs] at h1
        exact HeaterState.noConfusion h1
      · rw [h6.1] at h1
        exact HeaterState.noConfusion h1

theorem heaterAgreeInv_step (e : Event) (s : State) (h : HeaterAgreeInv s.ctl) :
    HeaterAgreeInv (step e s).ctl := by
  cases e with
  | cycle inp => exact heaterAgreeInv_heaterStateMachine _ _ _ h
  | setTemp arg =>
    obtain ⟨f1, f2, -, -, f5⟩ := handleSetTemp_frame arg s
    have f6 := handleSetTemp_monitoring arg s
    obtain ⟨hH, hS, hP⟩ := h
    refine ⟨fun h1 => f1.trans (hH (f2.symm.trans h1)), fun h1 => f1.trans (hS (f2.symm.trans h1)),
      fun h1 => ⟨f2.trans (hP (f5 h1)).1, ?_⟩⟩
    by_contra h3
    have h4 : (handleSetTemp arg s).1.ctl.isMonitoringForMachineOff = true := by simpa using h3
    have h5 := f6 h4
    rw [(hP (f5 h1)).2] at h5
    exact absurd h5 (by decide)
  | resetMaxPressure => exact h
  | data =>
    simp only [step, handleData]
    split_ifs
    · exact h
    · exact h

theorem heaterAgreeInv_run (es : List Event) (s : State) (h : HeaterAgreeInv s.ctl) :
    HeaterAgreeInv (run es s).ctl := by
  induction es generalizing s with
  | nil => exact h
  | cons e es ih => exact ih (step e s) (heaterAgreeInv_step e s h)

/-- C28. Heater output agrees with the heater state: in every state reachable
from the boot state by passes of `loop()`, setpoint commands, reset commands
and data requests, `currentHeaterState = HEATING` implies `isRelayOn = true`,
`currentHeaterState = SETTLING` implies `isRelayOn = false`, and
`machineIsPresumedOff = true` implies `currentHeaterState = IDLE` and
`isMonitoringForMachineOff = false`. -/
theorem relay_agrees_with_heater_state (s : State) (hr : Reachable s) :
    (s.ctl.currentHeaterState = HeaterState.HEATING → s.ctl.isRelayOn = true) ∧
    (s.ctl.currentHeaterState = HeaterState.SETTLING → s.ctl.isRelayOn = false) ∧
    (s.ctl.machineIsPresumedOff = true →
      s.ctl.currentHeaterState = HeaterState.IDLE ∧
      s.ctl.isMonitoringForMachineOff = false) := by
  obtain ⟨es, rfl⟩ := hr
  exact heaterAgreeInv_run es boot
    ⟨fun h => HeaterState.noConfusion h, fun h => HeaterState.noConfusion h,
     fun h => Bool.noConfusion h⟩

/-- The state `longHeating` is HEATING with the relay on; the state after
passes at times 1000 and 12000 reading 99 degrees raw (the second finds the
10000 ms timer expired at 85.0 degrees) is SETTLING with the relay off; the
state `standbyAt86` is presumed off, IDLE and not monitoring. -/
theorem relay_agrees_with_heater_state_witness :
    longHeating.ctl.isRelayOn = true ∧
    (run [Event.cycle (sampleAt 1000 99), Event.cycle (sampleAt 12000 99)] boot).ctl.isRelayOn
      = false ∧
    (standbyAt86.ctl.currentHeaterState = HeaterState.IDLE ∧
      standbyAt86.ctl.isMonitoringForMachineOff = false) :=
  ⟨(relay_agrees_with_heater_state longHeating ⟨_, rfl⟩).1 (by decide!),
   (relay_agrees_with_heater_state
      (run [Event.cycle (sampleAt 1000 99), Event.cycle (sampleAt 12000 99)] boot)
      ⟨_, rfl⟩).2.1 (by decide!),
   (relay_agrees_with_heater_state standbyAt86 ⟨_, rfl⟩).2.2 (by decide!)⟩

/-! ## C29: the stay in HEATING -/

theorem run_append (es fs : List Event) (s : State) :
    run (es ++ fs) s = run fs (run es s) := by
  induction es generalizing s with
  | nil => rfl
  | cons e es ih => exact ih (step e s)

theorem steady_reading (t : Nat) (raw v : ℚ) (s : State)
    (hcal : getCalibratedTemperature raw = v) (he : s.temp.smoothedTempC_EMA = some v) :
    smoothedTempC (sampleAt t raw) s = some v ∧
    (loop (sampleAt t raw) s).temp.smoothedTempC_EMA = some v := by
  have h1 : (loop (sampleAt t raw) s).temp =
      (loop_temperature t (some raw) s.temp).1 := rfl
  have h2 : smoothedTempC (sampleAt t raw) s = (loop_temperature t (some raw) s.temp).2 := rfl
  rw [h1, h2]
  by_cases h : usub t s.temp.lastTempReadTime ≥ tempReadInterval
  · rw [loop_temperature_valid t raw s.temp h, hcal, he]
    have h3 : emaStep TEMP_EMA_ALPHA v (some v) = v := by
      simp only [emaStep]
      ring
    rw [h3]
    exact ⟨rfl, rfl⟩
  · rw [loop_temperature_hold t (some raw) s.temp (by omega)]
    exact ⟨he, he⟩

theorem clampedDuration_range (lo : Nat) (diff : ℚ) (hlo : lo ≤ 70000) :
    lo ≤ clampedDuration lo diff ∧ clampedDuration lo diff ≤ 70000 := by
  unfold clampedDuration
  exact ⟨le_max_left _ _, max_le hlo (min_le_right _ _)⟩

theorem heating_stays (inp : CycleInput) (s : State) (T : ℚ)
    (hheat : s.ctl.currentHeaterState = HeaterState.HEATING)
    (hT : smoothedTempC inp s = some T) (h76 : T < 76)
    (hdiff : s.ctl.desiredTemperatureC - T > 1 / 10) :
    (loop inp s).ctl.currentHeaterState = HeaterState.HEATING ∧
    (loop inp s).ctl.isRelayOn = s.ctl.isRelayOn ∧
    (loop inp s).ctl.desiredTemperatureC = s.ctl.desiredTemperatureC ∧
    ((loop inp s).ctl.lastCalculatedHeatDurationMs = s.ctl.lastCalculatedHeatDurationMs ∨
      (loop inp s).ctl.lastCalculatedHeatDurationMs =
        clampedDuration 1000 (s.ctl.desiredTemperatureC - T)) := by
  rw [loop_ctl_HEATING inp s T hheat hT]
  have h1 : ¬ (s.ctl.lastCalculatedHeatDurationMs > 30000 ∧ T ≥ EARLY_CUTOFF_TEMP_C) :=
    fun h => absurd h.2 (not_le.mpr h76)
  by_cases h2 : inp.currentMillis ≥ s.ctl.heaterStopTimeMs
  · rw [heating_extend _ _ _ h1 h2 h76 hdiff]
    exact ⟨hheat, rfl, rfl, Or.inr rfl⟩
  · rw [heating_wait _ _ _ h1 (by omega)]
    exact ⟨hheat, rfl, rfl, Or.inl rfl⟩

theorem coldHeating_inv (n : Nat) :
    (run (coldHeatingTrace n) longHeating).ctl.currentHeaterState = HeaterState.HEATING ∧
    (run (coldHeatingTrace n) longHeating).ctl.isRelayOn = true ∧
    (run (coldHeatingTrace n) longHeating).ctl.desiredTemperatureC = 90 ∧
    (run (coldHeatingTrace n) longHeating).temp.smoothedTempC_EMA = some (698 / 10) ∧
    1000 ≤ (run (coldHeatingTrace n) longHeating).ctl.lastCalculatedHeatDurationMs ∧
    (run (coldHeatingTrace n) longHeating).ctl.lastCalculatedHeatDurationMs ≤ 70000 := by
  induction n with
  | zero => decide!
  | succ n ih =>
    obtain ⟨i1, i2, i3, i4, i5, i6⟩ := ih
    have hstep : run (coldHeatingTrace (n + 1)) longHeating =
        loop (sampleAt ((2000 + 1000 * n) % ULONG_RANGE) 80)
          (run (coldHeatingTrace n) longHeating) := by
      unfold coldHeatingTrace
      rw [List.range_succ, List.map_append, run_append]
      rfl
    rw [hstep]
    obtain ⟨t1, t2⟩ := steady_reading ((2000 + 1000 * n) % ULONG_RANGE) 80 (698 / 10)
      (run (coldHeatingTrace n) longHeating) (by decide!) i4
    obtain ⟨k1, k2, k3, k4⟩ := heating_stays _ _ (698 / 10) i1 t1 (by norm_num)
      (by rw [i3]; norm_num)
    refine ⟨k1, k2.trans i2, k3.trans i3, t2, ?_, ?_⟩
    · rcases k4 with h | h
      · rw [h]; exact i5
      · rw [h]; exact (clampedDuration_range 1000 _ (by decide)).1
    · rcases k4 with h | h
      · rw [h]; exact i6
      · rw [h]; exact (clampedDuration_range 1000 _ (by decide)).2

/-- C29. A stay in HEATING is not bounded by `MAX_HEATER_ON_DURATION_MS`.  A
pass of `loop()` that starts in HEATING with a valid smoothed temperature `T`
below 76.0 and more than 0.1 below the setpoint ends in HEATING with the relay
as it was, whatever the time is; it either keeps the recorded duration or
re-arms the timer with `clamp(trunc((desired - T) * 2 * 1000), 1000, 70000)`,
which lies in `[1000, 70000]` (as does the duration computed on entering
HEATING, in `[2000, 70000]`).  Hence for every bound `B` in milliseconds there
is a number `n` of passes, one second apart, spanning more than `B` after
HEATING was entered in `longHeating` (setpoint 90, smoothed temperature held
at 69.8), such that after each of the first `n` passes the state is HEATING
with the relay on and the recorded duration in `[1000, 70000]`. -/
theorem heating_stay_unbounded :
    (∀ (inp : CycleInput) (s : State) (T : ℚ),
      s.ctl.currentHeaterState = HeaterState.HEATING → s.ctl.isRelayOn = true →
      smoothedTempC inp s = some T → T < 76 → s.ctl.desiredTemperatureC - T > 1 / 10 →
      (loop inp s).ctl.currentHeaterState = HeaterState.HEATING ∧
      (loop inp s).ctl.isRelayOn = true ∧
      ((loop inp s).ctl.lastCalculatedHeatDurationMs = s.ctl.lastCalculatedHeatDurationMs ∨
        (loop inp s).ctl.lastCalculatedHeatDurationMs =
          clampedDuration 1000 (s.ctl.desiredTemperatureC - T))) ∧
    (∀ diff : ℚ, 1000 ≤ clampedDuration 1000 diff ∧ clampedDuration 1000 diff ≤ 70000 ∧
      2000 ≤ clampedDuration 2000 diff ∧ clampedDuration 2000 diff ≤ 70000) ∧
    (∀ B : Nat, ∃ n : Nat, B < 1000 * n ∧ ∀ k, k ≤ n →
      (run (coldHeatingTrace k) longHeating).ctl.currentHeaterState = HeaterState.HEATING ∧
      (run (coldHeatingTrace k) longHeating).ctl.isRelayOn = true ∧
      (run (coldHeatingTrace k) longHeating).temp.smoothedTempC_EMA = some (698 / 10) ∧
      1000 ≤ (run (coldHeatingTrace k) longHeating).ctl.lastCalculatedHeatDurationMs ∧
      (run (coldHeatingTrace k) longHeating).ctl.lastCalculatedHeatDurationMs ≤ 70000) := by
  refine ⟨fun inp s T hheat hrel hT h76 hdiff => ?_, fun diff => ?_, fun B => ?_⟩
  · obtain ⟨k1, k2, -, k4⟩ := heating_stays inp s T hheat hT h76 hdiff
    exact ⟨k1, k2.trans hrel, k4⟩
  · exact ⟨(clampedDuration_range 1000 diff (by decide)).1,
      (clampedDuration_range 1000 diff (by decide)).2,
      (clampedDuration_range 2000 diff (by decide)).1,
      (clampedDuration_range 2000 diff (by decide)).2⟩
  · refine ⟨B + 1, by omega, fun k _ => ?_⟩
    obtain ⟨i1, i2, -, i4, i5, i6⟩ := coldHeating_inv k
    exact ⟨i1, i2, i4, i5, i6⟩

/-- In `longHeating` a pass at time 100000, long after the stop time 41400 and
after more than 70000 ms of heating, still ends in HEATING with the relay
on. -/
theorem heating_stay_unbounded_witness :
    (loop (sampleAt 100000 80) longHeating).ctl.currentHeaterState = HeaterState.HEATING ∧
    (loop (sampleAt 100000 80) longHeating).ctl.isRelayOn = true :=
  ⟨(heating_stay_unbounded.1 (sampleAt 100000 80) longHeating (698 / 10) (by decide!)
      (by decide!) (by decide!) (by norm_num) (by decide!)).1,
   (heating_stay_unbounded.1 (sampleAt 100000 80) longHeating (698 / 10) (by decide!)
      (by decide!) (by decide!) (by norm_num) (by decide!)).2.1⟩

/-! ## C27: timer checks and the wrap of the clock -/

/-- C27 does not hold of the code: the HEATING stop time and the cooldown end
are compared with `currentMillis` directly, not through an elapsed time.  In
`heatingAcrossWrap` the timer was armed for 10000 ms at clock value
2^32 - 5000, so the stop time is 5000; the pass 1000 ms later, at clock value
2^32 - 4000, finds `currentMillis ≥ heaterStopTimeMs` and ends the heating.
With the clock value and all stored timestamps shifted by 6000 the same pass
keeps heating, so the result of a pass is not invariant under a shift.  In
`heatingBeforeWrap` the timer was armed for 10000 ms at clock value
2^32 - 20000; the pass 25000 ms later, at clock value 5000 after the wrap,
finds `currentMillis < heaterStopTimeMs` and keeps the relay on. -/
theorem heating_timer_not_wrap_safe :
    (heatingAcrossWrap.ctl.currentHeaterState = HeaterState.HEATING ∧
     heatingAcrossWrap.ctl.lastCalculatedHeatDurationMs = 10000 ∧
     heatingAcrossWrap.ctl.heaterStopTimeMs = 5000 ∧
     usub (sampleAt 4294963296 99).currentMillis 4294962296 = 1000 ∧
     (loop (sampleAt 4294963296 99) heatingAcrossWrap).ctl.currentHeaterState
       = HeaterState.SETTLING ∧
     (loop (sampleAt 4294963296 99) heatingAcrossWrap).ctl.isRelayOn = false) ∧
    ((shiftInput 6000 (sampleAt 4294963296 99)).currentMillis = 2000 ∧
     (shiftTimestamps 6000 heatingAcrossWrap).ctl.heaterStopTimeMs = 11000 ∧
     (loop (shiftInput 6000 (sampleAt 4294963296 99))
        (shiftTimestamps 6000 heatingAcrossWrap)).ctl.currentHeaterState
       = HeaterState.HEATING ∧
     (loop (shiftInput 6000 (sampleAt 4294963296 99))
        (shiftTimestamps 6000 heatingAcrossWrap)).ctl ≠
       (shiftTimestamps 6000 (loop (sampleAt 4294963296 99) heatingAcrossWrap)).ctl) ∧
    (heatingBeforeWrap.ctl.currentHeaterState = HeaterState.HEATING ∧
     heatingBeforeWrap.ctl.lastCalculatedHeatDurationMs = 10000 ∧
     heatingBeforeWrap.ctl.heaterStopTimeMs = 4294957296 ∧
     usub (sampleAt 5000 99).currentMillis 4294947296 = 25000 ∧
     (loop (sampleAt 5000 99) heatingBeforeWrap).ctl.currentHeaterState
       = HeaterState.HEATING ∧
     (loop (sampleAt 5000 99) heatingBeforeWrap).ctl.isRelayOn = true) := by
  decide!

/-! ## C25: the failure counter -/

/-- C25 does not hold of the code: the counter passes
`MAX_CONSECUTIVE_HEATING_FAILURES`.  Along `failedHeatingTrace` (default
setpoint 90, no command, every reading 81.0 degrees) each round ends with a
settled temperature more than 5 degrees below the setpoint and counts a
failure.  After the fifth round the counter is 5, the value at which the code
announces that the machine will enter the presumed-off state; the machine is
not presumed off then nor after any other pass of the run, the next pass starts
to heat again, and after the sixth round the counter is 6. -/
theorem failure_counter_exceeds_max :
    Reachable (run failedHeatingTrace boot) ∧
    (run (failedHeatingTrace.take 15) boot).ctl.consecutiveFailedHeatingAttempts
      = MAX_CONSECUTIVE_HEATING_FAILURES ∧
    (run (failedHeatingTrace.take 15) boot).ctl.currentHeaterState = HeaterState.IDLE ∧
    (run (failedHeatingTrace.take 16) boot).ctl.currentHeaterState = HeaterState.HEATING ∧
    (∀ k, k ≤ 18 → (run (failedHeatingTrace.take k) boot).ctl.machineIsPresumedOff = false) ∧
    (run failedHeatingTrace boot).ctl.currentHeaterState = HeaterState.IDLE ∧
    (run failedHeatingTrace boot).ctl.desiredTemperatureC = 90 ∧
    (run failedHeatingTrace boot).ctl.consecutiveFailedHeatingAttempts = 6 ∧
    ¬ (run failedHeatingTrace boot).ctl.consecutiveFailedHeatingAttempts
        ≤ MAX_CONSECUTIVE_HEATING_FAILURES :=
  ⟨⟨failedHeatingTrace, rfl⟩, by decide!⟩

/-! ## C22: the stability-gated peak update -/

theorem foldl_min_spec (l : List ℚ) (a : ℚ) :
    l.foldl (fun m x => if x < m then x else m) a ∈ a :: l ∧
    ∀ x ∈ a :: l, l.foldl (fun m x => if x < m then x else m) a ≤ x := by
  induction l generalizing a with
  | nil => exact ⟨List.mem_singleton.mpr rfl, fun x hx => (List.mem_singleton.mp hx).ge⟩
  | cons b l ih =>
    obtain ⟨h1, h2⟩ := ih (if b < a then b else a)
    rw [List.foldl_cons]
    constructor
    · rcases List.mem_cons.mp h1 with h | h
      · rw [h]
        split_ifs
        · exact List.mem_cons_of_mem _ (List.mem_cons_self _ _)
        · exact List.mem_cons_self _ _
      · exact List.mem_cons_of_mem _ (List.mem_cons_of_mem _ h)
    · intro x hx
      have h3 := h2 _ (List.mem_cons_self _ _)
      rcases List.mem_cons.mp hx with h | h
      · rw [h]
        refine h3.trans ?_
        split_ifs with h4
        · exact h4.le
        · exact le_refl _
      · rcases List.mem_cons.mp h with h | h
        · rw [h]
          refine h3.trans ?_
          split_ifs with h4
          · exact le_refl _
          · exact not_lt.mp h4
        · exact h2 x (List.mem_cons_of_mem _ h)

theorem foldl_max_spec (l : List ℚ) (a : ℚ) :
    l.foldl (fun m x => if x > m then x else m) a ∈ a :: l ∧
    ∀ x ∈ a :: l, x ≤ l.foldl (fun m x => if x > m then x else m) a := by
  induction l generalizing a with
  | nil => exact ⟨List.mem_singleton.mpr rfl, fun x hx => (List.mem_singleton.mp hx).le⟩
  | cons b l ih =>
    obtain ⟨h1, h2⟩ := ih (if b > a then b else a)
    rw [List.foldl_cons]
    constructor
    · rcases List.mem_cons.mp h1 with h | h
      · rw [h]
        split_ifs
        · exact List.mem_cons_of_mem _ (List.mem_cons_self _ _)
        · exact List.mem_cons_self _ _
      · exact List.mem_cons_of_mem _ (List.mem_cons_of_mem _ h)
    · intro x hx
      have h3 := h2 _ (List.mem_cons_self _ _)
      rcases List.mem_cons.mp hx with h | h
      · rw [h]
        refine le_trans ?_ h3
        split_ifs with h4
        · exact (gt_iff_lt.mp h4).le
        · exact le_refl _
      · rcases List.mem_cons.mp h with h | h
        · rw [h]
          refine le_trans ?_ h3
          split_ifs with h4
          · exact le_refl _
          · exact not_lt.mp h4
        · exact h2 x (List.mem_cons_of_mem _ h)

theorem head_cons_tail (w : List ℚ) (h : w ≠ []) : w.getD 0 0 :: w.drop 1 = w := by
  cases w with
  | nil => exact absurd rfl h
  | cons a l => rfl

theorem foldl_add_eq_sum (l : List ℚ) (a : ℚ) : l.foldl (fun a x => a + x) a = a + l.sum := by
  induction l generalizing a with
  | nil => simp
  | cons b l ih =>
    rw [List.foldl_cons, ih, List.sum_cons, add_assoc]

theorem loop_maxPressure_window (cur : ℚ) (p : MaxTracker) :
    (loop_maxPressure cur p).pressureMaxStabilityBuffer =
      p.pressureMaxStabilityBuffer.set p.pressureMaxStabilityIndex cur ∧
    (loop_maxPressure cur p).pressureMaxStabilityIndex =
      (p.pressureMaxStabilityIndex + 1) % PRESSURE_STABILITY_SAMPLES_FOR_MAX ∧
    (loop_maxPressure cur p).pressureMaxStabilityCount =
      (if p.pressureMaxStabilityCount < PRESSURE_STABILITY_SAMPLES_FOR_MAX then
        p.pressureMaxStabilityCount + 1 else p.pressureMaxStabilityCount) ∧
    (loop_maxPressure cur p).web_isTempPlotPaused = p.web_isTempPlotPaused ∧
    (loop_maxPressure cur p).web_isPressurePlotPaused = p.web_isPressurePlotPaused ∧
    (loop_maxPressure cur p).lastPressureForPauseCheck_server =
      p.lastPressureForPauseCheck_server := by
  simp only [loop_maxPressure]
  split_ifs <;> exact ⟨rfl, rfl, rfl, rfl, rfl, rfl⟩

theorem loop_maxPressure_peak (cur : ℚ) (p : MaxTracker) :
    (loop_maxPressure cur p).maxObservedPressure =
      (if (loop_maxPressure cur p).pressureMaxStabilityCount = PRESSURE_STABILITY_SAMPLES_FOR_MAX ∧
          ((loop_maxPressure cur p).pressureMaxStabilityBuffer.drop 1).foldl
              (fun m x => if x > m then x else m)
              ((loop_maxPressure cur p).pressureMaxStabilityBuffer.getD 0 0) -
            ((loop_maxPressure cur p).pressureMaxStabilityBuffer.drop 1).foldl
              (fun m x => if x < m then x else m)
              ((loop_maxPressure cur p).pressureMaxStabilityBuffer.getD 0 0) ≤
            PRESSURE_STABILITY_THRESHOLD_FOR_MAX then
        max p.maxObservedPressure
          ((loop_maxPressure cur p).pressureMaxStabilityBuffer.sum /
            PRESSURE_STABILITY_SAMPLES_FOR_MAX)
      else p.maxObservedPressure) := by
  obtain ⟨e1, -, e3, -⟩ := loop_maxPressure_window cur p
  rw [e1, e3]
  simp only [loop_maxPressure, foldl_add_eq_sum, zero_add]
  split_ifs <;> dsimp only at * <;>
    first
    | rfl
    | exact (max_eq_right (le_of_lt (by assumption))).symm
    | exact (max_eq_left (not_lt.mp (by assumption))).symm
    | (exfalso; tauto)

/-- C22. Stability-gated peak update: in the max-tracker step the reading is
stored in the slot the index designates of the 5-slot window and the count of
readings since the last clear goes up to at most 5; with `lo` and `hi` the
least and the greatest value in the window after that, the new peak is
`max(old peak, mean of the window)` if 5 readings have been collected and
`hi - lo ≤ 0.2`, and the old peak otherwise.  So the peak is unchanged when
the spread exceeds 0.2 bar, and when fewer than 5 readings have been
collected. -/
theorem peak_update_stability_gated (cur : ℚ) (p : MaxTracker)
    (hlen : p.pressureMaxStabilityBuffer.length = 5) :
    (loop_maxPressure cur p).pressureMaxStabilityBuffer =
      p.pressureMaxStabilityBuffer.set p.pressureMaxStabilityIndex cur ∧
    (loop_maxPressure cur p).pressureMaxStabilityCount =
      (if p.pressureMaxStabilityCount < 5 then p.pressureMaxStabilityCount + 1
       else p.pressureMaxStabilityCount) ∧
    (∃ lo hi : ℚ,
      lo ∈ (loop_maxPressure cur p).pressureMaxStabilityBuffer ∧
      hi ∈ (loop_maxPressure cur p).pressureMaxStabilityBuffer ∧
      (∀ x ∈ (loop_maxPressure cur p).pressureMaxStabilityBuffer, lo ≤ x ∧ x ≤ hi) ∧
      (loop_maxPressure cur p).maxObservedPressure =
        (if (loop_maxPressure cur p).pressureMaxStabilityCount = 5 ∧ hi - lo ≤ 2 / 10 then
          max p.maxObservedPressure
            ((loop_maxPressure cur p).pressureMaxStabilityBuffer.sum / 5)
         else p.maxObservedPressure) ∧
      (hi - lo > 2 / 10 →
        (loop_maxPressure cur p).maxObservedPressure = p.maxObservedPressure) ∧
      ((loop_maxPressure cur p).pressureMaxStabilityCount < 5 →
        (loop_maxPressure cur p).maxObservedPressure = p.maxObservedPressure)) := by
  obtain ⟨e1, -, e3, -⟩ := loop_maxPressure_window cur p
  have hne : (loop_maxPressure cur p).pressureMaxStabilityBuffer ≠ [] := by
    intro h
    have h2 := congrArg List.length h
    rw [e1, List.length_set, hlen] at h2
    exact absurd h2 (by decide)
  have hw := head_cons_tail _ hne
  obtain ⟨m1, m2⟩ := foldl_min_spec ((loop_maxPressure cur p).pressureMaxStabilityBuffer.drop 1)
    ((loop_maxPressure cur p).pressureMaxStabilityBuffer.getD 0 0)
  obtain ⟨n1, n2⟩ := foldl_max_spec ((loop_maxPressure cur p).pressureMaxStabilityBuffer.drop 1)
    ((loop_maxPressure cur p).pressureMaxStabilityBuffer.getD 0 0)
  rw [hw] at m1 m2 n1 n2
  have hpeak := loop_maxPressure_peak cur p
  simp only [PRESSURE_STABILITY_SAMPLES_FOR_MAX, PRESSURE_STABILITY_THRESHOLD_FOR_MAX,
    Nat.cast_ofNat] at hpeak
  refine ⟨e1, e3, _, _, m1, n1, fun x hx => ⟨m2 x hx, n2 x hx⟩, hpeak, fun h => ?_, fun h => ?_⟩
  · rw [hpeak, if_neg (fun h2 => absurd h2.2 (not_le.mpr h))]
  · rw [hpeak, if_neg (fun h2 => absurd h2.1 (Nat.ne_of_lt h))]

/-- With four readings collected and a peak of 3 bar, the reading 8.0 fills
the window 8.0, 8.1, 8.0, 8.1, 8.0, which is stable: the peak becomes the mean
8.04. -/
theorem peak_update_stability_gated_witness :
    trackerFourReadings.pressureMaxStabilityBuffer.length = 5 ∧
    (loop_maxPressure 8 trackerFourReadings).pressureMaxStabilityBuffer =
      [8, 81 / 10, 8, 81 / 10, 8] ∧
    (loop_maxPressure 8 trackerFourReadings).pressureMaxStabilityCount = 5 ∧
    (loop_maxPressure 8 trackerFourReadings).maxObservedPressure = 804 / 100 :=
  ⟨by decide, (peak_update_stability_gated 8 trackerFourReadings (by decide)).1,
   (peak_update_stability_gated 8 trackerFourReadings (by decide)).2.1, by decide!⟩

/-! ## C23: the peak-pressure reset -/

theorem loop_peak (inp : CycleInput) (s : State) :
    (loop inp s).peak =
      loop_maxPressure (currentPressureBar inp s)
        (loop_pressurePlotPause (currentPressureBar inp s)
          (loop_tempPlotPause (smoothedTempC inp s) s.peak)) := rfl

theorem loop_tempPlotPause_frame (t : Option ℚ) (p : MaxTracker) :
    (loop_tempPlotPause t p).pressureMaxStabilityBuffer = p.pressureMaxStabilityBuffer ∧
    (loop_tempPlotPause t p).pressureMaxStabilityIndex = p.pressureMaxStabilityIndex ∧
    (loop_tempPlotPause t p).pressureMaxStabilityCount = p.pressureMaxStabilityCount ∧
    (loop_tempPlotPause t p).web_isPressurePlotPaused = p.web_isPressurePlotPaused ∧
    ((loop_tempPlotPause t p).maxObservedPressure = p.maxObservedPressure ∨
      (loop_tempPlotPause t p).maxObservedPressure = 0) := by
  cases t with
  | none => exact ⟨rfl, rfl, rfl, rfl, Or.inl rfl⟩
  | some T =>
    simp only [loop_tempPlotPause]
    split_ifs
    · exact ⟨rfl, rfl, rfl, rfl, Or.inl rfl⟩
    · exact ⟨rfl, rfl, rfl, rfl, Or.inl rfl⟩
    · exact ⟨rfl, rfl, rfl, rfl, Or.inr rfl⟩
    · exact ⟨rfl, rfl, rfl, rfl, Or.inl rfl⟩

theorem loop_pressurePlotPause_frame (cur : ℚ) (p : MaxTracker) :
    (loop_pressurePlotPause cur p).pressureMaxStabilityBuffer = p.pressureMaxStabilityBuffer ∧
    (loop_pressurePlotPause cur p).pressureMaxStabilityIndex = p.pressureMaxStabilityIndex ∧
    (loop_pressurePlotPause cur p).pressureMaxStabilityCount = p.pressureMaxStabilityCount ∧
    (loop_pressurePlotPause cur p).web_isTempPlotPaused = p.web_isTempPlotPaused ∧
    ((loop_pressurePlotPause cur p).maxObservedPressure = p.maxObservedPressure ∨
      (loop_pressurePlotPause cur p).maxObservedPressure = 0) := by
  simp only [loop_pressurePlotPause]
  split_ifs
  · exact ⟨rfl, rfl, rfl, rfl, Or.inl rfl⟩
  · exact ⟨rfl, rfl, rfl, rfl, Or.inl rfl⟩
  · exact ⟨rfl, rfl, rfl, rfl, Or.inr rfl⟩
  · exact ⟨rfl, rfl, rfl, rfl, Or.inl rfl⟩
  · exact ⟨rfl, rfl, rfl, rfl, Or.inl rfl⟩

theorem loop_window (inp : CycleInput) (s : State) :
    (loop inp s).peak.pressureMaxStabilityBuffer =
      s.peak.pressureMaxStabilityBuffer.set s.peak.pressureMaxStabilityIndex
        (currentPressureBar inp s) ∧
    (loop inp s).peak.pressureMaxStabilityIndex =
      (s.peak.pressureMaxStabilityIndex + 1) % PRESSURE_STABILITY_SAMPLES_FOR_MAX ∧
    (loop inp s).peak.pressureMaxStabilityCount =
      (if s.peak.pressureMaxStabilityCount < PRESSURE_STABILITY_SAMPLES_FOR_MAX then
        s.peak.pressureMaxStabilityCount + 1 else s.peak.pressureMaxStabilityCount) := by
  obtain ⟨a1, a2, a3, -⟩ := loop_tempPlotPause_frame (smoothedTempC inp s) s.peak
  obtain ⟨b1, b2, b3, -⟩ := loop_pressurePlotPause_frame (currentPressureBar inp s)
    (loop_tempPlotPause (smoothedTempC inp s) s.peak)
  obtain ⟨c1, c2, c3, -⟩ := loop_maxPressure_window (currentPressureBar inp s)
    (loop_pressurePlotPause (currentPressureBar inp s)
      (loop_tempPlotPause (smoothedTempC inp s) s.peak))
  rw [loop_peak, c1, c2, c3, b1, b2, b3, a1, a2, a3]
  exact ⟨rfl, rfl, rfl⟩

theorem loop_peak_filling (inp : CycleInput) (s : State)
    (h0 : s.peak.maxObservedPressure = 0) (hc : s.peak.pressureMaxStabilityCount < 4) :
    (loop inp s).peak.maxObservedPressure = 0 := by
  obtain ⟨-, -, a3, -, a5⟩ := loop_tempPlotPause_frame (smoothedTempC inp s) s.peak
  obtain ⟨-, -, b3, -, b5⟩ := loop_pressurePlotPause_frame (currentPressureBar inp s)
    (loop_tempPlotPause (smoothedTempC inp s) s.peak)
  have hz : (loop_pressurePlotPause (currentPressureBar inp s)
      (loop_tempPlotPause (smoothedTempC inp s) s.peak)).maxObservedPressure = 0 := by
    rcases b5 with h | h
    · rw [h]
      rcases a5 with h2 | h2
      · rw [h2, h0]
      · exact h2
    · exact h
  have hcount : (loop inp s).peak.pressureMaxStabilityCount ≠
      PRESSURE_STABILITY_SAMPLES_FOR_MAX := by
    rw [(loop_window inp s).2.2]
    simp only [PRESSURE_STABILITY_SAMPLES_FOR_MAX]
    split_ifs <;> omega
  rw [loop_peak] at hcount ⊢
  rw [loop_maxPressure_peak, if_neg (fun h => hcount h.1), hz]

theorem set_five (l : List ℚ) (h : l.length = 5) (a b c d e : ℚ) :
    ((((l.set 0 a).set 1 b).set 2 c).set 3 d).set 4 e = [a, b, c, d, e] := by
  rcases l with _ | ⟨x0, l⟩
  · simp at h
  rcases l with _ | ⟨x1, l⟩
  · simp at h
  rcases l with _ | ⟨x2, l⟩
  · simp at h
  rcases l with _ | ⟨x3, l⟩
  · simp at h
  rcases l with _ | ⟨x4, l⟩
  · simp at h
  rcases l with _ | ⟨x5, l⟩
  · rfl
  · simp at h

/-- C23. Peak-pressure reset, effect and frame: `handleResetMaxPressure` sets
`maxObservedPressure`, the count and the index of the stability window to 0
and leaves the heater state machine with its output, timers, setpoint,
failure counter and presence state, the temperature filter and the pressure
filter unchanged.  In the five passes of `loop()` after the reset the peak
stays 0 during the first four, and after the fifth the window holds exactly
the five pressures of these passes, first to last, so that the peak is then 0
or their mean. -/
theorem reset_max_pressure (s : State) (i1 i2 i3 i4 i5 : CycleInput)
    (hlen : s.peak.pressureMaxStabilityBuffer.length = 5) :
    (handleResetMaxPressure s).peak.maxObservedPressure = 0 ∧
    (handleResetMaxPressure s).peak.pressureMaxStabilityCount = 0 ∧
    (handleResetMaxPressure s).peak.pressureMaxStabilityIndex = 0 ∧
    (handleResetMaxPressure s).ctl = s.ctl ∧
    (handleResetMaxPressure s).temp = s.temp ∧
    (handleResetMaxPressure s).press = s.press ∧
    (loop i1 (handleResetMaxPressure s)).peak.maxObservedPressure = 0 ∧
    (loop i2 (loop i1 (handleResetMaxPressure s))).peak.maxObservedPressure = 0 ∧
    (loop i3 (loop i2 (loop i1 (handleResetMaxPressure s)))).peak.maxObservedPressure = 0 ∧
    (loop i4 (loop i3 (loop i2 (loop i1
      (handleResetMaxPressure s))))).peak.maxObservedPressure = 0 ∧
    (loop i5 (loop i4 (loop i3 (loop i2 (loop i1
      (handleResetMaxPressure s)))))).peak.pressureMaxStabilityBuffer =
      [currentPressureBar i1 (handleResetMaxPressure s),
       currentPressureBar i2 (loop i1 (handleResetMaxPressure s)),
       currentPressureBar i3 (loop i2 (loop i1 (handleResetMaxPressure s))),
       currentPressureBar i4 (loop i3 (loop i2 (loop i1 (handleResetMaxPressure s)))),
       currentPressureBar i5
         (loop i4 (loop i3 (loop i2 (loop i1 (handleResetMaxPressure s)))))] ∧
    ((loop i5 (loop i4 (loop i3 (loop i2 (loop i1
        (handleResetMaxPressure s)))))).peak.maxObservedPressure = 0 ∨
      (loop i5 (loop i4 (loop i3 (loop i2 (loop i1
        (handleResetMaxPressure s)))))).peak.maxObservedPressure =
        (currentPressureBar i1 (handleResetMaxPressure s) +
         currentPressureBar i2 (loop i1 (handleResetMaxPressure s)) +
         currentPressureBar i3 (loop i2 (loop i1 (handleResetMaxPressure s))) +
         currentPressureBar i4 (loop i3 (loop i2 (loop i1 (handleResetMaxPressure s)))) +
         currentPressureBar i5
           (loop i4 (loop i3 (loop i2 (loop i1 (handleResetMaxPressure s)))))) / 5) := by
  obtain ⟨w1, x1, c1⟩ := loop_window i1 (handleResetMaxPressure s)
  obtain ⟨w2, x2, c2⟩ := loop_window i2 (loop i1 (handleResetMaxPressure s))
  obtain ⟨w3, x3, c3⟩ := loop_window i3 (loop i2 (loop i1 (handleResetMaxPressure s)))
  obtain ⟨w4, x4, c4⟩ := loop_window i4 (loop i3 (loop i2 (loop i1 (handleResetMaxPressure s))))
  obtain ⟨w5, -, -⟩ :=
    loop_window i5 (loop i4 (loop i3 (loop i2 (loop i1 (handleResetMaxPressure s)))))
  have hc0 : (handleResetMaxPressure s).peak.pressureMaxStabilityCount = 0 := rfl
  have hx0 : (handleResetMaxPressure s).peak.pressureMaxStabilityIndex = 0 := rfl
  have hb0 : (handleResetMaxPressure s).peak.pressureMaxStabilityBuffer =
      s.peak.pressureMaxStabilityBuffer := rfl
  rw [hc0] at c1
  rw [hx0] at x1 w1
  have c1n : (loop i1 (handleResetMaxPressure s)).peak.pressureMaxStabilityCount = 1 := c1
  have x1n : (loop i1 (handleResetMaxPressure s)).peak.pressureMaxStabilityIndex = 1 := x1
  rw [c1n] at c2
  rw [x1n] at x2 w2
  have c2n : (loop i2 (loop i1 (handleResetMaxPressure s))).peak.pressureMaxStabilityCount = 2 :=
    c2
  have x2n : (loop i2 (loop i1 (handleResetMaxPressure s))).peak.pressureMaxStabilityIndex = 2 :=
    x2
  rw [c2n] at c3
  rw [x2n] at x3 w3
  have c3n : (loop i3 (loop i2 (loop i1
      (handleResetMaxPressure s)))).peak.pressureMaxStabilityCount = 3 := c3
  have x3n : (loop i3 (loop i2 (loop i1
      (handleResetMaxPressure s)))).peak.pressureMaxStabilityIndex = 3 := x3
  rw [x3n] at x4 w4
  have x4n : (loop i4 (loop i3 (loop i2 (loop i1
      (handleResetMaxPressure s))))).peak.pressureMaxStabilityIndex = 4 := x4
  rw [x4n] at w5
  have p1 := loop_peak_filling i1 (handleResetMaxPressure s) rfl (by rw [hc0]; decide)
  have p2 := loop_peak_filling i2 _ p1 (by rw [c1n]; decide)
  have p3 := loop_peak_filling i3 _ p2 (by rw [c2n]; decide)
  have p4 := loop_peak_filling i4 _ p3 (by rw [c3n]; decide)
  have hwin := w5
  rw [w4, w3, w2, w1, hb0, set_five _ hlen] at hwin
  refine ⟨rfl, rfl, rfl, rfl, rfl, rfl, p1, p2, p3, p4, hwin, ?_⟩
  obtain ⟨-, -, -, -, a5⟩ := loop_tempPlotPause_frame
    (smoothedTempC i5 (loop i4 (loop i3 (loop i2 (loop i1 (handleResetMaxPressure s))))))
    (loop i4 (loop i3 (loop i2 (loop i1 (handleResetMaxPressure s))))).peak
  obtain ⟨-, -, -, -, b5⟩ := loop_pressurePlotPause_frame
    (currentPressureBar i5 (loop i4 (loop i3 (loop i2 (loop i1 (handleResetMaxPressure s))))))
    (loop_tempPlotPause
      (smoothedTempC i5 (loop i4 (loop i3 (loop i2 (loop i1 (handleResetMaxPressure s))))))
      (loop i4 (loop i3 (loop i2 (loop i1 (handleResetMaxPressure s))))).peak)
  have hz : (loop_pressurePlotPause
      (currentPressureBar i5 (loop i4 (loop i3 (loop i2 (loop i1 (handleResetMaxPressure s))))))
      (loop_tempPlotPause
        (smoothedTempC i5 (loop i4 (loop i3 (loop i2 (loop i1 (handleResetMaxPressure s))))))
        (loop i4 (loop i3 (loop i2 (loop i1
          (handleResetMaxPressure s))))).peak)).maxObservedPressure = 0 := by
    rcases b5 with h | h
    · rw [h]
      rcases a5 with h2 | h2
      · rw [h2, p4]
      · exact h2
    · exact h
  have hpk := loop_maxPressure_peak
    (currentPressureBar i5 (loop i4 (loop i3 (loop i2 (loop i1 (handleResetMaxPressure s))))))
    (loop_pressurePlotPause
      (currentPressureBar i5 (loop i4 (loop i3 (loop i2 (loop i1 (handleResetMaxPressure s))))))
      (loop_tempPlotPause
        (smoothedTempC i5 (loop i4 (loop i3 (loop i2 (loop i1 (handleResetMaxPressure s))))))
        (loop i4 (loop i3 (loop i2 (loop i1 (handleResetMaxPressure s))))).peak))
  rw [← loop_peak, hz, hwin] at hpk
  rw [hpk]
  split_ifs
  · rcases max_cases (0 : ℚ) ([currentPressureBar i1 (handleResetMaxPressure s),
       currentPressureBar i2 (loop i1 (handleResetMaxPressure s)),
       currentPressureBar i3 (loop i2 (loop i1 (handleResetMaxPressure s))),
       currentPressureBar i4 (loop i3 (loop i2 (loop i1 (handleResetMaxPressure s)))),
       currentPressureBar i5
         (loop i4 (loop i3 (loop i2 (loop i1 (handleResetMaxPressure s)))))].sum /
         PRESSURE_STABILITY_SAMPLES_FOR_MAX) with h | h
    · exact Or.inl h.1
    · right
      rw [h.1]
      simp only [List.sum_cons, List.sum_nil, add_zero, PRESSURE_STABILITY_SAMPLES_FOR_MAX,
        Nat.cast_ofNat, add_assoc]
  · exact Or.inl rfl

/-- After five passes at a steady 3000 on the pressure pin the peak is about
8.31 bar; the reset clears it, it stays 0 for four passes at 3000, and the
fifth pass sets it from a window that holds five times the pressure
read at 3000. -/
theorem reset_max_pressure_witness :
    (run steadyPressureTrace boot).peak.pressureMaxStabilityBuffer.length = 5 ∧
    (handleResetMaxPressure (run steadyPressureTrace boot)).peak.maxObservedPressure = 0 ∧
    (loop (pressureAt 9000 99 3000) (loop (pressureAt 8000 99 3000)
      (loop (pressureAt 7000 99 3000) (loop (pressureAt 6000 99 3000)
        (handleResetMaxPressure
          (run steadyPressureTrace boot)))))).peak.maxObservedPressure = 0 :=
  ⟨by decide!,
   (reset_max_pressure (run steadyPressureTrace boot) (pressureAt 6000 99 3000)
      (pressureAt 7000 99 3000) (pressureAt 8000 99 3000) (pressureAt 9000 99 3000)
      (pressureAt 10000 99 3000) (by decide!)).1,
   (reset_max_pressure (run steadyPressureTrace boot) (pressureAt 6000 99 3000)
      (pressureAt 7000 99 3000) (pressureAt 8000 99 3000) (pressureAt 9000 99 3000)
      (pressureAt 10000 99 3000) (by decide!)).2.2.2.2.2.2.2.2.2.1⟩

/-! ## C21: the peak between resets -/

theorem sum_take_succ_getD (r : List Nat) (k : Nat) :
    (r.take (k + 1)).sum = (r.take k).sum + r.getD k 0 := by
  induction r generalizing k with
  | nil => simp
  | cons a r ih =>
    cases k with
    | zero => simp
    | succ k =>
      rw [List.take_succ_cons, List.take_succ_cons, List.sum_cons, List.sum_cons, ih k,
        List.getD_cons_succ, add_assoc]

theorem lastValues_sum (ds : List Nat) :
    (lastValues 5 ds).sum = (ds.reverse.take 5).sum ∧
    (lastValues 5 ds).length = min ds.length 5 := by
  constructor
  · rw [List.take_reverse, List.sum_reverse]
    unfold lastValues
    congr 2
    omega
  · unfold lastValues
    rw [List.length_drop]
    omega

theorem pressureInv_boot : PressureInv [] boot.press :=
  ⟨rfl, rfl, rfl, by simp [boot], fun m hm => absurd hm (by simp)⟩

theorem pressureInv_step (ds : List Nat) (f : PressureFilter) (d : Nat)
    (h : PressureInv ds f) :
    PressureInv (ds ++ [d]) (loop_pressureSmoothing d f).1 ∧
    (loop_pressureSmoothing d f).2 =
      ((((ds ++ [d]).reverse.take 5).sum : Nat) : ℚ) / ((min (ds ++ [d]).length 5 : Nat) : ℚ) := by
  obtain ⟨h1, h2, h3, h4, h5⟩ := h
  have hrev : (ds ++ [d]).reverse = d :: ds.reverse := by simp
  have hlen : (ds ++ [d]).length = ds.length + 1 := by simp
  have hidx : ds.length % 5 < f.pressureAdcSmoothingBuffer.length := by
    rw [h1]
    exact Nat.mod_lt _ (by decide)
  have hstored : (loop_pressureSmoothing d f).1.numPressureAdcValuesStored =
      min (ds.length + 1) 5 := by
    show (if f.numPressureAdcValuesStored < PRESSURE_SMOOTHING_SAMPLES then
      f.numPressureAdcValuesStored + 1 else f.numPressureAdcValuesStored) = _
    rw [h3]
    simp only [PRESSURE_SMOOTHING_SAMPLES]
    split_ifs <;> omega
  have htotal : (loop_pressureSmoothing d f).1.totalPressureAdcSmoothingSum =
      ((((d :: ds.reverse).take 5).sum : Nat) : ℚ) := by
    show (if f.numPressureAdcValuesStored = PRESSURE_SMOOTHING_SAMPLES then
      f.totalPressureAdcSmoothingSum -
        f.pressureAdcSmoothingBuffer.getD f.currentPressureAdcSmoothingIndex 0
      else f.totalPressureAdcSmoothingSum) + (d : ℚ) = _
    rw [h3, h4, h2, List.take_succ_cons, List.sum_cons]
    simp only [PRESSURE_SMOOTHING_SAMPLES]
    have hsum := sum_take_succ_getD ds.reverse 4
    by_cases hn : 5 ≤ ds.length
    · have h6 := h5 4 (by omega)
      have h7 : (ds.length - 1 - 4) % 5 = ds.length % 5 := by omega
      rw [h7] at h6
      rw [if_pos (by omega), h6, hsum]
      push_cast
      ring
    · have h8 : ds.reverse.take 5 = ds.reverse.take 4 := by
        rw [List.take_of_length_le (by rw [List.length_reverse]; omega),
          List.take_of_length_le (by rw [List.length_reverse]; omega)]
      rw [if_neg (by omega), h8]
      push_cast
      ring
  refine ⟨⟨?_, ?_, ?_, ?_, ?_⟩, ?_⟩
  · show (f.pressureAdcSmoothingBuffer.set _ _).length = 5
    rw [List.length_set, h1]
  · show (f.currentPressureAdcSmoothingIndex + 1) % PRESSURE_SMOOTHING_SAMPLES = _
    rw [h2, hlen]
    simp only [PRESSURE_SMOOTHING_SAMPLES]
    omega
  · rw [hstored, hlen]
  · rw [htotal, hrev]
  · intro m hm
    rw [hlen] at hm ⊢
    rw [hrev]
    show (f.pressureAdcSmoothingBuffer.set f.currentPressureAdcSmoothingIndex (d : ℚ)).getD _ 0 = _
    rw [h2, List.getD_eq_getElem?_getD]
    cases m with
    | zero =>
      have h9 : (ds.length + 1 - 1 - 0) % 5 = ds.length % 5 := by simp
      rw [h9, List.getElem?_set_self hidx]
      rfl
    | succ k =>
      have h9 : ds.length % 5 ≠ (ds.length + 1 - 1 - (k + 1)) % 5 := by omega
      have h10 : (ds.length + 1 - 1 - (k + 1)) % 5 = (ds.length - 1 - k) % 5 := by
        congr 1
        omega
      rw [List.getElem?_set_ne h9, h10, List.getD_cons_succ, ← List.getD_eq_getElem?_getD]
      exact h5 k (by omega)
  · show (loop_pressureSmoothing d f).1.totalPressureAdcSmoothingSum /
      ((loop_pressureSmoothing d f).1.numPressureAdcValuesStored : ℚ) = _
    rw [htotal, hstored, hrev, hlen]

theorem handleSetTemp_press (arg : Option ℚ) (s : State) :
    (handleSetTemp arg s).1.press = s.press := by
  cases arg with
  | none => rfl
  | some t =>
    simp only [handleSetTemp]
    split_ifs <;> rfl

theorem handleData_press (s : State) : (handleData s).press = s.press := by
  simp only [handleData]
  split_ifs <;> rfl

theorem pressureInv_run (es : List Event) (s : State) (ds : List Nat)
    (h : PressureInv ds s.press) : PressureInv (ds ++ pressureUpdates es) (run es s).press := by
  induction es generalizing s ds with
  | nil =>
    rw [pressureUpdates, List.append_nil]
    exact h
  | cons e es ih =>
    cases e with
    | cycle inp =>
      have h2 := ih (loop inp s) (ds ++ [getStableAdcValue inp.analogRead])
        (pressureInv_step ds s.press _ h).1
      rw [List.append_assoc] at h2
      exact h2
    | setTemp arg =>
      exact ih (handleSetTemp arg s).1 ds (by rw [handleSetTemp_press]; exact h)
    | resetMaxPressure => exact ih (handleResetMaxPressure s) ds h
    | data => exact ih (handleData s) ds (by rw [handleData_press]; exact h)

theorem pressureUpdates_append (es fs : List Event) :
    pressureUpdates (es ++ fs) = pressureUpdates es ++ pressureUpdates fs := by
  induction es with
  | nil => rfl
  | cons e es ih =>
    cases e with
    | cycle inp => exact congrArg (List.cons _) ih
    | setTemp arg => exact ih
    | resetMaxPressure => exact ih
    | data => exact ih

/-- C26. Moving-average running-sum invariant: in a run from the boot state
that ends with a pass of `loop()`, with `ds` the despiked values of the `n`
pressure updates of the run (`n ≥ 1`), after the last update
`totalPressureAdcSmoothingSum` is the sum of the last `min(n, 5)` values of
`ds`, `numPressureAdcValuesStored` is `min(n, 5)` and is not 0, and the local
`smoothedAdcValue` of the pass is the arithmetic mean of these values. -/
theorem moving_average_running_sum (es : List Event) (inp : CycleInput) :
    1 ≤ (pressureUpdates (es ++ [Event.cycle inp])).length ∧
    (run (es ++ [Event.cycle inp]) boot).press =
      (loop_pressureSmoothing (getStableAdcValue inp.analogRead) (run es boot).press).1 ∧
    (run (es ++ [Event.cycle inp]) boot).press.totalPressureAdcSmoothingSum =
      (((lastValues 5 (pressureUpdates (es ++ [Event.cycle inp]))).sum : Nat) : ℚ) ∧
    (run (es ++ [Event.cycle inp]) boot).press.numPressureAdcValuesStored =
      min (pressureUpdates (es ++ [Event.cycle inp])).length 5 ∧
    (run (es ++ [Event.cycle inp]) boot).press.numPressureAdcValuesStored ≠ 0 ∧
    (lastValues 5 (pressureUpdates (es ++ [Event.cycle inp]))).length =
      min (pressureUpdates (es ++ [Event.cycle inp])).length 5 ∧
    (loop_pressureSmoothing (getStableAdcValue inp.analogRead) (run es boot).press).2 =
      (((lastValues 5 (pressureUpdates (es ++ [Event.cycle inp]))).sum : Nat) : ℚ) /
        ((min (pressureUpdates (es ++ [Event.cycle inp])).length 5 : Nat) : ℚ) := by
  have hinv := pressureInv_run es boot [] pressureInv_boot
  rw [List.nil_append] at hinv
  obtain ⟨⟨-, -, s3, s4, -⟩, s6⟩ :=
    pressureInv_step (pressureUpdates es) (run es boot).press
      (getStableAdcValue inp.analogRead) hinv
  have hup : pressureUpdates (es ++ [Event.cycle inp]) =
      pressureUpdates es ++ [getStableAdcValue inp.analogRead] := by
    rw [pressureUpdates_append]
    rfl
  have hrun : (run (es ++ [Event.cycle inp]) boot).press =
      (loop_pressureSmoothing (getStableAdcValue inp.analogRead) (run es boot).press).1 := by
    rw [run_append]
    rfl
  obtain ⟨l1, l2⟩ := lastValues_sum (pressureUpdates (es ++ [Event.cycle inp]))
  have hpos : 1 ≤ (pressureUpdates (es ++ [Event.cycle inp])).length := by
    rw [hup, List.length_append]
    exact Nat.le_add_left _ _
  rw [hrun, l1, hup]
  rw [hup] at hpos l2
  refine ⟨hpos, rfl, s4, s3, ?_, l2, s6⟩
  rw [s3]
  omega

/-! ## C30: the range of the reported pressure -/

theorem sum_le_of_forall_le (l : List Nat) (b : Nat) (h : ∀ x ∈ l, x ≤ b) :
    l.sum ≤ l.length * b := by
  induction l with
  | nil => simp
  | cons a l ih =>
    have h1 := h a (List.mem_cons_self _ _)
    have h2 := ih (fun x hx => h x (List.mem_cons_of_mem _ hx))
    rw [List.sum_cons, List.length_cons, Nat.succ_mul]
    omega

theorem getStableAdcValue_le (f : Nat → Nat)
    (h : ∀ k, k < PRESSURE_RAW_SAMPLES_COUNT → f k ≤ 4095) : getStableAdcValue f ≤ 4095 := by
  rw [getStableAdcValue_sort]
  have hmem : ∀ x ∈ (((burst 7 f).insertionSort (fun a b => a ≤ b)).drop 1).take 5,
      x ≤ 4095 := by
    intro x hx
    have h1 : x ∈ burst 7 f :=
      (List.perm_insertionSort _ _).mem_iff.mp (List.mem_of_mem_drop (List.mem_of_mem_take hx))
    obtain ⟨k, hk, rfl⟩ := List.mem_map.mp h1
    exact h k (List.mem_range.mp hk)
  have hsum := sum_le_of_forall_le _ 4095 hmem
  have hlen : ((((burst 7 f).insertionSort (fun a b => a ≤ b)).drop 1).take 5).length ≤ 5 := by
    rw [List.length_take]
    exact Nat.min_le_left _ _
  apply Nat.div_le_of_le_mul
  calc _ ≤ _ := hsum
    _ ≤ 5 * 4095 := Nat.mul_le_mul_right _ hlen

theorem pressureUpdates_le (es : List Event) (h : ∀ e ∈ es, adcInRange e) :
    ∀ d ∈ pressureUpdates es, d ≤ 4095 := by
  induction es with
  | nil =>
    intro d hd
    simp [pressureUpdates] at hd
  | cons e es ih =>
    have h2 := ih (fun x hx => h x (List.mem_cons_of_mem _ hx))
    have h3 := h e (List.mem_cons_self _ _)
    cases e with
    | cycle inp =>
      intro d hd
      rcases List.mem_cons.mp hd with h4 | h4
      · rw [h4]
        exact getStableAdcValue_le _ h3
      · exact h2 d h4
    | setTemp arg => exact h2
    | resetMaxPressure => exact h2
    | data => exact h2

theorem pressureBar_le (a : ℚ) (h : a ≤ 4095) : pressureBar a ≤ 1184 / 100 := by
  simp only [pressureBar, ESP32_ADC_MAX_VALUE, ESP32_ADC_MAX_VOLTAGE, VOLTS_AT_0_BAR,
    VOLTS_AT_16_BAR, PRESSURE_MAX_BAR]
  split_ifs
  · norm_num
  · linarith

theorem pressureBar_zero (a : ℚ) (h : a ≤ 421) : pressureBar a = 0 := by
  simp only [pressureBar, ESP32_ADC_MAX_VALUE, ESP32_ADC_MAX_VOLTAGE, VOLTS_AT_0_BAR,
    VOLTS_AT_16_BAR, PRESSURE_MAX_BAR]
  rw [if_pos (by linarith)]

theorem pressureBar_nonneg (a : ℚ) : 0 ≤ pressureBar a := by
  simp only [pressureBar]
  split_ifs with h
  · exact le_refl _
  · exact not_lt.mp h

/-- C30. Reported pressure range: in a run from the boot state in which every
raw sample of every burst is in 0..4095, in the pass of `loop()` that ends the
run the despiked value is at most 4095, the smoothed ADC value is in
`[0, 4095]` and the pressure the pass reports is in `[0, 11.84]` bar, with
`11.84 = (3.3 - 0.34) / 4 * 16`, so below `PRESSURE_MAX_BAR`; and the pressure
computed from a smoothed ADC value of at most 421 is exactly 0. -/
theorem reported_pressure_range (es : List Event) (inp : CycleInput)
    (h : ∀ e ∈ es ++ [Event.cycle inp], adcInRange e) :
    getStableAdcValue inp.analogRead ≤ 4095 ∧
    0 ≤ (loop_pressureSmoothing (getStableAdcValue inp.analogRead) (run es boot).press).2 ∧
    (loop_pressureSmoothing (getStableAdcValue inp.analogRead) (run es boot).press).2 ≤ 4095 ∧
    (run (es ++ [Event.cycle inp]) boot).web_pressureBar =
      some (currentPressureBar inp (run es boot)) ∧
    0 ≤ currentPressureBar inp (run es boot) ∧
    currentPressureBar inp (run es boot) ≤ 1184 / 100 ∧
    (1184 / 100 : ℚ) = (33 / 10 - 34 / 100) / 4 * 16 ∧
    currentPressureBar inp (run es boot) < PRESSURE_MAX_BAR ∧
    (∀ a : ℚ, a ≤ 421 → pressureBar a = 0) := by
  have hlast : adcInRange (Event.cycle inp) := h _ (by simp)
  have hinv := pressureInv_run es boot [] pressureInv_boot
  rw [List.nil_append] at hinv
  obtain ⟨-, s6⟩ := pressureInv_step (pressureUpdates es) (run es boot).press
    (getStableAdcValue inp.analogRead) hinv
  have hup : pressureUpdates (es ++ [Event.cycle inp]) =
      pressureUpdates es ++ [getStableAdcValue inp.analogRead] := by
    rw [pressureUpdates_append]
    rfl
  have hall := pressureUpdates_le _ h
  rw [hup] at hall
  have hbound := sum_le_of_forall_le
    ((pressureUpdates es ++ [getStableAdcValue inp.analogRead]).reverse.take 5) 4095
    (fun x hx => hall x (List.mem_reverse.mp (List.mem_of_mem_take hx)))
  have hlen : ((pressureUpdates es ++ [getStableAdcValue inp.analogRead]).reverse.take 5).length =
      min (pressureUpdates es ++ [getStableAdcValue inp.analogRead]).length 5 := by
    rw [List.length_take, List.length_reverse, Nat.min_comm]
  rw [hlen] at hbound
  have hpos : 0 < min (pressureUpdates es ++ [getStableAdcValue inp.analogRead]).length 5 := by
    rw [List.length_append, List.length_singleton]
    omega
  have hposq : (0 : ℚ) <
      ((min (pressureUpdates es ++ [getStableAdcValue inp.analogRead]).length 5 : Nat) : ℚ) :=
    Nat.cast_pos.mpr hpos
  have hlo : 0 ≤
      (loop_pressureSmoothing (getStableAdcValue inp.analogRead) (run es boot).press).2 := by
    rw [s6]
    exact div_nonneg (Nat.cast_nonneg _) (Nat.cast_nonneg _)
  have hhi : (loop_pressureSmoothing (getStableAdcValue inp.analogRead) (run es boot).press).2
      ≤ 4095 := by
    rw [s6, div_le_iff₀ hposq]
    have hq : (((((pressureUpdates es ++ [getStableAdcValue inp.analogRead]).reverse.take 5).sum
        : Nat)) : ℚ) ≤
        (((min (pressureUpdates es ++ [getStableAdcValue inp.analogRead]).length 5 * 4095
        : Nat)) : ℚ) := Nat.cast_le.mpr hbound
    rw [Nat.cast_mul, Nat.cast_ofNat, mul_comm] at hq
    exact hq
  have hbar := pressureBar_le _ hhi
  refine ⟨getStableAdcValue_le _ hlast, hlo, hhi, ?_, pressureBar_nonneg _, hbar, by norm_num,
    lt_of_le_of_lt hbar (by norm_num [PRESSURE_MAX_BAR]), pressureBar_zero⟩
  rw [run_append]
  rfl

/-- A first pass with the pressure pin at full scale: the despiked and the
smoothed value are 4095 and the reported pressure is 11.84 bar. -/
theorem reported_pressure_range_witness :
    (∀ e ∈ [] ++ [Event.cycle (pressureAt 1000 99 4095)], adcInRange e) ∧
    getStableAdcValue (pressureAt 1000 99 4095).analogRead ≤ 4095 ∧
    currentPressureBar (pressureAt 1000 99 4095) (run [] boot) ≤ 1184 / 100 ∧
    currentPressureBar (pressureAt 1000 99 4095) (run [] boot) = 1184 / 100 ∧
    pressureBar 421 = 0 ∧ 0 < pressureBar 422 :=
  ⟨by simp [adcInRange, pressureAt],
   (reported_pressure_range [] (pressureAt 1000 99 4095)
      (by simp [adcInRange, pressureAt])).1,
   (reported_pressure_range [] (pressureAt 1000 99 4095)
      (by simp [adcInRange, pressureAt])).2.2.2.2.2.1,
   by decide!, by decide!, by decide!⟩

end Stilosa
